import Mathlib

/-!
# The Jabra GNP device protocol of fwupd

A shallow embedding of `plugins/jabra-gnp/fu-jabra-gnp-device.c`, followed by
one of the UPD commands of `plugins/logitech-scribe/fu-logitech-scribe-device.c`
(namespace `FuLogitechScribe`).

* Bytes, counters and lengths are natural numbers; where the C type is narrower
  than the value computed, the reduction `% 2 ^ w` is written out.
* A C function `gboolean f(self, ..., GError **error)` becomes a function that
  returns a `Ret`: the device after the call, the data reachable through the
  pointer arguments after the call, the `gboolean`, and what `*error` holds.
* The USB device is the environment.  It is a script: the outcomes of the
  control transfers still to come, the outcomes of the interrupt transfers
  still to come, and the log of the transfers issued so far.
* A function whose C body can read or write outside an array returns an
  `Option`; `none` stands for that undefined behaviour, and `Option.bind`
  carries it through the statements that follow.
-/

namespace FuJabraGnp

/-! ## Constants (lines 15-21) -/

def FU_JABRA_GNP_BUF_SIZE : Nat := 63
def FU_JABRA_GNP_MAX_RETRIES : Nat := 3
def FU_JABRA_GNP_RETRY_DELAY : Nat := 100
def FU_JABRA_GNP_STANDARD_SEND_TIMEOUT : Nat := 3000
def FU_JABRA_GNP_STANDARD_RECEIVE_TIMEOUT : Nat := 1000
def FU_JABRA_GNP_LONG_RECEIVE_TIMEOUT : Nat := 30000
def FU_JABRA_GNP_EXTRA_LONG_RECEIVE_TIMEOUT : Nat := 60000

/-! ## Errors -/

/-- The error codes of the `FWUPD_ERROR` domain that the device code uses. -/
inductive FwupdError where
  | FWUPD_ERROR_INTERNAL
  | FWUPD_ERROR_NOT_SUPPORTED
  | FWUPD_ERROR_READ
  | FWUPD_ERROR_WRITE
deriving DecidableEq, Repr

/-- The message of an error: one constructor per format string of the source,
carrying the arguments of the format. -/
inductive Message where
  /-- The text "failed to write to device: %s". -/
  | failed_to_write (lower : String)
  /-- The text "failed to read from device: %s". -/
  | failed_to_read (lower : String)
  /-- The text "internal error: expected 0xFF, got 0x%02x 0x%02x". -/
  | expected_0xFF (got5 got6 : Nat)
  /-- The text "internal error, buf did not match". -/
  | buf_did_not_match
  /-- The text "cannot find HID interface: %s". -/
  | cannot_find_HID_interface (lower : String)
deriving DecidableEq, Repr

/-- A `GError` of the `FWUPD_ERROR` domain. -/
structure GError where
  code : FwupdError
  message : Message
deriving DecidableEq, Repr

/-! ## The USB device -/

/-- Outcome of one USB transfer: it failed with the message of the USB layer,
or it was carried out. -/
inductive Transfer (α : Type) where
  | failed (message : String)
  | done (value : α)
deriving DecidableEq, Repr

/-- A transfer the code asked the USB device for. -/
inductive UsbEvent where
  /-- Class request 0x09, value 0x0205, host to device, to interface `idx`. -/
  | control_transfer (idx : Nat) (data : List Nat) (length : Nat) (timeout : Nat)
  /-- Interrupt read from `endpoint`. -/
  | interrupt_transfer (endpoint : Nat) (length : Nat) (timeout : Nat)
deriving DecidableEq, Repr

/-- The USB device: what it will answer, and what it has been asked. -/
structure GUsbDevice where
  control : List (Transfer Unit)
  interrupt : List (Transfer (List Nat))
  log : List UsbEvent
deriving DecidableEq, Repr

/-- The bytes of `buf` after a transfer wrote `data` to its start: a transfer
of fewer bytes than the buffer holds leaves the rest as it was, and no more
than the buffer holds is written. -/
def transfer_into (data buf : List Nat) : List Nat :=
  data.take buf.length ++ buf.drop data.length

/-- One control transfer of `length` bytes of `data`.  The device answers with
the next outcome of its script; a device with no outcome left does not answer,
the transfer times out. -/
def g_usb_device_control_transfer (dev : GUsbDevice) (idx : Nat) (data : List Nat)
    (length timeout : Nat) : GUsbDevice × Transfer Unit :=
  let log := dev.log ++ [UsbEvent.control_transfer idx (data.take length) length timeout]
  match dev.control with
  | [] => ({ dev with log := log }, Transfer.failed "timed out")
  | o :: rest => ({ dev with control := rest, log := log }, o)

/-- One interrupt transfer into `data`, of at most `length` bytes.  Returns the
device and, when the transfer is carried out, the bytes of `data` after it. -/
def g_usb_device_interrupt_transfer (dev : GUsbDevice) (endpoint : Nat) (data : List Nat)
    (length timeout : Nat) : GUsbDevice × Transfer (List Nat) :=
  let log := dev.log ++ [UsbEvent.interrupt_transfer endpoint length timeout]
  match dev.interrupt with
  | [] => ({ dev with log := log }, Transfer.failed "timed out")
  | Transfer.failed m :: rest => ({ dev with interrupt := rest, log := log }, Transfer.failed m)
  | Transfer.done frame :: rest =>
    ({ dev with interrupt := rest, log := log },
      Transfer.done (transfer_into (frame.take length) data))

/-! ## The device (lines 23-38) -/

/-- The structure `_FuJabraGnpDevice`; `parent_instance` is the USB device the
object wraps, `version` is `none` for the `NULL` string. -/
structure FuJabraGnpDevice where
  parent_instance : GUsbDevice
  iface_hid : Nat
  sequence_number : Nat
  version : Option (List Nat)
deriving DecidableEq, Repr

/-- The array objects a function body declares.  Two of them are never the
same object, so pointers to two of them never compare equal. -/
inductive ArrayObject where
  | txbuf
  | rxbuf
  | match_buf
deriving DecidableEq, Repr

/-- A pointer to the first byte of an array object, kept together with the
bytes the array holds. -/
structure BytePtr where
  object : ArrayObject
  bytes : List Nat
deriving DecidableEq, Repr

/-- The array `guint8 name[size] = {init...}`: bytes not listed are zero. -/
def array_init (object : ArrayObject) (size : Nat) (init : List Nat) : BytePtr :=
  ⟨object, init.take size ++ List.replicate (size - init.length) 0⟩

/-- The byte `p[i]` of an array of which `i` is known to be an index. -/
def BytePtr.at (p : BytePtr) (i : Nat) : Nat := p.bytes.getD i 0

structure FuJabraGnpSendData where
  txbuf : BytePtr
  timeout : Nat
deriving DecidableEq, Repr

structure FuJabraGnpReceiveData where
  rxbuf : BytePtr
  timeout : Nat
deriving DecidableEq, Repr

/-- What a call leaves behind: the device, the data behind `user_data`, the
returned `gboolean`, and the error stored through `error` (`none`: not set). -/
structure Ret (δ : Type) where
  self : FuJabraGnpDevice
  user_data : δ
  ret : Bool
  error : Option GError
deriving DecidableEq, Repr

/-! ## Send and receive (lines 57-133) -/

def fu_jabra_gnp_device_send (self : FuJabraGnpDevice) (user_data : FuJabraGnpSendData) :
    Ret FuJabraGnpSendData :=
  let send_data := user_data
  match g_usb_device_control_transfer self.parent_instance self.iface_hid
      send_data.txbuf.bytes FU_JABRA_GNP_BUF_SIZE send_data.timeout with
  | (dev, Transfer.failed error_local) =>
    ⟨{ self with parent_instance := dev }, user_data, false,
      some ⟨FwupdError.FWUPD_ERROR_WRITE, Message.failed_to_write error_local⟩⟩
  | (dev, Transfer.done _) => ⟨{ self with parent_instance := dev }, user_data, true, none⟩

def fu_jabra_gnp_device_receive (self : FuJabraGnpDevice) (user_data : FuJabraGnpReceiveData) :
    Ret FuJabraGnpReceiveData :=
  let receive_data := user_data
  match g_usb_device_interrupt_transfer self.parent_instance 0x81
      receive_data.rxbuf.bytes FU_JABRA_GNP_BUF_SIZE receive_data.timeout with
  | (dev, Transfer.failed error_local) =>
    ⟨{ self with parent_instance := dev }, user_data, false,
      some ⟨FwupdError.FWUPD_ERROR_READ, Message.failed_to_read error_local⟩⟩
  | (dev, Transfer.done bytes) =>
    ⟨{ self with parent_instance := dev },
      { receive_data with rxbuf := { receive_data.rxbuf with bytes := bytes } }, true, none⟩

def fu_jabra_gnp_device_receive_with_sequence (self : FuJabraGnpDevice)
    (user_data : FuJabraGnpReceiveData) : Ret FuJabraGnpReceiveData :=
  let r := fu_jabra_gnp_device_receive self user_data
  if r.ret = false then
    ⟨r.self, r.user_data, false, r.error⟩
  else
    let self := r.self
    let receive_data := r.user_data
    if self.sequence_number ≠ receive_data.rxbuf.at 3 then
      -- g_debug("sequence_number error"); the error is not touched
      ⟨self, receive_data, false, none⟩
    else
      -- guint8 sequence_number += 1
      ⟨{ self with sequence_number := (self.sequence_number + 1) % 2 ^ 8 }, receive_data,
        true, none⟩

/-! ## The retry executor -/

/-- Modelled from the spec: `fu_device_retry_full` belongs to the device
library and is not among the sources.  The spec (Retry Executor): it "calls
operation up to max_attempts times", "waiting delay between attempts", "returns
the first success; if all attempts fail, propagates the last operation's error
unchanged"; it "treats any transport failure as retryable", while "a sequence
mismatch or status/pattern mismatch is a protocol error surfaced immediately".
A transport failure is a failure that carries an error (the transport adapters
set one on every failure); a failure that carries no error is handed back at
once, as it is.  Time is not modelled, so `delay` has no effect here. -/
def fu_device_retry_full {δ : Type} (self : FuJabraGnpDevice)
    (func : FuJabraGnpDevice → δ → Ret δ) (count : Nat) (delay : Nat) (user_data : δ) :
    Ret δ :=
  match count with
  | 0 => ⟨self, user_data, false, none⟩
  | n + 1 =>
    let r := func self user_data
    if r.ret = true then r
    else if r.error = none then r
    else if n = 0 then r
    else fu_device_retry_full r.self func n delay r.user_data

/-! ## Commands with a sequence-checked answer (lines 135-238, 264-315, 417-455) -/

/-- The loop `do { version_length++; } while (rxbuf[version_length] != 0x00);`
at the test of `rxbuf[version_length]`: the first argument is what the array
holds from index `version_length` on.  When the index has left the array the
byte read is not a byte of `rxbuf`: `none`. -/
def version_length_loop : List Nat → Nat → Option Nat
  | [], _ => none
  | b :: rest, version_length =>
    if b ≠ 0x00 then version_length_loop rest (version_length + 1) else some version_length

/-- The difference `a - b` computed in `guint` (32 bits, wrapping). -/
def guint_sub (a b : Nat) : Nat := (a % 2 ^ 32 + 2 ^ 32 - b % 2 ^ 32) % 2 ^ 32

/-- A `guint` argument read as the `int` that `*` in a format expects: the
same 32 bits in two's complement. -/
def guint_as_int (u : Nat) : Int := if u % 2 ^ 32 < 2 ^ 31 then (u % 2 ^ 32 : Nat) else (u % 2 ^ 32 : Nat) - 2 ^ 32

/-- The bytes `%s` prints for the array part `p`: those before the first zero
byte.  With no zero byte in the array the read leaves the array: `none`. -/
def printf_s : List Nat → Option (List Nat)
  | [] => none
  | b :: rest => if b = 0 then some [] else (printf_s rest).map (fun s => b :: s)

/-- The bytes `%.Ns` prints for the array part `p`: those before the first
zero byte, and no more than `N`; no byte after the first `N` is read. -/
def printf_s_max : Nat → List Nat → Option (List Nat)
  | 0, _ => some []
  | _ + 1, [] => none
  | n + 1, b :: rest => if b = 0 then some [] else (printf_s_max n rest).map (fun s => b :: s)

/-- The string `g_strdup_printf("%.*s", precision, p)`: a negative precision
is taken as if the precision were omitted. -/
def g_strdup_printf_precision_s (precision : Int) (p : List Nat) : Option (List Nat) :=
  if precision < 0 then printf_s p else printf_s_max precision.toNat p

/-- The statements of `fu_jabra_gnp_device_read_version` after the two phases
(lines 160-164): the do-while loop over `receive_data.rxbuf` and the copy of
the version; `self` is the device after the receive phase. -/
def fu_jabra_gnp_device_read_version_parse (self : FuJabraGnpDevice)
    (receive_data : FuJabraGnpReceiveData) : Option (Ret Unit) :=
  -- guint version_length = 0; the first pass of the do-while makes it 1
  (version_length_loop (receive_data.rxbuf.bytes.drop 1) 1).bind fun version_length =>
  (g_strdup_printf_precision_s (guint_as_int (guint_sub version_length 8))
    (receive_data.rxbuf.bytes.drop 8)).bind fun version =>
  some ⟨{ self with version := some version }, (), true, none⟩

def fu_jabra_gnp_device_read_version (self : FuJabraGnpDevice) : Option (Ret Unit) :=
  let txbuf := array_init ArrayObject.txbuf FU_JABRA_GNP_BUF_SIZE
    [0x05, 0x08, 0x00, self.sequence_number, 0x46, 0x02, 0x03]
  let rxbuf := array_init ArrayObject.rxbuf FU_JABRA_GNP_BUF_SIZE [0x00]
  let send_data : FuJabraGnpSendData := ⟨txbuf, FU_JABRA_GNP_STANDARD_SEND_TIMEOUT⟩
  let receive_data : FuJabraGnpReceiveData := ⟨rxbuf, FU_JABRA_GNP_STANDARD_RECEIVE_TIMEOUT⟩
  let s := fu_device_retry_full self fu_jabra_gnp_device_send FU_JABRA_GNP_MAX_RETRIES
    FU_JABRA_GNP_RETRY_DELAY send_data
  if s.ret = false then some ⟨s.self, (), false, s.error⟩ else
  let r := fu_device_retry_full s.self fu_jabra_gnp_device_receive_with_sequence
    FU_JABRA_GNP_MAX_RETRIES FU_JABRA_GNP_RETRY_DELAY receive_data
  if r.ret = false then some ⟨r.self, (), false, r.error⟩ else
  fu_jabra_gnp_device_read_version_parse r.self r.user_data

def fu_jabra_gnp_device_write_partition (self : FuJabraGnpDevice) (part : Nat) : Ret Unit :=
  let txbuf := array_init ArrayObject.txbuf FU_JABRA_GNP_BUF_SIZE
    [0x05, 0x08, 0x00, self.sequence_number, 0x87, 0x0F, 0x2D, part]
  let rxbuf := array_init ArrayObject.rxbuf FU_JABRA_GNP_BUF_SIZE [0x00]
  let send_data : FuJabraGnpSendData := ⟨txbuf, FU_JABRA_GNP_STANDARD_SEND_TIMEOUT⟩
  let receive_data : FuJabraGnpReceiveData := ⟨rxbuf, FU_JABRA_GNP_STANDARD_RECEIVE_TIMEOUT⟩
  let s := fu_device_retry_full self fu_jabra_gnp_device_send FU_JABRA_GNP_MAX_RETRIES
    FU_JABRA_GNP_RETRY_DELAY send_data
  if s.ret = false then ⟨s.self, (), false, s.error⟩ else
  let r := fu_device_retry_full s.self fu_jabra_gnp_device_receive_with_sequence
    FU_JABRA_GNP_MAX_RETRIES FU_JABRA_GNP_RETRY_DELAY receive_data
  if r.ret = false then ⟨r.self, (), false, r.error⟩ else
  let receive_data := r.user_data
  if receive_data.rxbuf.at 5 ≠ 0xFF then
    ⟨r.self, (), false, some ⟨FwupdError.FWUPD_ERROR_INTERNAL,
      Message.expected_0xFF (receive_data.rxbuf.at 5) (receive_data.rxbuf.at 6)⟩⟩
  else ⟨r.self, (), true, none⟩

def fu_jabra_gnp_device_start (self : FuJabraGnpDevice) : Ret Unit :=
  let txbuf := array_init ArrayObject.txbuf FU_JABRA_GNP_BUF_SIZE
    [0x05, 0x08, 0x00, self.sequence_number, 0x86, 0x0F, 0x17]
  let rxbuf := array_init ArrayObject.rxbuf FU_JABRA_GNP_BUF_SIZE [0x00]
  let send_data : FuJabraGnpSendData := ⟨txbuf, FU_JABRA_GNP_STANDARD_SEND_TIMEOUT⟩
  let receive_data : FuJabraGnpReceiveData := ⟨rxbuf, FU_JABRA_GNP_STANDARD_RECEIVE_TIMEOUT⟩
  let s := fu_device_retry_full self fu_jabra_gnp_device_send FU_JABRA_GNP_MAX_RETRIES
    FU_JABRA_GNP_RETRY_DELAY send_data
  if s.ret = false then ⟨s.self, (), false, s.error⟩ else
  let r := fu_device_retry_full s.self fu_jabra_gnp_device_receive_with_sequence
    FU_JABRA_GNP_MAX_RETRIES FU_JABRA_GNP_RETRY_DELAY receive_data
  if r.ret = false then ⟨r.self, (), false, r.error⟩ else
  let receive_data := r.user_data
  if receive_data.rxbuf.at 5 ≠ 0xFF then
    ⟨r.self, (), false, some ⟨FwupdError.FWUPD_ERROR_INTERNAL,
      Message.expected_0xFF (receive_data.rxbuf.at 5) (receive_data.rxbuf.at 6)⟩⟩
  else ⟨r.self, (), true, none⟩

def fu_jabra_gnp_device_write_crc (self : FuJabraGnpDevice) (crc total_chunks preload_count : Nat) :
    Ret Unit :=
  let txbuf := array_init ArrayObject.txbuf FU_JABRA_GNP_BUF_SIZE
    [0x05, 0x08, 0x00, self.sequence_number, 0x8E, 0x0F, 0x19,
      (crc &&& 0xff) % 2 ^ 8,
      ((crc >>> 8) &&& 0xff) % 2 ^ 8,
      ((crc >>> 16) &&& 0xff) % 2 ^ 8,
      ((crc >>> 24) &&& 0xff) % 2 ^ 8,
      (total_chunks &&& 0xff) % 2 ^ 8,
      ((total_chunks >>> 8) &&& 0xff) % 2 ^ 8,
      (preload_count &&& 0xff) % 2 ^ 8,
      ((preload_count >>> 8) &&& 0xff) % 2 ^ 8]
  let rxbuf := array_init ArrayObject.rxbuf FU_JABRA_GNP_BUF_SIZE [0x00]
  let send_data : FuJabraGnpSendData := ⟨txbuf, FU_JABRA_GNP_STANDARD_SEND_TIMEOUT⟩
  let receive_data : FuJabraGnpReceiveData := ⟨rxbuf, FU_JABRA_GNP_STANDARD_RECEIVE_TIMEOUT⟩
  let s := fu_device_retry_full self fu_jabra_gnp_device_send FU_JABRA_GNP_MAX_RETRIES
    FU_JABRA_GNP_RETRY_DELAY send_data
  if s.ret = false then ⟨s.self, (), false, s.error⟩ else
  let r := fu_device_retry_full s.self fu_jabra_gnp_device_receive_with_sequence
    FU_JABRA_GNP_MAX_RETRIES FU_JABRA_GNP_RETRY_DELAY receive_data
  if r.ret = false then ⟨r.self, (), false, r.error⟩ else
  let receive_data := r.user_data
  if receive_data.rxbuf.at 5 ≠ 0xFF then
    ⟨r.self, (), false, some ⟨FwupdError.FWUPD_ERROR_INTERNAL,
      Message.expected_0xFF (receive_data.rxbuf.at 5) (receive_data.rxbuf.at 6)⟩⟩
  else ⟨r.self, (), true, none⟩

def fu_jabra_gnp_device_write_version (self : FuJabraGnpDevice) (v1 v2 v3 : Nat) : Ret Unit :=
  let txbuf := array_init ArrayObject.txbuf FU_JABRA_GNP_BUF_SIZE
    [0x05, 0x08, 0x00, self.sequence_number, 0x89, 0x0F, 0x1E, v1, v2, v3]
  let rxbuf := array_init ArrayObject.rxbuf FU_JABRA_GNP_BUF_SIZE [0x00]
  let send_data : FuJabraGnpSendData := ⟨txbuf, FU_JABRA_GNP_STANDARD_SEND_TIMEOUT⟩
  let receive_data : FuJabraGnpReceiveData := ⟨rxbuf, FU_JABRA_GNP_STANDARD_RECEIVE_TIMEOUT⟩
  let s := fu_device_retry_full self fu_jabra_gnp_device_send FU_JABRA_GNP_MAX_RETRIES
    FU_JABRA_GNP_RETRY_DELAY send_data
  if s.ret = false then ⟨s.self, (), false, s.error⟩ else
  let r := fu_device_retry_full s.self fu_jabra_gnp_device_receive_with_sequence
    FU_JABRA_GNP_MAX_RETRIES FU_JABRA_GNP_RETRY_DELAY receive_data
  if r.ret = false then ⟨r.self, (), false, r.error⟩ else
  let receive_data := r.user_data
  if receive_data.rxbuf.at 5 ≠ 0xFF then
    ⟨r.self, (), false, some ⟨FwupdError.FWUPD_ERROR_INTERNAL,
      Message.expected_0xFF (receive_data.rxbuf.at 5) (receive_data.rxbuf.at 6)⟩⟩
  else ⟨r.self, (), true, none⟩

/-! ## Waits for a notification (lines 240-262, 393-415) -/

def fu_jabra_gnp_device_flash_erase_done (self : FuJabraGnpDevice) : Ret Unit :=
  let rxbuf := array_init ArrayObject.rxbuf FU_JABRA_GNP_BUF_SIZE [0x00]
  let match_buf := array_init ArrayObject.match_buf FU_JABRA_GNP_BUF_SIZE
    [0x05, 0x08, 0x00, 0x00, 0x06, 0x0F, 0x18]
  let receive_data : FuJabraGnpReceiveData := ⟨rxbuf, FU_JABRA_GNP_EXTRA_LONG_RECEIVE_TIMEOUT⟩
  let r := fu_device_retry_full self fu_jabra_gnp_device_receive FU_JABRA_GNP_MAX_RETRIES
    FU_JABRA_GNP_RETRY_DELAY receive_data
  if r.ret = false then ⟨r.self, (), false, r.error⟩ else
  let receive_data := r.user_data
  -- `receive_data.rxbuf != match_buf` compares two pointers
  if receive_data.rxbuf.object ≠ match_buf.object then
    ⟨r.self, (), false, some ⟨FwupdError.FWUPD_ERROR_INTERNAL, Message.buf_did_not_match⟩⟩
  else ⟨r.self, (), true, none⟩

def fu_jabra_gnp_device_read_verify_status (self : FuJabraGnpDevice) : Ret Unit :=
  let rxbuf := array_init ArrayObject.rxbuf FU_JABRA_GNP_BUF_SIZE [0x00]
  let match_buf := array_init ArrayObject.match_buf FU_JABRA_GNP_BUF_SIZE
    [0x05, 0x08, 0x00, 0x00, 0x06, 0x0F, 0x1C]
  let receive_data : FuJabraGnpReceiveData := ⟨rxbuf, FU_JABRA_GNP_LONG_RECEIVE_TIMEOUT⟩
  let r := fu_device_retry_full self fu_jabra_gnp_device_receive FU_JABRA_GNP_MAX_RETRIES
    FU_JABRA_GNP_RETRY_DELAY receive_data
  if r.ret = false then ⟨r.self, (), false, r.error⟩ else
  let receive_data := r.user_data
  -- `receive_data.rxbuf != match_buf` compares two pointers
  if receive_data.rxbuf.object ≠ match_buf.object then
    ⟨r.self, (), false, some ⟨FwupdError.FWUPD_ERROR_INTERNAL, Message.buf_did_not_match⟩⟩
  else ⟨r.self, (), true, none⟩

/-! ## Chunks (lines 317-391) -/

/-- Modelled from the spec: the chunk type of the device library is not among
the sources.  The spec (Chunk): "a contiguous slice of the firmware image no
larger than a fixed chunk size", with an index. -/
structure FuChunk where
  idx : Nat
  data : List Nat
deriving DecidableEq, Repr

/-- Modelled from the spec: accessor of the device library, the bytes of the slice. -/
def fu_chunk_get_data (chk : FuChunk) : List Nat := chk.data

/-- Modelled from the spec: accessor of the device library, the number of
bytes of the slice, a 32-bit value. -/
def fu_chunk_get_data_sz (chk : FuChunk) : Nat := chk.data.length % 2 ^ 32

/-- The slices of `bytes`, at most `packet_sz` bytes each, the first of them
numbered `idx`; `fuel` bounds the number of slices. -/
def chunk_slices (packet_sz : Nat) : Nat → Nat → List Nat → List FuChunk
  | 0, _, _ => []
  | fuel + 1, idx, bytes =>
    if bytes = [] then []
    else ⟨idx, bytes.take packet_sz⟩ :: chunk_slices packet_sz fuel (idx + 1) (bytes.drop packet_sz)

/-- Modelled from the spec: `fu_chunk_array_new_from_bytes` belongs to the
device library and is not among the sources.  The spec (Chunk, Chunking):
"chunks are produced in strictly increasing index order starting at 0 and
cover the firmware image exactly once with no overlap and no gap"; each chunk
but the last has the chunk size. -/
def fu_chunk_array_new_from_bytes (bytes : List Nat) (_addr_start _page_sz packet_sz : Nat) :
    List FuChunk :=
  chunk_slices packet_sz bytes.length 0 bytes

/-- The call `memcpy(dest + offset, src, n)`.  Writing past the end of `dest`
or reading past the end of `src` is outside the arrays: `none`. -/
def memcpy (dest : BytePtr) (offset : Nat) (src : List Nat) (n : Nat) : Option BytePtr :=
  if offset + n ≤ dest.bytes.length ∧ n ≤ src.length then
    some { dest with bytes := dest.bytes.take offset ++ src.take n ++ dest.bytes.drop (offset + n) }
  else none

def fu_jabra_gnp_device_write_chunk (self : FuJabraGnpDevice) (chunk_number : Nat)
    (data : List Nat) (data_size : Nat) : Option (Ret Unit) :=
  let write_length := (0x00 + data_size) % 2 ^ 8
  let txbuf := array_init ArrayObject.txbuf FU_JABRA_GNP_BUF_SIZE
    [0x05, 0x08, 0x00, 0x00, write_length, 0x0F, 0x19,
      (chunk_number &&& 0xff) % 2 ^ 8,
      ((chunk_number >>> 8) &&& 0xff) % 2 ^ 8,
      (data_size &&& 0xff) % 2 ^ 8,
      ((data_size >>> 8) &&& 0xff) % 2 ^ 8]
  (memcpy txbuf 11 data data_size).bind fun txbuf =>
  let send_data : FuJabraGnpSendData := ⟨txbuf, FU_JABRA_GNP_STANDARD_SEND_TIMEOUT⟩
  let s := fu_device_retry_full self fu_jabra_gnp_device_send FU_JABRA_GNP_MAX_RETRIES
    FU_JABRA_GNP_RETRY_DELAY send_data
  if s.ret = false then some ⟨s.self, (), false, s.error⟩ else
  some ⟨s.self, (), true, none⟩

/-- The body of the `for` loop of `fu_jabra_gnp_device_write_chunks` (lines
359-388) for the chunk `chk` at index `chunk_number`.  The array `rxbuf` is
declared outside the loop; `receive_data.rxbuf` points to it and carries its
bytes from one pass to the next.  `ret = true` stands for reaching the end of
the body. -/
def fu_jabra_gnp_device_write_chunks_body (self : FuJabraGnpDevice) (preload_count : Nat)
    (match_buf : BytePtr) (receive_data : FuJabraGnpReceiveData) (chunk_number : Nat)
    (chk : FuChunk) : Option (Ret FuJabraGnpReceiveData) :=
  (fu_jabra_gnp_device_write_chunk self chunk_number (fu_chunk_get_data chk)
      (fu_chunk_get_data_sz chk)).bind fun w =>
  if w.ret = false then some ⟨w.self, receive_data, false, w.error⟩ else
  if chunk_number % preload_count = 0 then
    let r := fu_device_retry_full w.self fu_jabra_gnp_device_receive FU_JABRA_GNP_MAX_RETRIES
      FU_JABRA_GNP_RETRY_DELAY receive_data
    if r.ret = false then some ⟨r.self, r.user_data, false, r.error⟩ else
    let rxbuf := r.user_data.rxbuf
    -- `rxbuf != match_buf` compares the addresses of two arrays
    if rxbuf.object ≠ match_buf.object then
      some ⟨r.self, r.user_data, false,
        some ⟨FwupdError.FWUPD_ERROR_INTERNAL, Message.buf_did_not_match⟩⟩
    else if decide (((rxbuf.at 8 <<< 8) ||| rxbuf.at 7) = chunk_number) = false then
      some ⟨r.self, r.user_data, false,
        some ⟨FwupdError.FWUPD_ERROR_INTERNAL, Message.buf_did_not_match⟩⟩
    else some ⟨r.self, r.user_data, true, none⟩
  else some ⟨w.self, receive_data, true, none⟩

/-- The `for` loop of `fu_jabra_gnp_device_write_chunks` from index
`chunk_number` on; the first argument holds the chunks from that index on. -/
def fu_jabra_gnp_device_write_chunks_loop (preload_count : Nat) (match_buf : BytePtr) :
    List FuChunk → Nat → FuJabraGnpDevice → FuJabraGnpReceiveData → Option (Ret Unit)
  | [], _, self, _ => some ⟨self, (), true, none⟩
  | chk :: rest, chunk_number, self, receive_data =>
    (fu_jabra_gnp_device_write_chunks_body self preload_count match_buf receive_data
        chunk_number chk).bind fun b =>
    if b.ret = false then some ⟨b.self, (), false, b.error⟩
    else fu_jabra_gnp_device_write_chunks_loop preload_count match_buf rest (chunk_number + 1)
      b.self b.user_data

def fu_jabra_gnp_device_write_chunks (self : FuJabraGnpDevice) (chunks : List FuChunk) :
    Option (Ret Unit) :=
  let preload_count := 100
  let rxbuf := array_init ArrayObject.rxbuf FU_JABRA_GNP_BUF_SIZE [0x00]
  let match_buf := array_init ArrayObject.match_buf FU_JABRA_GNP_BUF_SIZE
    [0x05, 0x08, 0x00, 0x00, 0x06, 0x0F, 0x1B]
  let receive_data : FuJabraGnpReceiveData := ⟨rxbuf, FU_JABRA_GNP_LONG_RECEIVE_TIMEOUT⟩
  fu_jabra_gnp_device_write_chunks_loop preload_count match_buf chunks 0 self receive_data

/-! ## Writing the firmware (lines 547-585) -/

/-- The value of `!f` where `f` names a function: a function is not a null
pointer, whatever `f` is. -/
def function_is_null {α : Sort u} (_f : α) : Bool := false

/-- The body of the `while` loop of `fu_jabra_gnp_device_write_firmware` (lines
561-580) for the partition `part`; `user_data` of the result is `crc`. -/
def fu_jabra_gnp_device_write_firmware_body (self : FuJabraGnpDevice) (firmware : List Nat)
    (part : Nat) (crc : Nat) : Option (Ret Nat) :=
  let chunk_size := 52
  let p := fu_jabra_gnp_device_write_partition self part
  if p.ret = false then some ⟨p.self, crc, false, p.error⟩ else
  let s := fu_jabra_gnp_device_start p.self
  if s.ret = false then some ⟨s.self, crc, false, s.error⟩ else
  let e := fu_jabra_gnp_device_flash_erase_done s.self
  if e.ret = false then some ⟨e.self, crc, false, e.error⟩ else
  let crc := (((crc &&& 0xffff) <<< 16) ||| ((crc &&& 0xffff0000) >>> 16)) % 2 ^ 32
  -- `if (!fu_jabra_gnp_device_write_crc)`: the function is named, not called
  if function_is_null fu_jabra_gnp_device_write_crc = true then
    some ⟨e.self, crc, false, none⟩ else
  let chunks := fu_chunk_array_new_from_bytes firmware 0x00 0x00 chunk_size
  (fu_jabra_gnp_device_write_chunks e.self chunks).bind fun c =>
  if c.ret = false then some ⟨c.self, crc, false, c.error⟩ else
  let v := fu_jabra_gnp_device_read_verify_status c.self
  if v.ret = false then some ⟨v.self, crc, false, v.error⟩ else
  let w := fu_jabra_gnp_device_write_version v.self 0x01 0x02 0x03
  if w.ret = false then some ⟨w.self, crc, false, w.error⟩ else
  some ⟨w.self, crc, true, none⟩

/-- The loop `while (part != 0x00) { ... }`; `fuel` bounds the number of tests
of the condition, and `none` is also the answer when it does not suffice. -/
def fu_jabra_gnp_device_write_firmware_loop (firmware : List Nat) (part : Nat) :
    Nat → FuJabraGnpDevice → Nat → Option (Ret Unit)
  | 0, _, _ => none
  | fuel + 1, self, crc =>
    if part ≠ 0x00 then
      (fu_jabra_gnp_device_write_firmware_body self firmware part crc).bind fun b =>
      if b.ret = false then some ⟨b.self, (), false, b.error⟩
      else fu_jabra_gnp_device_write_firmware_loop firmware part fuel b.self b.user_data
    else some ⟨self, (), true, none⟩

def fu_jabra_gnp_device_write_firmware (fuel : Nat) (device : FuJabraGnpDevice)
    (firmware : List Nat) : Option (Ret Unit) :=
  let part := 0x00
  let crc := 0
  let self := device
  fu_jabra_gnp_device_write_firmware_loop firmware part fuel self crc

/-! ## Devices and states the statements refer to -/

/-- The device after one interrupt read that was carried out. -/
def after_read (self : FuJabraGnpDevice) (rest : List (Transfer (List Nat))) (timeout : Nat) :
    FuJabraGnpDevice :=
  { self with parent_instance :=
      { self.parent_instance with
        interrupt := rest
        log := self.parent_instance.log ++
          [UsbEvent.interrupt_transfer 0x81 FU_JABRA_GNP_BUF_SIZE timeout] } }

/-- A device in session with sequence number 255 to which the next read hands
a frame with 255 at offset 3. -/
def witness_dev_255 : FuJabraGnpDevice :=
  ⟨⟨[], [Transfer.done ([0x05, 0x08, 0x00, 255, 0x00, 0xFF] ++ List.replicate 57 0)], []⟩,
    3, 255, none⟩

/-- The send phase of a command: the retry executor around the send of the
array `txbuf[63] = {init...}` with the standard timeout. -/
def send_phase (self : FuJabraGnpDevice) (init : List Nat) : Ret FuJabraGnpSendData :=
  fu_device_retry_full self fu_jabra_gnp_device_send FU_JABRA_GNP_MAX_RETRIES
    FU_JABRA_GNP_RETRY_DELAY
    ⟨array_init ArrayObject.txbuf FU_JABRA_GNP_BUF_SIZE init, FU_JABRA_GNP_STANDARD_SEND_TIMEOUT⟩

/-- The receive phase of a command: the retry executor around the
sequence-checked receive into a zeroed `rxbuf[63]` with the standard timeout. -/
def receive_phase (self : FuJabraGnpDevice) : Ret FuJabraGnpReceiveData :=
  fu_device_retry_full self fu_jabra_gnp_device_receive_with_sequence FU_JABRA_GNP_MAX_RETRIES
    FU_JABRA_GNP_RETRY_DELAY
    ⟨array_init ArrayObject.rxbuf FU_JABRA_GNP_BUF_SIZE [0x00],
      FU_JABRA_GNP_STANDARD_RECEIVE_TIMEOUT⟩

/-- The frame with initial bytes `init` was sent for, and a response was read
and accepted by the sequence check: `rxbuf` is the response, `session` the
device after it. -/
def Answered (self : FuJabraGnpDevice) (init : List Nat) (session : FuJabraGnpDevice)
    (rxbuf : BytePtr) : Prop :=
  (send_phase self init).ret = true ∧
  (receive_phase (send_phase self init).self).ret = true ∧
  session = (receive_phase (send_phase self init).self).self ∧
  rxbuf = (receive_phase (send_phase self init).self).user_data.rxbuf

/-- The result `c` of a command is what the status check makes of the response
`rxbuf`: success iff the byte at offset 5 is 0xFF, else the internal error
with the bytes at offsets 5 and 6. -/
def StatusChecked (c : Ret Unit) (session : FuJabraGnpDevice) (rxbuf : BytePtr) : Prop :=
  c.self = session ∧
  (c.ret = true ↔ rxbuf.at 5 = 0xFF) ∧
  (rxbuf.at 5 = 0xFF → c.error = none) ∧
  (rxbuf.at 5 ≠ 0xFF → c.ret = false ∧ c.error = some ⟨FwupdError.FWUPD_ERROR_INTERNAL,
    Message.expected_0xFF (rxbuf.at 5) (rxbuf.at 6)⟩)

/-- A 63-byte response: the given first bytes, then zeros. -/
def frame (init : List Nat) : List Nat := init ++ List.replicate (63 - init.length) 0

/-- A device in session with sequence number 0 that accepts the next send and
then answers with sequence byte 0, status byte 0x00 and 0x2A at offset 6. -/
def witness_dev_status_00 : FuJabraGnpDevice :=
  ⟨⟨[Transfer.done ()], [Transfer.done (frame [0x05, 0x08, 0x00, 0x00, 0x00, 0x00, 0x2A])], []⟩,
    3, 0, none⟩

/-- A device in session with sequence number 0 that accepts the next send and
then answers with eight zero bytes followed by 'v', '1', '.', '0' and zeros. -/
def witness_dev_version : FuJabraGnpDevice :=
  ⟨⟨[Transfer.done ()],
      [Transfer.done (frame [0, 0, 0, 0, 0, 0, 0, 0, 0x76, 0x31, 0x2E, 0x30])], []⟩,
    3, 0, none⟩

/-- Whether a call that may leave the defined behaviour returned `TRUE`. -/
def succeeded {δ : Type} (c : Option (Ret δ)) : Bool :=
  match c with
  | none => false
  | some c => c.ret

/-- A device whose next interrupt read hands over exactly the bytes of the
`match_buf` of `fu_jabra_gnp_device_flash_erase_done`. -/
def dev_erase_done : FuJabraGnpDevice :=
  ⟨⟨[], [Transfer.done (array_init ArrayObject.match_buf FU_JABRA_GNP_BUF_SIZE
      [0x05, 0x08, 0x00, 0x00, 0x06, 0x0F, 0x18]).bytes], []⟩, 3, 2, none⟩

/-- A device whose next interrupt read hands over exactly the bytes of the
`match_buf` of `fu_jabra_gnp_device_read_verify_status`. -/
def dev_verify_status : FuJabraGnpDevice :=
  ⟨⟨[], [Transfer.done (array_init ArrayObject.match_buf FU_JABRA_GNP_BUF_SIZE
      [0x05, 0x08, 0x00, 0x00, 0x06, 0x0F, 0x1C]).bytes], []⟩, 3, 2, none⟩

/-- A device that accepts the next send and then acknowledges chunk 0: the
bytes 05 08 00 00 06 0F 1B, then the index 0 in 16 bits, then zeros. -/
def dev_chunk_ack : FuJabraGnpDevice :=
  ⟨⟨[Transfer.done ()],
      [Transfer.done (frame [0x05, 0x08, 0x00, 0x00, 0x06, 0x0F, 0x1B, 0x00, 0x00])], []⟩,
    3, 2, none⟩

/-- A device in session with sequence number 0 whose next interrupt read
hands over a frame with sequence byte 1. -/
def dev_stale_response : FuJabraGnpDevice :=
  ⟨⟨[], [Transfer.done (frame [0x05, 0x08, 0x00, 0x01, 0x00, 0xFF])], []⟩, 3, 0, none⟩

/-- A device in session with sequence number 0 that accepts every send and
answers every step of a firmware write the way the protocol asks for: status
0xFF with the sequence numbers 0 and 1, the erase-done notification, status
0xFF with sequence number 2, the acknowledgment of chunk 0, the verify
notification, status 0xFF with sequence number 3. -/
def dev_full_pass : FuJabraGnpDevice :=
  ⟨⟨List.replicate 20 (Transfer.done ()),
      [Transfer.done (frame [0x05, 0x08, 0x00, 0x00, 0x00, 0xFF]),
        Transfer.done (frame [0x05, 0x08, 0x00, 0x01, 0x00, 0xFF]),
        Transfer.done (frame [0x05, 0x08, 0x00, 0x00, 0x06, 0x0F, 0x18]),
        Transfer.done (frame [0x05, 0x08, 0x00, 0x02, 0x00, 0xFF]),
        Transfer.done (frame [0x05, 0x08, 0x00, 0x00, 0x06, 0x0F, 0x1B, 0x00, 0x00]),
        Transfer.done (frame [0x05, 0x08, 0x00, 0x00, 0x06, 0x0F, 0x1C]),
        Transfer.done (frame [0x05, 0x08, 0x00, 0x03, 0x00, 0xFF])], []⟩,
    3, 0, none⟩

/-- The commands whose answer goes through the sequence check. -/
inductive Command where
  | read_version
  | write_partition (part : Nat)
  | start
  | write_crc (crc total_chunks preload_count : Nat)
  | write_version (v1 v2 v3 : Nat)
deriving DecidableEq, Repr

/-- The call of the function of the command. -/
def Command.run (c : Command) (self : FuJabraGnpDevice) : Option (Ret Unit) :=
  match c with
  | Command.read_version => fu_jabra_gnp_device_read_version self
  | Command.write_partition part => some (fu_jabra_gnp_device_write_partition self part)
  | Command.start => some (fu_jabra_gnp_device_start self)
  | Command.write_crc crc total_chunks preload_count =>
    some (fu_jabra_gnp_device_write_crc self crc total_chunks preload_count)
  | Command.write_version v1 v2 v3 => some (fu_jabra_gnp_device_write_version self v1 v2 v3)

/-- The bytes the command lists for its `txbuf` in a session with the given
sequence number. -/
def Command.txbuf (c : Command) (sequence_number : Nat) : List Nat :=
  match c with
  | Command.read_version => [0x05, 0x08, 0x00, sequence_number, 0x46, 0x02, 0x03]
  | Command.write_partition part => [0x05, 0x08, 0x00, sequence_number, 0x87, 0x0F, 0x2D, part]
  | Command.start => [0x05, 0x08, 0x00, sequence_number, 0x86, 0x0F, 0x17]
  | Command.write_crc crc total_chunks preload_count =>
    [0x05, 0x08, 0x00, sequence_number, 0x8E, 0x0F, 0x19,
      (crc &&& 0xff) % 2 ^ 8, ((crc >>> 8) &&& 0xff) % 2 ^ 8,
      ((crc >>> 16) &&& 0xff) % 2 ^ 8, ((crc >>> 24) &&& 0xff) % 2 ^ 8,
      (total_chunks &&& 0xff) % 2 ^ 8, ((total_chunks >>> 8) &&& 0xff) % 2 ^ 8,
      (preload_count &&& 0xff) % 2 ^ 8, ((preload_count >>> 8) &&& 0xff) % 2 ^ 8]
  | Command.write_version v1 v2 v3 => [0x05, 0x08, 0x00, sequence_number, 0x89, 0x0F, 0x1E, v1, v2, v3]

/-- The check of the status byte that ends a command, on the device `self`
after the receive phase and the response in `receive_data`. -/
def status_check (self : FuJabraGnpDevice) (receive_data : FuJabraGnpReceiveData) : Ret Unit :=
  if receive_data.rxbuf.at 5 ≠ 0xFF then
    ⟨self, (), false, some ⟨FwupdError.FWUPD_ERROR_INTERNAL,
      Message.expected_0xFF (receive_data.rxbuf.at 5) (receive_data.rxbuf.at 6)⟩⟩
  else ⟨self, (), true, none⟩

/-- What the command does with an accepted response. -/
def Command.finish (c : Command) (self : FuJabraGnpDevice)
    (receive_data : FuJabraGnpReceiveData) : Option (Ret Unit) :=
  match c with
  | Command.read_version => fu_jabra_gnp_device_read_version_parse self receive_data
  | _ => some (status_check self receive_data)

/-- The device after one control transfer of the array `txbuf[63] = {init...}`
that was carried out. -/
def after_send (self : FuJabraGnpDevice) (rest : List (Transfer Unit)) (init : List Nat) :
    FuJabraGnpDevice :=
  { self with parent_instance :=
      { self.parent_instance with
        control := rest
        log := self.parent_instance.log ++
          [UsbEvent.control_transfer self.iface_hid
            ((array_init ArrayObject.txbuf FU_JABRA_GNP_BUF_SIZE init).bytes.take
              FU_JABRA_GNP_BUF_SIZE)
            FU_JABRA_GNP_BUF_SIZE FU_JABRA_GNP_STANDARD_SEND_TIMEOUT] } }

/-- A device in session with sequence number 0 that accepts the next send,
then hands over a frame with sequence byte 7, then one with sequence byte 0
and status 0xFF. -/
def dev_mismatch_then_match : FuJabraGnpDevice :=
  ⟨⟨[Transfer.done ()],
      [Transfer.done (frame [0x05, 0x08, 0x00, 0x07, 0x00, 0xFF]),
        Transfer.done (frame [0x05, 0x08, 0x00, 0x00, 0x00, 0xFF])], []⟩,
    3, 0, none⟩

/-- A device in session with sequence number 0 that accepts the next send and
then hands over three frames with the sequence bytes 7, 8 and 9. -/
def dev_three_mismatches : FuJabraGnpDevice :=
  ⟨⟨[Transfer.done ()],
      [Transfer.done (frame [0x05, 0x08, 0x00, 0x07, 0x00, 0xFF]),
        Transfer.done (frame [0x05, 0x08, 0x00, 0x08, 0x00, 0xFF]),
        Transfer.done (frame [0x05, 0x08, 0x00, 0x09, 0x00, 0xFF])], []⟩,
    3, 0, none⟩

/-- The session after `k` calls of `fu_jabra_gnp_device_receive_with_sequence`
in a row that all accepted their response; `none` when one of them did not. -/
def accepted_responses : Nat → FuJabraGnpDevice → FuJabraGnpReceiveData → Option FuJabraGnpDevice
  | 0, self, _ => some self
  | k + 1, self, user_data =>
    if (fu_jabra_gnp_device_receive_with_sequence self user_data).ret = true then
      accepted_responses k (fu_jabra_gnp_device_receive_with_sequence self user_data).self
        (fu_jabra_gnp_device_receive_with_sequence self user_data).user_data
    else none

/-- A device in session with sequence number 254 that hands over three frames
with the sequence bytes 254, 255 and 0. -/
def dev_wrap_around : FuJabraGnpDevice :=
  ⟨⟨[], [Transfer.done (frame [0x05, 0x08, 0x00, 254, 0x00, 0xFF]),
      Transfer.done (frame [0x05, 0x08, 0x00, 255, 0x00, 0xFF]),
      Transfer.done (frame [0x05, 0x08, 0x00, 0, 0x00, 0xFF])], []⟩, 3, 254, none⟩

/-- The device after `k` control transfers of the array `txbuf[63] = {init...}`
with the standard timeout, with `rest` left of the script. -/
def after_sends (self : FuJabraGnpDevice) (rest : List (Transfer Unit)) (init : List Nat)
    (k : Nat) : FuJabraGnpDevice :=
  { self with parent_instance :=
      { self.parent_instance with
        control := rest
        log := self.parent_instance.log ++ List.replicate k
          (UsbEvent.control_transfer self.iface_hid
            ((array_init ArrayObject.txbuf FU_JABRA_GNP_BUF_SIZE init).bytes.take
              FU_JABRA_GNP_BUF_SIZE)
            FU_JABRA_GNP_BUF_SIZE FU_JABRA_GNP_STANDARD_SEND_TIMEOUT) } }

/-- The device after `k` interrupt reads with the given timeout, with `rest`
left of the script. -/
def after_reads (self : FuJabraGnpDevice) (rest : List (Transfer (List Nat))) (timeout : Nat)
    (k : Nat) : FuJabraGnpDevice :=
  { self with parent_instance :=
      { self.parent_instance with
        interrupt := rest
        log := self.parent_instance.log ++ List.replicate k
          (UsbEvent.interrupt_transfer 0x81 FU_JABRA_GNP_BUF_SIZE timeout) } }

/-- A device in session with sequence number 0 whose first control transfer
fails and whose second is accepted, and whose first two interrupt reads fail
and whose third hands over a frame with sequence byte 0. -/
def dev_transient_failures : FuJabraGnpDevice :=
  ⟨⟨[Transfer.failed "stall", Transfer.done ()],
      [Transfer.failed "timeout", Transfer.failed "timeout",
        Transfer.done (frame [0x05, 0x08, 0x00, 0x00, 0x00, 0xFF])], []⟩, 3, 0, none⟩

/-- A device on which three control transfers and three interrupt reads fail. -/
def dev_dead : FuJabraGnpDevice :=
  ⟨⟨[Transfer.failed "a", Transfer.failed "b", Transfer.failed "c"],
      [Transfer.failed "x", Transfer.failed "y", Transfer.failed "z"], []⟩, 3, 0, none⟩

/-- The frame of a command as the wire format has it: the header
`05 08 00 seq`, the opcode, group and sub-code bytes, the payload, and zeros
up to the frame size. -/
def command_frame (sequence_number opcode group subcode : Nat) (payload : List Nat) :
    List Nat :=
  [0x05, 0x08, 0x00, sequence_number, opcode, group, subcode] ++ payload ++
    List.replicate (56 - payload.length) 0

/-- Between the devices `before` and `after` the frame `data` was handed to
between one and three control transfers of 63 bytes with the standard
timeout, no other frame was, and only interrupt reads followed. -/
def SendsOnly (before after : FuJabraGnpDevice) (data : List Nat) : Prop :=
  ∃ k tail, 1 ≤ k ∧ k ≤ 3 ∧
    after.parent_instance.log = before.parent_instance.log ++
      List.replicate k (UsbEvent.control_transfer before.iface_hid data FU_JABRA_GNP_BUF_SIZE
        FU_JABRA_GNP_STANDARD_SEND_TIMEOUT) ++ tail ∧
    ∀ e ∈ tail, ∃ timeout, e = UsbEvent.interrupt_transfer 0x81 FU_JABRA_GNP_BUF_SIZE timeout

/-- The 16-bit little-endian value at `offset` of `buf`. -/
def read_uint16_le (buf : List Nat) (offset : Nat) : Nat :=
  buf.getD offset 0 + 2 ^ 8 * buf.getD (offset + 1) 0

/-- The 32-bit little-endian value at `offset` of `buf`. -/
def read_uint32_le (buf : List Nat) (offset : Nat) : Nat :=
  buf.getD offset 0 + 2 ^ 8 * buf.getD (offset + 1) 0 + 2 ^ 16 * buf.getD (offset + 2) 0 +
    2 ^ 24 * buf.getD (offset + 3) 0

/-- A device in session with sequence number 0 that accepts the next send and
then answers with the 63 bytes 05 08 00 00 46 02 03 00 followed by 55 times
'v': the sequence byte is the expected one, and no byte at the offsets 8..62
is zero. -/
def dev_unterminated_version : FuJabraGnpDevice :=
  ⟨⟨[Transfer.done ()],
      [Transfer.done ([0x05, 0x08, 0x00, 0x00, 0x46, 0x02, 0x03, 0x00] ++
        List.replicate 55 0x76)], []⟩, 3, 0, none⟩

/-! ## Probe (lines 42-55, 493-511) -/

/-- The value of `G_USB_DEVICE_CLASS_HID` in the enumeration of the USB
library. -/
def G_USB_DEVICE_CLASS_HID : Nat := 0x03

/-- An interface of the USB device: its class and its number, both `guint8`. -/
structure GUsbInterface where
  interface_class : Nat
  number : Nat
deriving DecidableEq, Repr

def g_usb_interface_get_class (intf : GUsbInterface) : Nat := intf.interface_class

def g_usb_interface_get_number (intf : GUsbInterface) : Nat := intf.number

/-- The `for` loop of `_g_usb_device_get_interface_for_class` over the
interfaces from index `i` on, and the `return 0xff` after it. -/
def get_interface_for_class_loop (intf_class : Nat) : List GUsbInterface → Nat
  | [] => 0xff
  | intf :: rest =>
    if g_usb_interface_get_class intf = intf_class then g_usb_interface_get_number intf
    else get_interface_for_class_loop intf_class rest

/-- The function `_g_usb_device_get_interface_for_class`.  The argument
`intfs` is the outcome of `g_usb_device_get_interfaces(dev, error)`: it failed
and set the error to a message, or it handed over the list.  The result is the
returned `guint8` and what `*error` holds afterwards (`none`: still `NULL`). -/
def _g_usb_device_get_interface_for_class (intfs : Transfer (List GUsbInterface))
    (intf_class : Nat) : Nat × Option String :=
  match intfs with
  | Transfer.failed message => (0xff, some message)
  | Transfer.done intfs => (get_interface_for_class_loop intf_class intfs, none)

/-- The function `fu_jabra_gnp_device_probe`; `intfs` is what the USB device
answers to `g_usb_device_get_interfaces`.  Reading `error_local->message`
while `error_local` is `NULL` is outside the defined behaviour: `none`. -/
def fu_jabra_gnp_device_probe (self : FuJabraGnpDevice)
    (intfs : Transfer (List GUsbInterface)) : Option (Ret Unit) :=
  -- `error_local` is `NULL` at first; the callee stores through `&error_local`
  match _g_usb_device_get_interface_for_class intfs G_USB_DEVICE_CLASS_HID with
  | (iface_hid, error_local) =>
    let self := { self with iface_hid := iface_hid % 2 ^ 8 }
    if self.iface_hid = 0xff then
      error_local.bind fun message =>
      some ⟨self, (), false,
        some ⟨FwupdError.FWUPD_ERROR_NOT_SUPPORTED, Message.cannot_find_HID_interface message⟩⟩
    else some ⟨self, (), true, none⟩

/-- A device with no outcome scripted and nothing logged, before `probe`. -/
def dev_unprobed : FuJabraGnpDevice := ⟨⟨[], [], []⟩, 0, 0, none⟩

end FuJabraGnp

/-!
# The UPD commands of `fu-logitech-scribe-device.c`

The second device speaks a type-length-value protocol over two bulk endpoints.
The same conventions hold as for the first device: a call returns the device
it leaves behind, the returned `gboolean` and the error stored through `error`;
the USB device is a script of outcomes and a log of the transfers asked for.
The field `udev_device` of the device structure is not used by the functions
embedded here and is left out.
-/

namespace FuLogitechScribe

open FuJabraGnp (Transfer transfer_into FuChunk fu_chunk_get_data fu_chunk_get_data_sz
  fu_chunk_array_new_from_bytes)

/-! ## Constants (lines 23-57) -/

/-- The value of `sizeof(guint32)`. -/
def sizeof_guint32 : Nat := 4

def UPD_PACKET_HEADER_SIZE : Nat := 2 * sizeof_guint32
def HASH_TIMEOUT : Nat := 300
def MAX_DATA_SIZE : Nat := 8192
def PAYLOAD_SIZE : Nat := MAX_DATA_SIZE - UPD_PACKET_HEADER_SIZE
def BULK_TRANSFER_TIMEOUT : Nat := 1000
def HASH_VALUE_SIZE : Nat := 16
def LENGTH_OFFSET : Nat := 0x4
def COMMAND_OFFSET : Nat := 0x0
def MAX_RETRIES : Nat := 5

def SHA_256 : Nat := 0
def SHA_512 : Nat := 1
def MD5 : Nat := 2

def EP_OUT : Nat := 0
def EP_IN : Nat := 1
def EP_LAST : Nat := 2

def BULK_INTERFACE_UPD : Int := 0
def BULK_INTERFACE_SYNC : Int := 1

def CMD_CHECK_BUFFERSIZE : Nat := 0xCC00
def CMD_INIT : Nat := 0xCC01
def CMD_START_TRANSFER : Nat := 0xCC02
def CMD_DATA_TRANSFER : Nat := 0xCC03
def CMD_END_TRANSFER : Nat := 0xCC04
def CMD_UNINIT : Nat := 0xCC05
def CMD_ACK : Nat := 0xFF01
def CMD_TIMEOUT : Nat := 0xFF02
def CMD_NACK : Nat := 0xFF03

/-! ## Errors -/

/-- The domains of the errors that reach the functions embedded here. -/
inductive GErrorDomain where
  | G_IO_ERROR
  | G_USB_DEVICE_ERROR
  | FWUPD_ERROR
deriving DecidableEq, Repr

/-- The message of an error: one constructor per text of the source; a text
put in front of the message of another error carries that message. -/
inductive Message where
  /-- The message of an error of the USB library. -/
  | lower (text : String)
  /-- The message of an error that a function of the device library sets; the
  text is not in the sources. -/
  | of_device_library
  /-- The text "interface is invalid". -/
  | interface_is_invalid
  /-- The text "failed to send using bulk transfer: " in front of `inner`. -/
  | failed_to_send_using_bulk_transfer (inner : Message)
  /-- The text "failed to receive using bulk transfer: " in front of `inner`. -/
  | failed_to_receive_using_bulk_transfer (inner : Message)
  /-- The text "not CMD_ACK, got %x". -/
  | not_CMD_ACK (got : Nat)
  /-- The text "invalid upd message received, expected %x, got %x". -/
  | invalid_upd_message_received (expected got : Nat)
  /-- The text "failed to send data packet 0x%x: " in front of `inner`. -/
  | failed_to_send_data_packet (i : Nat) (inner : Message)
  /-- The text "failed to write init transfer packet: please reboot the
  device: " in front of `inner`. -/
  | failed_to_write_init_transfer_packet (inner : Message)
  /-- The text "failed to write start transfer packet: " in front of `inner`. -/
  | failed_to_write_start_transfer_packet (inner : Message)
  /-- The text "failed to write end transfer transfer packet: " in front of
  `inner`. -/
  | failed_to_write_end_transfer_transfer_packet (inner : Message)
  /-- The text "failed to write finish transfer packet: " in front of
  `inner`. -/
  | failed_to_write_finish_transfer_packet (inner : Message)
deriving DecidableEq, Repr

structure GError where
  domain : GErrorDomain
  message : Message
deriving DecidableEq, Repr

/-- The call `g_prefix_error(error, text)`, with `text` as the constructor
that puts it in front: it changes the message of an error that is set, and
does nothing when `*error` is `NULL`. -/
def g_prefix_error (error : Option GError) (text : Message → Message) : Option GError :=
  error.map fun e => { e with message := text e.message }

/-! ## The USB device -/

/-- A bulk transfer the code asked the USB device for: the endpoint, the
`length` bytes of the buffer as they were handed over, and the timeout. -/
inductive UsbEvent where
  | bulk_transfer (ep : Nat) (data : List Nat) (length : Nat) (timeout : Nat)
deriving DecidableEq, Repr

/-- The USB device: what it will answer to the bulk transfers, and what it
has been asked. -/
structure GUsbDevice where
  bulk : List (Transfer (List Nat))
  log : List UsbEvent
deriving DecidableEq, Repr

/-- One bulk transfer with the buffer `data` of `length` bytes.  The device
answers with the next outcome of its script: the transfer failed, or it was
carried out and the device handed over the bytes `value` (none for a transfer
to the device), which are then at the start of the buffer.  A device with no
outcome left does not answer, the transfer times out. -/
def g_usb_device_bulk_transfer (dev : GUsbDevice) (ep : Nat) (data : List Nat)
    (length timeout : Nat) : GUsbDevice × Transfer (List Nat) :=
  let log := dev.log ++ [UsbEvent.bulk_transfer ep (data.take length) length timeout]
  match dev.bulk with
  | [] => ({ dev with log := log }, Transfer.failed "timed out")
  | Transfer.failed m :: rest => ({ bulk := rest, log := log }, Transfer.failed m)
  | Transfer.done value :: rest =>
    ({ bulk := rest, log := log }, Transfer.done (transfer_into (value.take length) data))

/-! ## The device (lines 77-82) -/

/-- The structure `_FuLogitechScribeDevice`; `update_ep` is an array of
`EP_LAST` endpoint addresses. -/
structure FuLogitechScribeDevice where
  parent_instance : GUsbDevice
  update_ep : List Nat
  update_iface : Nat
deriving DecidableEq, Repr

/-- What a call leaves behind: the device, the byte array behind `buf`, the
returned `gboolean`, and the error stored through `error` (`none`: not set). -/
structure Ret (δ : Type) where
  self : FuLogitechScribeDevice
  buf : δ
  ret : Bool
  error : Option GError
deriving DecidableEq, Repr

/-! ## Byte arrays -/

inductive FuEndianType where
  | G_BIG_ENDIAN
  | G_LITTLE_ENDIAN
deriving DecidableEq, Repr

/-- The call `g_byte_array_append(array, data, len)`. -/
def g_byte_array_append (array : List Nat) (data : List Nat) (len : Nat) : List Nat :=
  array ++ data.take len

/-- Modelled from the spec: `fu_byte_array_append_uint32` belongs to the
device library and is not among the sources.  The spec (TLV wire format):
"two little-endian 32-bit fields"; the value is appended as four bytes in the
byte order asked for. -/
def fu_byte_array_append_uint32 (array : List Nat) (data : Nat) (endian : FuEndianType) :
    List Nat :=
  let b0 := data % 2 ^ 8
  let b1 := data / 2 ^ 8 % 2 ^ 8
  let b2 := data / 2 ^ 16 % 2 ^ 8
  let b3 := data / 2 ^ 24 % 2 ^ 8
  match endian with
  | FuEndianType.G_LITTLE_ENDIAN => array ++ [b0, b1, b2, b3]
  | FuEndianType.G_BIG_ENDIAN => array ++ [b3, b2, b1, b0]

/-- Modelled from the spec: `fu_byte_array_append_uint64` belongs to the
device library and is not among the sources.  The spec (TLV wire format): "an
8-byte little-endian size"; the value is appended as eight bytes in the byte
order asked for. -/
def fu_byte_array_append_uint64 (array : List Nat) (data : Nat) (endian : FuEndianType) :
    List Nat :=
  let le := (List.range 8).map fun i => data / 2 ^ (8 * i) % 2 ^ 8
  match endian with
  | FuEndianType.G_LITTLE_ENDIAN => array ++ le
  | FuEndianType.G_BIG_ENDIAN => array ++ le.reverse

/-- Modelled from the spec: `fu_byte_array_set_size` belongs to the device
library and is not among the sources.  The array is cut or padded with `data`
to `length` bytes; the spec has the response buffer of the TLV protocol of the
size of the largest packet. -/
def fu_byte_array_set_size (array : List Nat) (length : Nat) (data : Nat) : List Nat :=
  array.take length ++ List.replicate (length - array.length) data

/-- Modelled from the spec: `fu_memread_uint32_safe` belongs to the device
library and is not among the sources.  It reads the 32-bit value at `offset`
in the byte order asked for when the four bytes lie inside the `bufsz` bytes
of `buf`, and fails otherwise (`none`). -/
def fu_memread_uint32_safe (buf : List Nat) (bufsz offset : Nat) (endian : FuEndianType) :
    Option Nat :=
  if offset + 4 ≤ bufsz ∧ bufsz ≤ buf.length then
    let b0 := buf.getD offset 0
    let b1 := buf.getD (offset + 1) 0
    let b2 := buf.getD (offset + 2) 0
    let b3 := buf.getD (offset + 3) 0
    match endian with
    | FuEndianType.G_LITTLE_ENDIAN => some (b0 + 2 ^ 8 * b1 + 2 ^ 16 * b2 + 2 ^ 24 * b3)
    | FuEndianType.G_BIG_ENDIAN => some (b3 + 2 ^ 8 * b2 + 2 ^ 16 * b1 + 2 ^ 24 * b0)
  else none

/-! ## Send and receive (lines 176-236) -/

/-- The function `fu_logitech_scribe_device_send`; `buf` is not `NULL` at any
call. -/
def fu_logitech_scribe_device_send (self : FuLogitechScribeDevice) (buf : List Nat)
    (interface_id : Int) : Ret (List Nat) :=
  if interface_id = BULK_INTERFACE_UPD then
    let ep := self.update_ep.getD EP_OUT 0
    match g_usb_device_bulk_transfer self.parent_instance ep buf buf.length
        BULK_TRANSFER_TIMEOUT with
    | (dev, Transfer.failed m) =>
      ⟨{ self with parent_instance := dev }, buf, false,
        g_prefix_error (some ⟨GErrorDomain.G_USB_DEVICE_ERROR, Message.lower m⟩)
          Message.failed_to_send_using_bulk_transfer⟩
    | (dev, Transfer.done data) => ⟨{ self with parent_instance := dev }, data, true, none⟩
  else
    ⟨self, buf, false, some ⟨GErrorDomain.G_IO_ERROR, Message.interface_is_invalid⟩⟩

/-- The function `fu_logitech_scribe_device_recv`; `buf` is not `NULL` at any
call. -/
def fu_logitech_scribe_device_recv (self : FuLogitechScribeDevice) (buf : List Nat)
    (interface_id : Int) (timeout : Nat) : Ret (List Nat) :=
  if interface_id = BULK_INTERFACE_UPD then
    let ep := self.update_ep.getD EP_IN 0
    match g_usb_device_bulk_transfer self.parent_instance ep buf buf.length timeout with
    | (dev, Transfer.failed m) =>
      ⟨{ self with parent_instance := dev }, buf, false,
        g_prefix_error (some ⟨GErrorDomain.G_USB_DEVICE_ERROR, Message.lower m⟩)
          Message.failed_to_receive_using_bulk_transfer⟩
    | (dev, Transfer.done data) => ⟨{ self with parent_instance := dev }, data, true, none⟩
  else
    ⟨self, buf, false, some ⟨GErrorDomain.G_IO_ERROR, Message.interface_is_invalid⟩⟩

/-! ## One command (lines 238-304) -/

/-- The statements of `fu_logitech_scribe_device_send_upd_cmd` after the
receive (lines 275-303): the two reads of `buf_ack` and the two comparisons;
`self` is the device after the receive. -/
def fu_logitech_scribe_device_send_upd_cmd_check (self : FuLogitechScribeDevice) (cmd : Nat)
    (buf_ack : List Nat) : Ret Unit :=
  match fu_memread_uint32_safe buf_ack buf_ack.length COMMAND_OFFSET
      FuEndianType.G_LITTLE_ENDIAN with
  | none =>
    ⟨self, (), false, some ⟨GErrorDomain.FWUPD_ERROR, Message.of_device_library⟩⟩
  | some cmd_tmp =>
    if cmd_tmp ≠ CMD_ACK then
      ⟨self, (), false, some ⟨GErrorDomain.G_IO_ERROR, Message.not_CMD_ACK cmd⟩⟩
    else
      match fu_memread_uint32_safe buf_ack buf_ack.length UPD_PACKET_HEADER_SIZE
          FuEndianType.G_LITTLE_ENDIAN with
      | none =>
        ⟨self, (), false,
          some ⟨GErrorDomain.FWUPD_ERROR, Message.of_device_library⟩⟩
      | some cmd_tmp =>
        if cmd_tmp ≠ cmd then
          ⟨self, (), false,
            some ⟨GErrorDomain.G_IO_ERROR, Message.invalid_upd_message_received cmd cmd_tmp⟩⟩
        else ⟨self, (), true, none⟩

/-- The function `fu_logitech_scribe_device_send_upd_cmd`; `buf` is `none`
for `NULL`.  The length of a byte array is a `guint`. -/
def fu_logitech_scribe_device_send_upd_cmd (self : FuLogitechScribeDevice) (cmd : Nat)
    (buf : Option (List Nat)) : Ret Unit :=
  let timeout := BULK_TRANSFER_TIMEOUT
  let buf_pkt : List Nat := []
  let buf_ack : List Nat := []
  let buf_pkt := fu_byte_array_append_uint32 buf_pkt cmd FuEndianType.G_LITTLE_ENDIAN
  let buf_pkt := fu_byte_array_append_uint32 buf_pkt
    (match buf with
      | some buf => buf.length
      | none => 0) FuEndianType.G_LITTLE_ENDIAN
  let buf_pkt :=
    match buf with
    | some buf => g_byte_array_append buf_pkt buf buf.length
    | none => buf_pkt
  let s := fu_logitech_scribe_device_send self buf_pkt BULK_INTERFACE_UPD
  if s.ret = false then ⟨s.self, (), false, s.error⟩ else
  let self := s.self
  let buf_ack := fu_byte_array_set_size buf_ack MAX_DATA_SIZE 0x00
  let timeout := if CMD_END_TRANSFER = cmd then HASH_TIMEOUT else timeout
  let r := fu_logitech_scribe_device_recv self buf_ack BULK_INTERFACE_UPD timeout
  if r.ret = false then ⟨r.self, (), false, r.error⟩ else
  fu_logitech_scribe_device_send_upd_cmd_check r.self cmd r.buf

/-! ## The hash (lines 306-315) -/

/-- The character of GLib's Base64 alphabet for the six bits `v`. -/
def base64_char (v : Nat) : Nat :=
  if v < 26 then 65 + v
  else if v < 52 then 97 + (v - 26)
  else if v < 62 then 48 + (v - 52)
  else if v = 62 then 43
  else 47

/-- The function `g_base64_encode` of GLib on the bytes `data`: the
characters of the string it returns, without the terminating zero. -/
def g_base64_encode : List Nat → List Nat
  | a :: b :: c :: rest =>
    [base64_char (a >>> 2), base64_char (((a &&& 3) <<< 4) ||| (b >>> 4)),
      base64_char (((b &&& 15) <<< 2) ||| (c >>> 6)), base64_char (c &&& 63)] ++
      g_base64_encode rest
  | [a, b] =>
    [base64_char (a >>> 2), base64_char (((a &&& 3) <<< 4) ||| (b >>> 4)),
      base64_char ((b &&& 15) <<< 2), 61]
  | [a] => [base64_char (a >>> 2), base64_char ((a &&& 3) <<< 4), 61, 61]
  | [] => []

/-- The call `strlen(s)` for a string kept as its characters before the
terminating zero. -/
def strlen (s : List Nat) : Nat := s.length

/-- The function `fu_logitech_scribe_device_compute_hash`.  The digest of
GLib's `G_CHECKSUM_MD5` is not part of the program: `md5` stands for it, the
16 bytes of the MD5 digest of its argument, which `g_checksum_get_digest`
stores in `md5buf`. -/
def fu_logitech_scribe_device_compute_hash (md5 : List Nat → List Nat) (data : List Nat) :
    List Nat :=
  let md5buf := List.replicate HASH_VALUE_SIZE 0
  let data_len := md5buf.length
  let md5buf := transfer_into ((md5 data).take data_len) md5buf
  g_base64_encode (md5buf.take md5buf.length)

/-! ## Writing the firmware (lines 317-434) -/

def fu_logitech_scribe_device_send_upd_init_cmd_cb (device : FuLogitechScribeDevice) :
    Ret Unit :=
  let self := device
  fu_logitech_scribe_device_send_upd_cmd self CMD_INIT none

/-- Modelled from the spec: `fu_device_retry` belongs to the device library
and is not among the sources.  The spec (Retry Executor): it "calls operation
up to max_attempts times", "returns the first success; if all attempts fail,
propagates the last operation's error unchanged"; it "treats any transport
failure as retryable".  As for the first device, a failure that carries no
error is handed back at once. -/
def fu_device_retry (self : FuLogitechScribeDevice)
    (func : FuLogitechScribeDevice → Ret Unit) (count : Nat) : Ret Unit :=
  match count with
  | 0 => ⟨self, (), false, none⟩
  | n + 1 =>
    let r := func self
    if r.ret = true then r
    else if r.error = none then r
    else if n = 0 then r
    else fu_device_retry r.self func n

/-- The `for` loop of `fu_logitech_scribe_device_write_fw` from index `i` on;
the first argument holds the chunks from that index on. -/
def fu_logitech_scribe_device_write_fw_loop :
    List FuChunk → Nat → FuLogitechScribeDevice → Ret Unit
  | [], _, self => ⟨self, (), true, none⟩
  | chk :: rest, i, self =>
    let data_pkt : List Nat := []
    let data_pkt := g_byte_array_append data_pkt (fu_chunk_get_data chk)
      (fu_chunk_get_data_sz chk)
    let r := fu_logitech_scribe_device_send_upd_cmd self CMD_DATA_TRANSFER (some data_pkt)
    if r.ret = false then
      ⟨r.self, (), false, g_prefix_error r.error (Message.failed_to_send_data_packet i)⟩
    else fu_logitech_scribe_device_write_fw_loop rest (i + 1) r.self

def fu_logitech_scribe_device_write_fw (self : FuLogitechScribeDevice) (fw : List Nat) :
    Ret Unit :=
  let chunks := fu_chunk_array_new_from_bytes fw 0x0 0x0 PAYLOAD_SIZE
  fu_logitech_scribe_device_write_fw_loop chunks 0 self

/-- The firmware container: `bytes` is what `fu_firmware_get_bytes` hands
over, `none` when it fails. -/
structure FuFirmware where
  bytes : Option (List Nat)
deriving DecidableEq, Repr

/-- Modelled from the spec: `fu_firmware_get_bytes` belongs to the device
library and is not among the sources.  The spec (collaborator interface):
"firmware-container→raw bytes". -/
def fu_firmware_get_bytes (firmware : FuFirmware) : Option (List Nat) := firmware.bytes

/-- The function `fu_logitech_scribe_device_write_firmware`; `md5` stands for
the digest of GLib (see `fu_logitech_scribe_device_compute_hash`).  The calls
that report progress and the wait at the end have no part in the result. -/
def fu_logitech_scribe_device_write_firmware (device : FuLogitechScribeDevice)
    (firmware : FuFirmware) (md5 : List Nat → List Nat) : Ret Unit :=
  let self := device
  let end_pkt : List Nat := []
  let start_pkt : List Nat := []
  match fu_firmware_get_bytes firmware with
  | none =>
    ⟨self, (), false, some ⟨GErrorDomain.FWUPD_ERROR, Message.of_device_library⟩⟩
  | some fw =>
    let i := fu_device_retry device fu_logitech_scribe_device_send_upd_init_cmd_cb MAX_RETRIES
    if i.ret = false then
      ⟨i.self, (), false, g_prefix_error i.error Message.failed_to_write_init_transfer_packet⟩
    else
    let self := i.self
    -- g_bytes_get_size(fw) is a `gsize`
    let start_pkt := fu_byte_array_append_uint64 start_pkt (fw.length % 2 ^ 64)
      FuEndianType.G_LITTLE_ENDIAN
    let s := fu_logitech_scribe_device_send_upd_cmd self CMD_START_TRANSFER (some start_pkt)
    if s.ret = false then
      ⟨s.self, (), false, g_prefix_error s.error Message.failed_to_write_start_transfer_packet⟩
    else
    let self := s.self
    let w := fu_logitech_scribe_device_write_fw self fw
    if w.ret = false then ⟨w.self, (), false, w.error⟩ else
    let self := w.self
    let base64hash := fu_logitech_scribe_device_compute_hash md5 fw
    let end_pkt := fu_byte_array_append_uint32 end_pkt 1 FuEndianType.G_LITTLE_ENDIAN
    let end_pkt := fu_byte_array_append_uint32 end_pkt 0 FuEndianType.G_LITTLE_ENDIAN
    let end_pkt := fu_byte_array_append_uint32 end_pkt MD5 FuEndianType.G_LITTLE_ENDIAN
    let end_pkt := g_byte_array_append end_pkt base64hash (strlen base64hash)
    let e := fu_logitech_scribe_device_send_upd_cmd self CMD_END_TRANSFER (some end_pkt)
    if e.ret = false then
      ⟨e.self, (), false,
        g_prefix_error e.error Message.failed_to_write_end_transfer_transfer_packet⟩
    else
    let self := e.self
    -- the error of this call goes to `error_local`; `*error` is not set
    let u := fu_logitech_scribe_device_send_upd_cmd self CMD_UNINIT none
    if u.ret = false then
      ⟨u.self, (), false, g_prefix_error none Message.failed_to_write_finish_transfer_packet⟩
    else
    ⟨u.self, (), true, none⟩

/-! ## Packets and exchanges the statements refer to -/

/-- The four bytes of a 32-bit value on the wire, least significant first. -/
def uint32_le (v : Nat) : List Nat :=
  [v % 256, v / 256 % 256, v / 65536 % 256, v / 16777216 % 256]

/-- The packet of the wire format for the command code `cmd` and the payload
`payload`: the code and the length of the payload as 32-bit little-endian
values, then the payload. -/
def upd_packet (cmd : Nat) (payload : List Nat) : List Nat :=
  uint32_le cmd ++ uint32_le payload.length ++ payload

/-- The payload behind the argument `buf` of a command: empty for `NULL`. -/
def payload_of (buf : Option (List Nat)) : List Nat := buf.getD []

/-- A device with the endpoints 0x02 (out) and 0x83 (in) that accepts the next
packet and acknowledges a `CMD_START_TRANSFER`: the answer is the code of
`CMD_ACK`, a payload length of 4, and the code of the command, all 32-bit
little-endian. -/
def dev_ack_start : FuLogitechScribeDevice :=
  ⟨⟨[Transfer.done [], Transfer.done [0x01, 0xFF, 0, 0, 4, 0, 0, 0, 0x02, 0xCC, 0, 0]], []⟩,
    [0x02, 0x83], 0⟩

/-- The answer that acknowledges the command `cmd`: the code of `CMD_ACK`, a
payload length of 4, and the code of the command, all 32-bit little-endian. -/
def ack_of (cmd : Nat) : List Nat := upd_packet CMD_ACK (uint32_le cmd)

/-- A device with the endpoints 0x02 (out) and 0x83 (in) that accepts every
packet of an update with one data packet and acknowledges each command. -/
def dev_full_update : FuLogitechScribeDevice :=
  ⟨⟨[Transfer.done [], Transfer.done (ack_of CMD_INIT),
      Transfer.done [], Transfer.done (ack_of CMD_START_TRANSFER),
      Transfer.done [], Transfer.done (ack_of CMD_DATA_TRANSFER),
      Transfer.done [], Transfer.done (ack_of CMD_END_TRANSFER),
      Transfer.done [], Transfer.done (ack_of CMD_UNINIT)], []⟩,
    [0x02, 0x83], 0⟩

/-- The MD5 digest of the three bytes 61 62 63 ("abc"), for every argument. -/
def md5_of_abc (_data : List Nat) : List Nat :=
  [0x90, 0x01, 0x50, 0x98, 0x3C, 0xD2, 0x4F, 0xB0, 0xD6, 0x96, 0x3F, 0x7D, 0x28, 0xE1, 0x7F, 0x72]

/-- The two transfers of a command that is sent and answered: the packet to
the endpoint `update_ep[EP_OUT]` with the standard timeout, and one read of
`MAX_DATA_SIZE` bytes into a zeroed buffer from the endpoint
`update_ep[EP_IN]`, with the timeout of the command. -/
def exchange (update_ep : List Nat) (cmd : Nat) (payload : List Nat) : List UsbEvent :=
  [UsbEvent.bulk_transfer (update_ep.getD EP_OUT 0) (upd_packet cmd payload)
      (8 + payload.length) BULK_TRANSFER_TIMEOUT,
    UsbEvent.bulk_transfer (update_ep.getD EP_IN 0) (List.replicate MAX_DATA_SIZE 0)
      MAX_DATA_SIZE (if cmd = CMD_END_TRANSFER then HASH_TIMEOUT else BULK_TRANSFER_TIMEOUT)]

/-- The eight bytes of a 64-bit value on the wire, least significant first. -/
def uint64_le (v : Nat) : List Nat :=
  [v % 256, v / 2 ^ 8 % 256, v / 2 ^ 16 % 256, v / 2 ^ 24 % 256, v / 2 ^ 32 % 256,
    v / 2 ^ 40 % 256, v / 2 ^ 48 % 256, v / 2 ^ 56 % 256]

/-- The transfers of the data packets of the chunks `chunks`, each sent and
answered. -/
def data_exchanges (update_ep : List Nat) : List FuChunk → List UsbEvent
  | [] => []
  | chk :: rest =>
    exchange update_ep CMD_DATA_TRANSFER (fu_chunk_get_data chk) ++
      data_exchanges update_ep rest

/-- The send of a command: `fu_logitech_scribe_device_send` with the packet of
the command `cmd` and the payload behind `buf`. -/
def upd_sent (self : FuLogitechScribeDevice) (cmd : Nat) (buf : Option (List Nat)) :
    Ret (List Nat) :=
  fu_logitech_scribe_device_send self (upd_packet cmd (payload_of buf)) BULK_INTERFACE_UPD

/-- The receive of a command: `fu_logitech_scribe_device_recv` after the send,
into a zeroed `buf_ack` of `MAX_DATA_SIZE` bytes, with the timeout of the
command; `buf` of the result is the response. -/
def upd_response (self : FuLogitechScribeDevice) (cmd : Nat) (buf : Option (List Nat)) :
    Ret (List Nat) :=
  fu_logitech_scribe_device_recv (upd_sent self cmd buf).self
    (fu_byte_array_set_size [] MAX_DATA_SIZE 0x00) BULK_INTERFACE_UPD
    (if CMD_END_TRANSFER = cmd then HASH_TIMEOUT else BULK_TRANSFER_TIMEOUT)

/-- A device with the endpoints 0x02 (out) and 0x83 (in) that accepts the next
packet and acknowledges a `CMD_END_TRANSFER`. -/
def dev_ack_end : FuLogitechScribeDevice :=
  ⟨⟨[Transfer.done [], Transfer.done (ack_of CMD_END_TRANSFER)], []⟩, [0x02, 0x83], 0⟩

/-- A device with the endpoints 0x02 (out) and 0x83 (in) that accepts the next
packet and answers with the code of `CMD_NACK`, a payload length of 4 and the
code of `CMD_START_TRANSFER`. -/
def dev_nack_start : FuLogitechScribeDevice :=
  ⟨⟨[Transfer.done [], Transfer.done (upd_packet CMD_NACK (uint32_le CMD_START_TRANSFER))],
    []⟩, [0x02, 0x83], 0⟩

end FuLogitechScribe

namespace FuJabraGnp

/-- A device in session with sequence number 0 that accepts the next send,
whose first interrupt read fails, and that then hands over a frame with
sequence byte 7 and one with sequence byte 0 and status 0xFF. -/
def dev_failure_then_mismatch : FuJabraGnpDevice :=
  ⟨⟨[Transfer.done ()],
      [Transfer.failed "timeout",
        Transfer.done (frame [0x05, 0x08, 0x00, 0x07, 0x00, 0xFF]),
        Transfer.done (frame [0x05, 0x08, 0x00, 0x00, 0x00, 0xFF])], []⟩,
    3, 0, none⟩

/-! ## Lemmas on transfers -/

theorem transfer_into_full (data buf : List Nat) (h : data.length = buf.length) :
    transfer_into data buf = data := by
  unfold transfer_into
  rw [List.take_of_length_le (le_of_eq h), List.drop_of_length_le (le_of_eq h.symm)]
  simp

theorem transfer_into_length (data buf : List Nat) :
    (transfer_into data buf).length = buf.length := by
  unfold transfer_into
  simp only [List.length_append, List.length_take, List.length_drop]
  omega

theorem array_init_length (object : ArrayObject) (size : Nat) (init : List Nat) :
    (array_init object size init).bytes.length = size := by
  unfold array_init
  simp only [List.length_append, List.length_take, List.length_replicate]
  omega

/-- A read that is carried out with a frame of the size of the buffer leaves
the frame in the buffer and takes the frame off the script. -/
theorem receive_done (self : FuJabraGnpDevice) (user_data : FuJabraGnpReceiveData)
    (r : List Nat) (rest : List (Transfer (List Nat)))
    (hrx : self.parent_instance.interrupt = Transfer.done r :: rest)
    (hr : r.length = FU_JABRA_GNP_BUF_SIZE)
    (hbuf : user_data.rxbuf.bytes.length = FU_JABRA_GNP_BUF_SIZE) :
    fu_jabra_gnp_device_receive self user_data =
      ⟨{ self with parent_instance :=
          { self.parent_instance with
            interrupt := rest
            log := self.parent_instance.log ++
              [UsbEvent.interrupt_transfer 0x81 FU_JABRA_GNP_BUF_SIZE user_data.timeout] } },
        { user_data with rxbuf := { user_data.rxbuf with bytes := r } }, true, none⟩ := by
  have h1 : r.take FU_JABRA_GNP_BUF_SIZE = r := List.take_of_length_le (le_of_eq hr)
  have h2 : transfer_into r user_data.rxbuf.bytes = r :=
    transfer_into_full _ _ (by rw [hr, hbuf])
  simp only [fu_jabra_gnp_device_receive, g_usb_device_interrupt_transfer, hrx, h1, h2]

/-- A read that fails leaves the buffer as it was. -/
theorem receive_failed (self : FuJabraGnpDevice) (user_data : FuJabraGnpReceiveData)
    (h : (fu_jabra_gnp_device_receive self user_data).ret = false) :
    (fu_jabra_gnp_device_receive self user_data).user_data = user_data ∧
    (fu_jabra_gnp_device_receive self user_data).self.sequence_number = self.sequence_number ∧
    ∃ m, (fu_jabra_gnp_device_receive self user_data).error =
      some ⟨FwupdError.FWUPD_ERROR_READ, Message.failed_to_read m⟩ := by
  revert h
  simp only [fu_jabra_gnp_device_receive, g_usb_device_interrupt_transfer]
  rcases self.parent_instance.interrupt with _ | ⟨o, rest⟩
  · intro _; exact ⟨rfl, rfl, _, rfl⟩
  · cases o with
    | failed m => intro _; exact ⟨rfl, rfl, _, rfl⟩
    | done f => intro h; simp at h

/-- The sequence check on a read that is carried out with a 63-byte frame. -/
theorem receive_with_sequence_done (self : FuJabraGnpDevice) (user_data : FuJabraGnpReceiveData)
    (r : List Nat) (rest : List (Transfer (List Nat)))
    (hrx : self.parent_instance.interrupt = Transfer.done r :: rest)
    (hr : r.length = FU_JABRA_GNP_BUF_SIZE)
    (hbuf : user_data.rxbuf.bytes.length = FU_JABRA_GNP_BUF_SIZE) :
    fu_jabra_gnp_device_receive_with_sequence self user_data =
      if self.sequence_number ≠ r.getD 3 0 then
        ⟨after_read self rest user_data.timeout,
          { user_data with rxbuf := { user_data.rxbuf with bytes := r } }, false, none⟩
      else
        ⟨{ after_read self rest user_data.timeout with
            sequence_number := (self.sequence_number + 1) % 2 ^ 8 },
          { user_data with rxbuf := { user_data.rxbuf with bytes := r } }, true, none⟩ := by
  have hd := receive_done self user_data r rest hrx hr hbuf
  unfold fu_jabra_gnp_device_receive_with_sequence
  rw [hd]
  rfl

/-! ## Theorems -/

/-- C1: `fu_jabra_gnp_device_receive_with_sequence`, for every sequence number
`s` of the session and every read that is carried out with a 63-byte frame `r`,
accepts the response iff `r[3] = s`; when it accepts, the sequence number of the
session becomes `(s + 1) mod 256`; when it rejects, and when the read fails,
the sequence number stays `s`. -/
theorem receive_with_sequence_accepts_iff (self : FuJabraGnpDevice)
    (user_data : FuJabraGnpReceiveData) :
    (∀ (r : List Nat) (rest : List (Transfer (List Nat))),
      self.parent_instance.interrupt = Transfer.done r :: rest →
      r.length = FU_JABRA_GNP_BUF_SIZE →
      user_data.rxbuf.bytes.length = FU_JABRA_GNP_BUF_SIZE →
      ((fu_jabra_gnp_device_receive_with_sequence self user_data).ret = true ↔
        r.getD 3 0 = self.sequence_number) ∧
      ((fu_jabra_gnp_device_receive_with_sequence self user_data).ret = true →
        (fu_jabra_gnp_device_receive_with_sequence self user_data).self.sequence_number =
          (self.sequence_number + 1) % 256) ∧
      ((fu_jabra_gnp_device_receive_with_sequence self user_data).ret = false →
        (fu_jabra_gnp_device_receive_with_sequence self user_data).self.sequence_number =
          self.sequence_number)) ∧
    ((fu_jabra_gnp_device_receive self user_data).ret = false →
      (fu_jabra_gnp_device_receive_with_sequence self user_data).ret = false ∧
      (fu_jabra_gnp_device_receive_with_sequence self user_data).self.sequence_number =
        self.sequence_number) := by
  constructor
  · intro r rest hrx hr hbuf
    rw [receive_with_sequence_done self user_data r rest hrx hr hbuf]
    by_cases hs : self.sequence_number = r.getD 3 0
    · rw [if_neg (not_not.mpr hs)]
      exact ⟨⟨fun _ => hs.symm, fun _ => rfl⟩, fun _ => rfl, fun h => Bool.noConfusion h⟩
    · rw [if_pos hs]
      exact ⟨⟨fun h => Bool.noConfusion h, fun h => absurd h.symm hs⟩,
        fun h => Bool.noConfusion h, fun _ => rfl⟩
  · intro h
    have hf := receive_failed self user_data h
    simp [fu_jabra_gnp_device_receive_with_sequence, h, hf.2.1]

theorem receive_with_sequence_accepts_iff_witness :
    ((fu_jabra_gnp_device_receive_with_sequence witness_dev_255
        ⟨array_init ArrayObject.rxbuf 63 [0], 1000⟩).ret = true ↔
      ([0x05, 0x08, 0x00, 255, 0x00, 0xFF] ++ List.replicate 57 0).getD 3 0 = 255) ∧
    ((fu_jabra_gnp_device_receive_with_sequence witness_dev_255
        ⟨array_init ArrayObject.rxbuf 63 [0], 1000⟩).ret = true →
      (fu_jabra_gnp_device_receive_with_sequence witness_dev_255
        ⟨array_init ArrayObject.rxbuf 63 [0], 1000⟩).self.sequence_number = 0) ∧
    ((fu_jabra_gnp_device_receive_with_sequence witness_dev_255
        ⟨array_init ArrayObject.rxbuf 63 [0], 1000⟩).ret = false →
      (fu_jabra_gnp_device_receive_with_sequence witness_dev_255
        ⟨array_init ArrayObject.rxbuf 63 [0], 1000⟩).self.sequence_number = 255) :=
  (receive_with_sequence_accepts_iff witness_dev_255
    ⟨array_init ArrayObject.rxbuf 63 [0], 1000⟩).1 _ [] rfl (by decide) (by decide)

/-- The status check shared by the commands, on the result of the two phases. -/
theorem status_checked_of_phases (self : FuJabraGnpDevice) (init : List Nat)
    (session : FuJabraGnpDevice) (rxbuf : BytePtr) (c : Ret Unit)
    (h : Answered self init session rxbuf)
    (hc : c =
      if (send_phase self init).ret = false then
        ⟨(send_phase self init).self, (), false, (send_phase self init).error⟩
      else if (receive_phase (send_phase self init).self).ret = false then
        ⟨(receive_phase (send_phase self init).self).self, (), false,
          (receive_phase (send_phase self init).self).error⟩
      else if (receive_phase (send_phase self init).self).user_data.rxbuf.at 5 ≠ 0xFF then
        ⟨(receive_phase (send_phase self init).self).self, (), false,
          some ⟨FwupdError.FWUPD_ERROR_INTERNAL,
            Message.expected_0xFF ((receive_phase (send_phase self init).self).user_data.rxbuf.at 5)
              ((receive_phase (send_phase self init).self).user_data.rxbuf.at 6)⟩⟩
      else ⟨(receive_phase (send_phase self init).self).self, (), true, none⟩) :
    StatusChecked c session rxbuf := by
  obtain ⟨h1, h2, h3, h4⟩ := h
  subst h3 h4
  rw [if_neg (by rw [h1]; decide), if_neg (by rw [h2]; decide)] at hc
  by_cases h5 : (receive_phase (send_phase self init).self).user_data.rxbuf.at 5 = 0xFF
  · rw [if_neg (not_not.mpr h5)] at hc
    subst hc
    exact ⟨rfl, ⟨fun _ => h5, fun _ => rfl⟩, fun _ => rfl, fun h => absurd h5 h⟩
  · rw [if_pos h5] at hc
    subst hc
    exact ⟨rfl, ⟨fun h => Bool.noConfusion h, fun h => absurd h h5⟩, fun h => absurd h h5,
      fun _ => ⟨rfl, rfl⟩⟩

/-- C2: `fu_jabra_gnp_device_write_partition`, and by the same check
`fu_jabra_gnp_device_start`, `fu_jabra_gnp_device_write_crc` and
`fu_jabra_gnp_device_write_version`: for every argument and every response
that was sent for, read and accepted by the sequence check, the command
succeeds iff the byte of the response at offset 5 is 0xFF; otherwise it fails
with the error that reports the bytes at offsets 5 and 6. -/
theorem status_byte_decides (self : FuJabraGnpDevice)
    (part crc total_chunks preload_count v1 v2 v3 : Nat) :
    (∀ session rxbuf,
      Answered self [0x05, 0x08, 0x00, self.sequence_number, 0x87, 0x0F, 0x2D, part]
        session rxbuf →
      StatusChecked (fu_jabra_gnp_device_write_partition self part) session rxbuf) ∧
    (∀ session rxbuf,
      Answered self [0x05, 0x08, 0x00, self.sequence_number, 0x86, 0x0F, 0x17] session rxbuf →
      StatusChecked (fu_jabra_gnp_device_start self) session rxbuf) ∧
    (∀ session rxbuf,
      Answered self [0x05, 0x08, 0x00, self.sequence_number, 0x8E, 0x0F, 0x19,
        (crc &&& 0xff) % 2 ^ 8, ((crc >>> 8) &&& 0xff) % 2 ^ 8,
        ((crc >>> 16) &&& 0xff) % 2 ^ 8, ((crc >>> 24) &&& 0xff) % 2 ^ 8,
        (total_chunks &&& 0xff) % 2 ^ 8, ((total_chunks >>> 8) &&& 0xff) % 2 ^ 8,
        (preload_count &&& 0xff) % 2 ^ 8, ((preload_count >>> 8) &&& 0xff) % 2 ^ 8]
        session rxbuf →
      StatusChecked (fu_jabra_gnp_device_write_crc self crc total_chunks preload_count)
        session rxbuf) ∧
    (∀ session rxbuf,
      Answered self [0x05, 0x08, 0x00, self.sequence_number, 0x89, 0x0F, 0x1E, v1, v2, v3]
        session rxbuf →
      StatusChecked (fu_jabra_gnp_device_write_version self v1 v2 v3) session rxbuf) :=
  ⟨fun _ _ h => status_checked_of_phases _ _ _ _ _ h rfl,
    fun _ _ h => status_checked_of_phases _ _ _ _ _ h rfl,
    fun _ _ h => status_checked_of_phases _ _ _ _ _ h rfl,
    fun _ _ h => status_checked_of_phases _ _ _ _ _ h rfl⟩

theorem status_byte_decides_witness :
    StatusChecked (fu_jabra_gnp_device_write_partition witness_dev_status_00 1)
      (receive_phase (send_phase witness_dev_status_00
        [0x05, 0x08, 0x00, 0, 0x87, 0x0F, 0x2D, 1]).self).self
      ⟨ArrayObject.rxbuf, frame [0x05, 0x08, 0x00, 0x00, 0x00, 0x00, 0x2A]⟩ ∧
    StatusChecked (fu_jabra_gnp_device_start witness_dev_status_00)
      (receive_phase (send_phase witness_dev_status_00
        [0x05, 0x08, 0x00, 0, 0x86, 0x0F, 0x17]).self).self
      ⟨ArrayObject.rxbuf, frame [0x05, 0x08, 0x00, 0x00, 0x00, 0x00, 0x2A]⟩ ∧
    StatusChecked (fu_jabra_gnp_device_write_crc witness_dev_status_00 0 11 100)
      (receive_phase (send_phase witness_dev_status_00
        [0x05, 0x08, 0x00, 0, 0x8E, 0x0F, 0x19, 0, 0, 0, 0, 11, 0, 100, 0]).self).self
      ⟨ArrayObject.rxbuf, frame [0x05, 0x08, 0x00, 0x00, 0x00, 0x00, 0x2A]⟩ ∧
    StatusChecked (fu_jabra_gnp_device_write_version witness_dev_status_00 1 2 3)
      (receive_phase (send_phase witness_dev_status_00
        [0x05, 0x08, 0x00, 0, 0x89, 0x0F, 0x1E, 1, 2, 3]).self).self
      ⟨ArrayObject.rxbuf, frame [0x05, 0x08, 0x00, 0x00, 0x00, 0x00, 0x2A]⟩ :=
  ⟨(status_byte_decides witness_dev_status_00 1 0 11 100 1 2 3).1 _ _
      ⟨by decide, by decide, rfl, by decide⟩,
    (status_byte_decides witness_dev_status_00 1 0 11 100 1 2 3).2.1 _ _
      ⟨by decide, by decide, rfl, by decide⟩,
    (status_byte_decides witness_dev_status_00 1 0 11 100 1 2 3).2.2.1 _ _
      ⟨by decide, by decide, rfl, by decide⟩,
    (status_byte_decides witness_dev_status_00 1 0 11 100 1 2 3).2.2.2 _ _
      ⟨by decide, by decide, rfl, by decide⟩⟩

/-! ### The version string -/

theorem takeWhile_nonzero_cons (b : Nat) (rest : List Nat) (hb : ¬ b = 0) :
    (b :: rest).takeWhile (fun b => b != 0) = b :: rest.takeWhile (fun b => b != 0) := by
  simp [List.takeWhile_cons, hb]

theorem version_length_loop_eq (l : List Nat) (v : Nat) (h : 0 ∈ l) :
    version_length_loop l v = some (v + (l.takeWhile (fun b => b != 0)).length) := by
  induction l generalizing v with
  | nil => simp at h
  | cons b rest ih =>
    by_cases hb : b = 0
    · subst hb
      simp [version_length_loop]
    · have h2 : 0 ∈ rest := by
        rcases List.mem_cons.mp h with h3 | h3
        · exact absurd h3.symm hb
        · exact h3
      rw [takeWhile_nonzero_cons b _ hb]
      simp only [version_length_loop, ne_eq, hb, not_false_eq_true, if_true, ih _ h2,
        List.length_cons, Option.some.injEq]
      omega

theorem printf_s_eq (l : List Nat) (h : 0 ∈ l) :
    printf_s l = some (l.takeWhile (fun b => b != 0)) := by
  induction l with
  | nil => simp at h
  | cons b rest ih =>
    by_cases hb : b = 0
    · subst hb
      simp [printf_s]
    · have h2 : 0 ∈ rest := by
        rcases List.mem_cons.mp h with h3 | h3
        · exact absurd h3.symm hb
        · exact h3
      rw [takeWhile_nonzero_cons b _ hb]
      simp [printf_s, hb, ih h2]

theorem printf_s_max_eq (l : List Nat) :
    printf_s_max (l.takeWhile (fun b => b != 0)).length l =
      some (l.takeWhile (fun b => b != 0)) := by
  induction l with
  | nil => simp [printf_s_max]
  | cons b rest ih =>
    by_cases hb : b = 0
    · subst hb
      simp [printf_s_max]
    · rw [takeWhile_nonzero_cons b _ hb]
      simp [printf_s_max, hb, ih]

theorem takeWhile_length_split (p : Nat → Bool) (n : Nat) (l : List Nat)
    (h : n ≤ (l.takeWhile p).length) :
    (l.takeWhile p).length = n + ((l.drop n).takeWhile p).length := by
  induction n generalizing l with
  | zero => simp
  | succ n ih =>
    cases l with
    | nil => simp at h
    | cons b rest =>
      cases hp : p b with
      | false => simp [List.takeWhile, hp] at h
      | true =>
        simp only [List.takeWhile, hp, List.length_cons, List.drop_succ_cons] at h ⊢
        rw [ih rest (by omega)]
        omega

theorem takeWhile_length_le_of_zero (l : List Nat) (k : Nat) (h : l[k]? = some 0) :
    (l.takeWhile (fun b => b != 0)).length ≤ k := by
  induction l generalizing k with
  | nil => simp at h
  | cons b rest ih =>
    cases k with
    | zero =>
      simp only [List.getElem?_cons_zero, Option.some.injEq] at h
      subst h
      simp
    | succ k =>
      simp only [List.getElem?_cons_succ] at h
      by_cases hb : b = 0
      · subst hb; simp
      · have := ih k h
        rw [takeWhile_nonzero_cons b _ hb, List.length_cons]
        omega

theorem zero_mem_drop (l : List Nat) (k n : Nat) (hn : n ≤ k) (h : l[k]? = some 0) :
    0 ∈ l.drop n := by
  have h2 : (l.drop n)[k - n]? = some 0 := by
    rw [List.getElem?_drop]
    have : n + (k - n) = k := by omega
    rw [this]; exact h
  exact List.getElem?_mem h2

theorem guint_sub_small (L : Nat) (h : L < 8) : guint_as_int (guint_sub L 8) < 0 := by
  unfold guint_as_int guint_sub
  split_ifs with h1
  · omega
  · omega

theorem guint_sub_large (L : Nat) (h : 8 ≤ L) (h2 : L ≤ 63) :
    guint_as_int (guint_sub L 8) = ((L - 8 : Nat) : Int) := by
  unfold guint_as_int guint_sub
  split_ifs with h1
  · omega
  · omega

/-- The parsing of the version out of an accepted response that has a zero
byte at an offset in 8..62. -/
theorem version_parse (rx : List Nat) (k : Nat) (hk8 : 8 ≤ k) (hk62 : k ≤ 62)
    (hz : rx[k]? = some 0) :
    ∃ version_length, version_length_loop (rx.drop 1) 1 = some version_length ∧
      g_strdup_printf_precision_s (guint_as_int (guint_sub version_length 8)) (rx.drop 8) =
        some ((rx.drop 8).takeWhile (fun b => b != 0)) := by
  have hm1 : 0 ∈ rx.drop 1 := zero_mem_drop rx k 1 (by omega) hz
  have hm8 : 0 ∈ rx.drop 8 := zero_mem_drop rx k 8 hk8 hz
  refine ⟨_, version_length_loop_eq _ 1 hm1, ?_⟩
  have hle : ((rx.drop 1).takeWhile (fun b => b != 0)).length ≤ k - 1 := by
    apply takeWhile_length_le_of_zero
    rw [List.getElem?_drop]
    have : 1 + (k - 1) = k := by omega
    rw [this]; exact hz
  generalize hL : ((rx.drop 1).takeWhile (fun b => b != 0)).length = L at hle
  by_cases hlt : 1 + L < 8
  · unfold g_strdup_printf_precision_s
    rw [if_pos (guint_sub_small _ hlt)]
    exact printf_s_eq _ hm8
  · have hsplit := takeWhile_length_split (fun b => b != 0) 7 (rx.drop 1) (by omega)
    rw [hL, List.drop_drop] at hsplit
    have hlen : 1 + L - 8 = ((rx.drop 8).takeWhile (fun b => b != 0)).length := by
      have e8 : 7 + 1 = 8 := rfl
      rw [e8] at hsplit
      omega
    unfold g_strdup_printf_precision_s
    rw [guint_sub_large _ (by omega) (by omega), if_neg (by omega), Int.toNat_ofNat, hlen]
    exact printf_s_max_eq _

theorem read_version_parse_eq (self : FuJabraGnpDevice) (receive_data : FuJabraGnpReceiveData)
    (k : Nat) (hk8 : 8 ≤ k) (hk62 : k ≤ 62) (hz : receive_data.rxbuf.bytes[k]? = some 0) :
    fu_jabra_gnp_device_read_version_parse self receive_data =
      some ⟨{ self with
        version := some ((receive_data.rxbuf.bytes.drop 8).takeWhile (fun b => b != 0)) },
        (), true, none⟩ := by
  obtain ⟨vl, hvl, hstr⟩ := version_parse receive_data.rxbuf.bytes k hk8 hk62 hz
  unfold fu_jabra_gnp_device_read_version_parse
  rw [hvl, Option.some_bind, hstr, Option.some_bind]

/-- C3: `fu_jabra_gnp_device_read_version`, for every accepted response that
has a zero byte at some offset in 8..62, returns success and stores as the
version exactly the bytes from offset 8 up to, not including, the first zero
byte at an offset of 8 or more, whatever the bytes at offsets 0..7 are. -/
theorem read_version_string (self session : FuJabraGnpDevice) (rxbuf : BytePtr) (k : Nat)
    (h : Answered self [0x05, 0x08, 0x00, self.sequence_number, 0x46, 0x02, 0x03]
      session rxbuf)
    (hk8 : 8 ≤ k) (hk62 : k ≤ 62) (hz : rxbuf.bytes[k]? = some 0) :
    fu_jabra_gnp_device_read_version self =
      some ⟨{ session with
        version := some ((rxbuf.bytes.drop 8).takeWhile (fun b => b != 0)) }, (), true, none⟩ := by
  obtain ⟨h1, h2, h3, h4⟩ := h
  subst h3 h4
  have e : fu_jabra_gnp_device_read_version self =
      if (send_phase self [0x05, 0x08, 0x00, self.sequence_number, 0x46, 0x02, 0x03]).ret
          = false then
        some ⟨(send_phase self
          [0x05, 0x08, 0x00, self.sequence_number, 0x46, 0x02, 0x03]).self, (), false,
          (send_phase self [0x05, 0x08, 0x00, self.sequence_number, 0x46, 0x02, 0x03]).error⟩
      else if (receive_phase (send_phase self
          [0x05, 0x08, 0x00, self.sequence_number, 0x46, 0x02, 0x03]).self).ret = false then
        some ⟨(receive_phase (send_phase self
          [0x05, 0x08, 0x00, self.sequence_number, 0x46, 0x02, 0x03]).self).self, (), false,
          (receive_phase (send_phase self
            [0x05, 0x08, 0x00, self.sequence_number, 0x46, 0x02, 0x03]).self).error⟩
      else
        fu_jabra_gnp_device_read_version_parse
          (receive_phase (send_phase self
            [0x05, 0x08, 0x00, self.sequence_number, 0x46, 0x02, 0x03]).self).self
          (receive_phase (send_phase self
            [0x05, 0x08, 0x00, self.sequence_number, 0x46, 0x02, 0x03]).self).user_data := rfl
  rw [e, if_neg (by rw [h1]; decide), if_neg (by rw [h2]; decide)]
  exact read_version_parse_eq _ _ k hk8 hk62 hz

theorem read_version_string_witness :
    fu_jabra_gnp_device_read_version witness_dev_version =
      some ⟨{ (receive_phase (send_phase witness_dev_version
          [0x05, 0x08, 0x00, 0, 0x46, 0x02, 0x03]).self).self with
        version := some [0x76, 0x31, 0x2E, 0x30] }, (), true, none⟩ :=
  read_version_string witness_dev_version _
    ⟨ArrayObject.rxbuf, frame [0, 0, 0, 0, 0, 0, 0, 0, 0x76, 0x31, 0x2E, 0x30]⟩ 12
    ⟨by decide, by decide, rfl, rfl⟩ (by decide) (by decide) rfl

/-! ### The retry executor around the plain receive -/

theorem retry_succ {δ : Type} (self : FuJabraGnpDevice) (func : FuJabraGnpDevice → δ → Ret δ)
    (n delay : Nat) (user_data : δ) :
    fu_device_retry_full self func (n + 1) delay user_data =
      if (func self user_data).ret = true then func self user_data
      else if (func self user_data).error = none then func self user_data
      else if n = 0 then func self user_data
      else fu_device_retry_full (func self user_data).self func n delay
        (func self user_data).user_data := rfl

theorem receive_object (self : FuJabraGnpDevice) (user_data : FuJabraGnpReceiveData) :
    (fu_jabra_gnp_device_receive self user_data).user_data.rxbuf.object =
      user_data.rxbuf.object ∧
    (fu_jabra_gnp_device_receive self user_data).user_data.timeout = user_data.timeout := by
  simp only [fu_jabra_gnp_device_receive, g_usb_device_interrupt_transfer]
  rcases self.parent_instance.interrupt with _ | ⟨o, rest⟩
  · exact ⟨rfl, rfl⟩
  · cases o with
    | failed m => exact ⟨rfl, rfl⟩
    | done f => exact ⟨rfl, rfl⟩

theorem receive_log (self : FuJabraGnpDevice) (user_data : FuJabraGnpReceiveData) :
    (fu_jabra_gnp_device_receive self user_data).self.parent_instance.log =
      self.parent_instance.log ++
        [UsbEvent.interrupt_transfer 0x81 FU_JABRA_GNP_BUF_SIZE user_data.timeout] := by
  simp only [fu_jabra_gnp_device_receive, g_usb_device_interrupt_transfer]
  rcases self.parent_instance.interrupt with _ | ⟨o, rest⟩
  · rfl
  · cases o with
    | failed m => rfl
    | done f => rfl

/-- The retry executor around the plain receive leaves the pointer in
`receive_data` pointing to the array it pointed to. -/
theorem retry_receive_object (n delay : Nat) (self : FuJabraGnpDevice)
    (user_data : FuJabraGnpReceiveData) :
    (fu_device_retry_full self fu_jabra_gnp_device_receive n delay user_data).user_data.rxbuf.object
        = user_data.rxbuf.object ∧
    (fu_device_retry_full self fu_jabra_gnp_device_receive n delay user_data).user_data.timeout
        = user_data.timeout := by
  induction n generalizing self user_data with
  | zero => exact ⟨rfl, rfl⟩
  | succ n ih =>
    rw [retry_succ]
    split_ifs
    · exact receive_object self user_data
    · exact receive_object self user_data
    · exact receive_object self user_data
    · have h1 := ih (fu_jabra_gnp_device_receive self user_data).self
        (fu_jabra_gnp_device_receive self user_data).user_data
      have h2 := receive_object self user_data
      exact ⟨h1.1.trans h2.1, h1.2.trans h2.2⟩

/-- The retry executor around the plain receive issues between one and
`count` interrupt reads, and nothing else. -/
theorem retry_receive_log (n delay : Nat) (self : FuJabraGnpDevice)
    (user_data : FuJabraGnpReceiveData) :
    ∃ k, k ≤ n ∧ (1 ≤ n → 1 ≤ k) ∧
      (fu_device_retry_full self fu_jabra_gnp_device_receive n delay
        user_data).self.parent_instance.log =
      self.parent_instance.log ++ List.replicate k
        (UsbEvent.interrupt_transfer 0x81 FU_JABRA_GNP_BUF_SIZE user_data.timeout) := by
  induction n generalizing self user_data with
  | zero => exact ⟨0, le_refl 0, fun h => absurd h (by decide), by simp [fu_device_retry_full]⟩
  | succ n ih =>
    rw [retry_succ]
    split_ifs with h1 h2 h3
    · exact ⟨1, by omega, fun _ => le_refl 1, by rw [receive_log]; rfl⟩
    · exact ⟨1, by omega, fun _ => le_refl 1, by rw [receive_log]; rfl⟩
    · exact ⟨1, by omega, fun _ => le_refl 1, by rw [receive_log]; rfl⟩
    · obtain ⟨k, hk, _, hlog⟩ := ih (fu_jabra_gnp_device_receive self user_data).self
        (fu_jabra_gnp_device_receive self user_data).user_data
      refine ⟨k + 1, by omega, fun _ => by omega, ?_⟩
      rw [hlog, receive_log, (receive_object self user_data).2, List.append_assoc]
      congr 1

/-! ### The waits for a notification -/

theorem flash_erase_done_ret (self : FuJabraGnpDevice) :
    (fu_jabra_gnp_device_flash_erase_done self).ret = false := by
  unfold fu_jabra_gnp_device_flash_erase_done
  simp only []
  split_ifs with h1 h2
  · rfl
  · rfl
  · exact absurd ((retry_receive_object _ _ _ _).1.trans rfl) (by
      intro h; exact h2 (by rw [h]; decide))

theorem read_verify_status_ret (self : FuJabraGnpDevice) :
    (fu_jabra_gnp_device_read_verify_status self).ret = false := by
  unfold fu_jabra_gnp_device_read_verify_status
  simp only []
  split_ifs with h1 h2
  · rfl
  · rfl
  · exact absurd ((retry_receive_object _ _ _ _).1.trans rfl) (by
      intro h; exact h2 (by rw [h]; decide))

/-- C4: evaluation of `fu_jabra_gnp_device_flash_erase_done` and
`fu_jabra_gnp_device_read_verify_status`.  Neither returns success for any
device; and on a device whose read is carried out and hands over exactly the
bytes of the pattern, each fails with the internal error "buf did not match"
after that one read. -/
theorem pattern_wait_fails_on_pattern :
    (∀ self, (fu_jabra_gnp_device_flash_erase_done self).ret = false) ∧
    (∀ self, (fu_jabra_gnp_device_read_verify_status self).ret = false) ∧
    fu_jabra_gnp_device_flash_erase_done dev_erase_done =
      ⟨after_read dev_erase_done [] FU_JABRA_GNP_EXTRA_LONG_RECEIVE_TIMEOUT, (), false,
        some ⟨FwupdError.FWUPD_ERROR_INTERNAL, Message.buf_did_not_match⟩⟩ ∧
    fu_jabra_gnp_device_read_verify_status dev_verify_status =
      ⟨after_read dev_verify_status [] FU_JABRA_GNP_LONG_RECEIVE_TIMEOUT, (), false,
        some ⟨FwupdError.FWUPD_ERROR_INTERNAL, Message.buf_did_not_match⟩⟩ :=
  ⟨flash_erase_done_ret, read_verify_status_ret, by decide, by decide⟩

/-! ### The chunks -/

/-- A pass of the loop of `write_chunks` at an index that is a multiple of the
window never reaches the end of the body when `rxbuf` and `match_buf` are two
arrays. -/
theorem write_chunks_body_at_window (self : FuJabraGnpDevice) (preload_count : Nat)
    (match_buf : BytePtr) (receive_data : FuJabraGnpReceiveData) (chunk_number : Nat)
    (chk : FuChunk) (hw : chunk_number % preload_count = 0)
    (hobj : receive_data.rxbuf.object ≠ match_buf.object) :
    succeeded (fu_jabra_gnp_device_write_chunks_body self preload_count match_buf receive_data
      chunk_number chk) = false := by
  unfold fu_jabra_gnp_device_write_chunks_body
  cases fu_jabra_gnp_device_write_chunk self chunk_number (fu_chunk_get_data chk)
      (fu_chunk_get_data_sz chk) with
  | none => rfl
  | some w =>
    rw [Option.some_bind]
    simp only [hw, if_true]
    split_ifs with h1 h2 h3 h4
    · rfl
    · rfl
    · rfl
    · rfl
    · exact absurd ((retry_receive_object _ _ _ _).1.symm.trans (not_not.mp h3)) hobj

theorem write_chunks_never_succeeds (self : FuJabraGnpDevice) (chk : FuChunk)
    (rest : List FuChunk) :
    succeeded (fu_jabra_gnp_device_write_chunks self (chk :: rest)) = false := by
  have hb := write_chunks_body_at_window self 100
    (array_init ArrayObject.match_buf FU_JABRA_GNP_BUF_SIZE
      [0x05, 0x08, 0x00, 0x00, 0x06, 0x0F, 0x1B])
    ⟨array_init ArrayObject.rxbuf FU_JABRA_GNP_BUF_SIZE [0x00],
      FU_JABRA_GNP_LONG_RECEIVE_TIMEOUT⟩ 0 chk (by decide) (by decide)
  unfold fu_jabra_gnp_device_write_chunks
  simp only [fu_jabra_gnp_device_write_chunks_loop]
  revert hb
  cases fu_jabra_gnp_device_write_chunks_body self 100
    (array_init ArrayObject.match_buf FU_JABRA_GNP_BUF_SIZE
      [0x05, 0x08, 0x00, 0x00, 0x06, 0x0F, 0x1B])
    ⟨array_init ArrayObject.rxbuf FU_JABRA_GNP_BUF_SIZE [0x00],
      FU_JABRA_GNP_LONG_RECEIVE_TIMEOUT⟩ 0 chk with
  | none => intro _; rfl
  | some b =>
    intro hb
    have hb2 : b.ret = false := hb
    rw [Option.some_bind, if_pos hb2]
    rfl

/-- C5: evaluation of `fu_jabra_gnp_device_write_chunks`.  It returns success
for no device and no non-empty chunk list; and for one chunk whose send is
accepted and whose acknowledgment starts with 05 08 00 00 06 0F 1B and echoes
the index 0, it fails with the internal error "buf did not match". -/
theorem write_chunks_fails_on_valid_ack :
    (∀ self chk rest,
      succeeded (fu_jabra_gnp_device_write_chunks self (chk :: rest)) = false) ∧
    (fu_jabra_gnp_device_write_chunks dev_chunk_ack [⟨0, [0xAA, 0xBB, 0xCC]⟩]).map
        (fun c => (c.ret, c.error, c.self.parent_instance.interrupt)) =
      some (false, some ⟨FwupdError.FWUPD_ERROR_INTERNAL, Message.buf_did_not_match⟩, []) :=
  ⟨write_chunks_never_succeeds, by decide⟩

/-! ### The firmware write -/

/-- C8: `fu_jabra_gnp_device_write_firmware` as written, for every device and
every firmware image, does not enter the body of the partition loop: it
returns success with no error, and leaves the device as it was, so that no
send and no receive is issued and the sequence number is unchanged. -/
theorem write_firmware_does_nothing (fuel : Nat) (device : FuJabraGnpDevice)
    (firmware : List Nat) :
    fu_jabra_gnp_device_write_firmware (fuel + 1) device firmware =
      some ⟨device, (), true, none⟩ := by
  rfl

/-! ### The sequence check -/

/-- C10: evaluation of `fu_jabra_gnp_device_receive_with_sequence` on a read
that is carried out with a frame whose sequence byte is 1 while the session
expects 0: the read succeeds, the call returns `FALSE`, and no error is set. -/
theorem stale_response_sets_no_error :
    (fu_jabra_gnp_device_receive dev_stale_response
      ⟨array_init ArrayObject.rxbuf FU_JABRA_GNP_BUF_SIZE [0x00],
        FU_JABRA_GNP_STANDARD_RECEIVE_TIMEOUT⟩).ret = true ∧
    (fu_jabra_gnp_device_receive_with_sequence dev_stale_response
      ⟨array_init ArrayObject.rxbuf FU_JABRA_GNP_BUF_SIZE [0x00],
        FU_JABRA_GNP_STANDARD_RECEIVE_TIMEOUT⟩).ret = false ∧
    (fu_jabra_gnp_device_receive_with_sequence dev_stale_response
      ⟨array_init ArrayObject.rxbuf FU_JABRA_GNP_BUF_SIZE [0x00],
        FU_JABRA_GNP_STANDARD_RECEIVE_TIMEOUT⟩).error = none := by
  decide

/-- C7: evaluation of the body of the loop of
`fu_jabra_gnp_device_write_firmware`.  For every device, image and partition a
pass is `write_partition`, `start` and the erase-done wait, ended by the first
of them that fails, and the erase-done wait fails when the two before it
succeed: no pass issues `write_crc`, `write_chunks`, `read_verify_status` or
`write_version`.  On a device that answers every step correctly the pass sends
the partition frame and the start frame, reads three times and fails with
"buf did not match"; no CRC frame is sent. -/
theorem write_firmware_body_stops_at_erase_done :
    (∀ self firmware part crc,
      fu_jabra_gnp_device_write_firmware_body self firmware part crc =
        some (
          if (fu_jabra_gnp_device_write_partition self part).ret = false then
            ⟨(fu_jabra_gnp_device_write_partition self part).self, crc, false,
              (fu_jabra_gnp_device_write_partition self part).error⟩
          else if (fu_jabra_gnp_device_start
              (fu_jabra_gnp_device_write_partition self part).self).ret = false then
            ⟨(fu_jabra_gnp_device_start
                (fu_jabra_gnp_device_write_partition self part).self).self, crc, false,
              (fu_jabra_gnp_device_start
                (fu_jabra_gnp_device_write_partition self part).self).error⟩
          else
            ⟨(fu_jabra_gnp_device_flash_erase_done (fu_jabra_gnp_device_start
                (fu_jabra_gnp_device_write_partition self part).self).self).self, crc, false,
              (fu_jabra_gnp_device_flash_erase_done (fu_jabra_gnp_device_start
                (fu_jabra_gnp_device_write_partition self part).self).self).error⟩)) ∧
    (fu_jabra_gnp_device_write_firmware_body dev_full_pass (List.replicate 530 0x5A) 1 0).map
        (fun b => (b.ret, b.error, b.self.parent_instance.log)) =
      some (false, some ⟨FwupdError.FWUPD_ERROR_INTERNAL, Message.buf_did_not_match⟩,
        [UsbEvent.control_transfer 3 (frame [0x05, 0x08, 0x00, 0x00, 0x87, 0x0F, 0x2D, 0x01])
            63 3000,
          UsbEvent.interrupt_transfer 0x81 63 1000,
          UsbEvent.control_transfer 3 (frame [0x05, 0x08, 0x00, 0x01, 0x86, 0x0F, 0x17]) 63 3000,
          UsbEvent.interrupt_transfer 0x81 63 1000,
          UsbEvent.interrupt_transfer 0x81 63 60000]) := by
  refine ⟨?_, by decide⟩
  intro self firmware part crc
  unfold fu_jabra_gnp_device_write_firmware_body
  simp only [flash_erase_done_ret, if_true]
  split_ifs <;> rfl

/-! ### The sequence check under the retry executor -/

theorem status_command_eq (self : FuJabraGnpDevice) (init : List Nat) (c : Ret Unit)
    (hc : c =
      if (send_phase self init).ret = false then
        ⟨(send_phase self init).self, (), false, (send_phase self init).error⟩
      else if (receive_phase (send_phase self init).self).ret = false then
        ⟨(receive_phase (send_phase self init).self).self, (), false,
          (receive_phase (send_phase self init).self).error⟩
      else if (receive_phase (send_phase self init).self).user_data.rxbuf.at 5 ≠ 0xFF then
        ⟨(receive_phase (send_phase self init).self).self, (), false,
          some ⟨FwupdError.FWUPD_ERROR_INTERNAL,
            Message.expected_0xFF ((receive_phase (send_phase self init).self).user_data.rxbuf.at 5)
              ((receive_phase (send_phase self init).self).user_data.rxbuf.at 6)⟩⟩
      else ⟨(receive_phase (send_phase self init).self).self, (), true, none⟩) :
    some c =
      if (send_phase self init).ret = false then
        some ⟨(send_phase self init).self, (), false, (send_phase self init).error⟩
      else if (receive_phase (send_phase self init).self).ret = false then
        some ⟨(receive_phase (send_phase self init).self).self, (), false,
          (receive_phase (send_phase self init).self).error⟩
      else
        some (status_check (receive_phase (send_phase self init).self).self
          (receive_phase (send_phase self init).self).user_data) := by
  subst hc
  unfold status_check
  split_ifs <;> rfl

theorem command_run_eq (c : Command) (self : FuJabraGnpDevice) :
    c.run self =
      if (send_phase self (c.txbuf self.sequence_number)).ret = false then
        some ⟨(send_phase self (c.txbuf self.sequence_number)).self, (), false,
          (send_phase self (c.txbuf self.sequence_number)).error⟩
      else if (receive_phase (send_phase self (c.txbuf self.sequence_number)).self).ret
          = false then
        some ⟨(receive_phase (send_phase self (c.txbuf self.sequence_number)).self).self, (),
          false, (receive_phase (send_phase self (c.txbuf self.sequence_number)).self).error⟩
      else
        c.finish (receive_phase (send_phase self (c.txbuf self.sequence_number)).self).self
          (receive_phase (send_phase self (c.txbuf self.sequence_number)).self).user_data := by
  cases c with
  | read_version => rfl
  | write_partition part => exact status_command_eq self _ _ rfl
  | start => exact status_command_eq self _ _ rfl
  | write_crc crc total_chunks preload_count => exact status_command_eq self _ _ rfl
  | write_version v1 v2 v3 => exact status_command_eq self _ _ rfl

theorem send_phase_done (self : FuJabraGnpDevice) (init : List Nat) (ctl : List (Transfer Unit))
    (hctl : self.parent_instance.control = Transfer.done () :: ctl) :
    send_phase self init =
      ⟨after_send self ctl init,
        ⟨array_init ArrayObject.txbuf FU_JABRA_GNP_BUF_SIZE init,
          FU_JABRA_GNP_STANDARD_SEND_TIMEOUT⟩, true, none⟩ := by
  have hs : fu_jabra_gnp_device_send self
      ⟨array_init ArrayObject.txbuf FU_JABRA_GNP_BUF_SIZE init,
        FU_JABRA_GNP_STANDARD_SEND_TIMEOUT⟩ =
      ⟨after_send self ctl init,
        ⟨array_init ArrayObject.txbuf FU_JABRA_GNP_BUF_SIZE init,
          FU_JABRA_GNP_STANDARD_SEND_TIMEOUT⟩, true, none⟩ := by
    simp only [fu_jabra_gnp_device_send, g_usb_device_control_transfer, hctl]
    rfl
  show fu_device_retry_full self fu_jabra_gnp_device_send (2 + 1) _ _ = _
  rw [retry_succ, hs, if_pos rfl]

theorem retry_first_ok {δ : Type} (self : FuJabraGnpDevice)
    (func : FuJabraGnpDevice → δ → Ret δ) (n delay : Nat) (user_data : δ) (r : Ret δ)
    (h : func self user_data = r) (hr : r.ret = true) :
    fu_device_retry_full self func (n + 1) delay user_data = r := by
  rw [retry_succ, h, if_pos hr]

theorem retry_first_failed {δ : Type} (self : FuJabraGnpDevice)
    (func : FuJabraGnpDevice → δ → Ret δ) (n delay : Nat) (user_data : δ) (r : Ret δ)
    (h : func self user_data = r) (hr : r.ret = false) (he : r.error ≠ none) :
    fu_device_retry_full self func (n + 2) delay user_data =
      fu_device_retry_full r.self func (n + 1) delay r.user_data := by
  rw [retry_succ, h, if_neg (by rw [hr]; decide), if_neg he, if_neg (by omega)]

theorem retry_last_failed {δ : Type} (self : FuJabraGnpDevice)
    (func : FuJabraGnpDevice → δ → Ret δ) (delay : Nat) (user_data : δ) (r : Ret δ)
    (h : func self user_data = r) (hr : r.ret = false) :
    fu_device_retry_full self func 1 delay user_data = r := by
  rw [retry_succ, h, if_neg (by rw [hr]; decide)]
  by_cases he : r.error = none
  · rw [if_pos he]
  · rw [if_neg he, if_pos rfl]

/-- A failure that carries no error ends the retry executor at once. -/
theorem retry_no_error {δ : Type} (self : FuJabraGnpDevice)
    (func : FuJabraGnpDevice → δ → Ret δ) (n delay : Nat) (user_data : δ) (r : Ret δ)
    (h : func self user_data = r) (hr : r.ret = false) (he : r.error = none) :
    fu_device_retry_full self func (n + 1) delay user_data = r := by
  rw [retry_succ, h, if_neg (by rw [hr]; decide), if_pos he]

theorem receive_with_sequence_mismatch (self : FuJabraGnpDevice) (object : ArrayObject)
    (bytes : List Nat) (timeout : Nat) (r : List Nat) (rest : List (Transfer (List Nat)))
    (hrx : self.parent_instance.interrupt = Transfer.done r :: rest)
    (hr : r.length = FU_JABRA_GNP_BUF_SIZE) (hbuf : bytes.length = FU_JABRA_GNP_BUF_SIZE)
    (hm : self.sequence_number ≠ r.getD 3 0) :
    fu_jabra_gnp_device_receive_with_sequence self ⟨⟨object, bytes⟩, timeout⟩ =
      ⟨after_read self rest timeout, ⟨⟨object, r⟩, timeout⟩, false, none⟩ := by
  rw [receive_with_sequence_done self _ r rest hrx hr hbuf, if_pos hm]

theorem receive_with_sequence_match (self : FuJabraGnpDevice) (object : ArrayObject)
    (bytes : List Nat) (timeout : Nat) (r : List Nat) (rest : List (Transfer (List Nat)))
    (hrx : self.parent_instance.interrupt = Transfer.done r :: rest)
    (hr : r.length = FU_JABRA_GNP_BUF_SIZE) (hbuf : bytes.length = FU_JABRA_GNP_BUF_SIZE)
    (hm : self.sequence_number = r.getD 3 0) :
    fu_jabra_gnp_device_receive_with_sequence self ⟨⟨object, bytes⟩, timeout⟩ =
      ⟨{ after_read self rest timeout with
          sequence_number := (self.sequence_number + 1) % 2 ^ 8 },
        ⟨⟨object, r⟩, timeout⟩, true, none⟩ := by
  rw [receive_with_sequence_done self _ r rest hrx hr hbuf, if_neg (not_not.mpr hm)]

theorem command_run_of_phases (c : Command) (self : FuJabraGnpDevice)
    (s : Ret FuJabraGnpSendData) (r : Ret FuJabraGnpReceiveData)
    (hs : send_phase self (c.txbuf self.sequence_number) = s) (hsr : s.ret = true)
    (hr : receive_phase s.self = r) :
    c.run self =
      if r.ret = false then some ⟨r.self, (), false, r.error⟩
      else c.finish r.self r.user_data := by
  subst hs hr
  rw [command_run_eq, if_neg (by rw [hsr]; decide)]

/-! ### The window of `write_chunks` -/

theorem chunk_slices_length (fuel idx : Nat) (bytes : List Nat) (h : bytes.length ≤ fuel) :
    (chunk_slices 52 fuel idx bytes).length = (bytes.length + 51) / 52 := by
  induction fuel generalizing idx bytes with
  | zero =>
    have h0 : bytes.length = 0 := by omega
    rw [h0]
    rfl
  | succ fuel ih =>
    unfold chunk_slices
    by_cases hb : bytes = []
    · subst hb
      rfl
    · have hpos : 1 ≤ bytes.length := by
        cases bytes with
        | nil => exact absurd rfl hb
        | cons b rest => simp
      rw [if_neg hb, List.length_cons, ih (idx + 1) (bytes.drop 52) (by
        rw [List.length_drop]; omega), List.length_drop]
      omega

/-- The chunks of a 530-byte image at chunk size 52: eleven, the first of
them the first 52 bytes with index 0. -/
theorem chunks_of_530 (firmware : List Nat) (h : firmware.length = 530) :
    (fu_chunk_array_new_from_bytes firmware 0x00 0x00 52).length = 11 ∧
    ∃ rest, fu_chunk_array_new_from_bytes firmware 0x00 0x00 52 =
      ⟨0, firmware.take 52⟩ :: rest := by
  constructor
  · unfold fu_chunk_array_new_from_bytes
    rw [chunk_slices_length _ _ _ (le_refl _), h]
  · unfold fu_chunk_array_new_from_bytes
    rw [h]
    have hb : firmware ≠ [] := by
      intro h0
      rw [h0] at h
      simp at h
    show ∃ rest, chunk_slices 52 (529 + 1) 0 firmware = _
    unfold chunk_slices
    rw [if_neg hb]
    exact ⟨_, rfl⟩

theorem write_chunk_defined (self : FuJabraGnpDevice) (chunk_number : Nat) (data : List Nat)
    (h : data.length ≤ 52) :
    ∃ w, fu_jabra_gnp_device_write_chunk self chunk_number data (data.length % 2 ^ 32) =
      some w := by
  have hsz : data.length % 2 ^ 32 = data.length := Nat.mod_eq_of_lt (by omega)
  rw [hsz]
  unfold fu_jabra_gnp_device_write_chunk memcpy
  simp only []
  rw [if_pos ⟨by rw [array_init_length]; unfold FU_JABRA_GNP_BUF_SIZE; omega, le_refl _⟩,
    Option.some_bind]
  split_ifs
  · exact ⟨_, rfl⟩
  · exact ⟨_, rfl⟩

/-- One pass of the loop of `write_chunks`: after the send of the chunk the
body issues interrupt reads (between one and three, one acknowledgment
receive under the retry executor) iff the index is a multiple of the window,
and nothing after a send that failed. -/
theorem write_chunks_body_receives (self : FuJabraGnpDevice) (preload_count : Nat)
    (match_buf : BytePtr) (receive_data : FuJabraGnpReceiveData) (chunk_number : Nat)
    (chk : FuChunk) (h : (fu_chunk_get_data chk).length ≤ 52) :
    ∃ w b,
      fu_jabra_gnp_device_write_chunk self chunk_number (fu_chunk_get_data chk)
        (fu_chunk_get_data_sz chk) = some w ∧
      fu_jabra_gnp_device_write_chunks_body self preload_count match_buf receive_data
        chunk_number chk = some b ∧
      (w.ret = false → b.self = w.self) ∧
      (w.ret = true → ∃ n, n ≤ 3 ∧ (1 ≤ n ↔ chunk_number % preload_count = 0) ∧
        b.self.parent_instance.log = w.self.parent_instance.log ++
          List.replicate n
            (UsbEvent.interrupt_transfer 0x81 FU_JABRA_GNP_BUF_SIZE receive_data.timeout)) := by
  obtain ⟨w, hw⟩ := write_chunk_defined self chunk_number (fu_chunk_get_data chk) h
  have hw2 : fu_jabra_gnp_device_write_chunk self chunk_number (fu_chunk_get_data chk)
      (fu_chunk_get_data_sz chk) = some w := hw
  refine ⟨w, ?_⟩
  unfold fu_jabra_gnp_device_write_chunks_body
  rw [hw2, Option.some_bind]
  by_cases hret : w.ret = false
  · rw [if_pos hret]
    exact ⟨_, rfl, rfl, fun _ => rfl, fun ht => by rw [hret] at ht; exact Bool.noConfusion ht⟩
  · rw [if_neg hret]
    by_cases hwin : chunk_number % preload_count = 0
    · rw [if_pos hwin]
      obtain ⟨k, hk3, hk1, hlog⟩ := retry_receive_log FU_JABRA_GNP_MAX_RETRIES
        FU_JABRA_GNP_RETRY_DELAY w.self receive_data
      have hrec : ∀ b : Ret FuJabraGnpReceiveData,
          b.self = (fu_device_retry_full w.self fu_jabra_gnp_device_receive
            FU_JABRA_GNP_MAX_RETRIES FU_JABRA_GNP_RETRY_DELAY receive_data).self →
          (w.ret = false → b.self = w.self) ∧
          (w.ret = true → ∃ n, n ≤ 3 ∧ (1 ≤ n ↔ chunk_number % preload_count = 0) ∧
            b.self.parent_instance.log = w.self.parent_instance.log ++
              List.replicate n (UsbEvent.interrupt_transfer 0x81 FU_JABRA_GNP_BUF_SIZE
                receive_data.timeout)) := by
        intro b hb
        refine ⟨fun hf => absurd hf hret, fun _ => ⟨k, hk3, ?_, ?_⟩⟩
        · exact ⟨fun _ => hwin, fun _ => hk1 (by decide)⟩
        · rw [hb, hlog]
      simp only []
      split_ifs
      · exact ⟨_, trivial, rfl, hrec _ rfl⟩
      · exact ⟨_, trivial, rfl, hrec _ rfl⟩
      · exact ⟨_, trivial, rfl, hrec _ rfl⟩
      · exact ⟨_, trivial, rfl, hrec _ rfl⟩
    · rw [if_neg hwin]
      refine ⟨_, rfl, rfl, fun _ => rfl, fun _ => ⟨0, by omega, ?_, ?_⟩⟩
      · exact ⟨fun h0 => absurd h0 (by decide), fun h0 => absurd h0 hwin⟩
      · simp

/-- A run of `write_chunks` on a non-empty list: the chunk 0 is sent, one
acknowledgment receive follows, and nothing else is issued. -/
theorem write_chunks_first_window (self : FuJabraGnpDevice) (chk : FuChunk)
    (rest : List FuChunk) (h : (fu_chunk_get_data chk).length ≤ 52) :
    ∃ w c,
      fu_jabra_gnp_device_write_chunk self 0 (fu_chunk_get_data chk)
        (fu_chunk_get_data_sz chk) = some w ∧
      fu_jabra_gnp_device_write_chunks self (chk :: rest) = some c ∧
      (w.ret = false → c.self = w.self) ∧
      (w.ret = true → ∃ n, 1 ≤ n ∧ n ≤ 3 ∧
        c.self.parent_instance.log = w.self.parent_instance.log ++
          List.replicate n (UsbEvent.interrupt_transfer 0x81 FU_JABRA_GNP_BUF_SIZE
            FU_JABRA_GNP_LONG_RECEIVE_TIMEOUT)) := by
  obtain ⟨w, b, hw, hb, h1, h2⟩ := write_chunks_body_receives self 100
    (array_init ArrayObject.match_buf FU_JABRA_GNP_BUF_SIZE
      [0x05, 0x08, 0x00, 0x00, 0x06, 0x0F, 0x1B])
    ⟨array_init ArrayObject.rxbuf FU_JABRA_GNP_BUF_SIZE [0x00],
      FU_JABRA_GNP_LONG_RECEIVE_TIMEOUT⟩ 0 chk h
  have hfail := write_chunks_body_at_window self 100
    (array_init ArrayObject.match_buf FU_JABRA_GNP_BUF_SIZE
      [0x05, 0x08, 0x00, 0x00, 0x06, 0x0F, 0x1B])
    ⟨array_init ArrayObject.rxbuf FU_JABRA_GNP_BUF_SIZE [0x00],
      FU_JABRA_GNP_LONG_RECEIVE_TIMEOUT⟩ 0 chk (by decide) (by decide)
  rw [hb] at hfail
  have hbret : b.ret = false := hfail
  refine ⟨w, ⟨b.self, (), false, b.error⟩, hw, ?_, h1, ?_⟩
  · unfold fu_jabra_gnp_device_write_chunks
    simp only [fu_jabra_gnp_device_write_chunks_loop]
    rw [hb, Option.some_bind, if_pos hbret]
  · intro ht
    obtain ⟨n, hn3, hn1, hlog⟩ := h2 ht
    exact ⟨n, hn1.mpr (by decide), hn3, hlog⟩

/-- C6: `fu_jabra_gnp_device_write_chunks` with the window 100.  In the pass
of the loop for any chunk index `chunk_number`, an acknowledgment receive (one
to three interrupt reads under the retry executor) is issued right after the
send of the chunk iff `chunk_number mod 100 = 0`, and no read is issued after
any other chunk.  A 530-byte image at chunk size 52 makes 11 chunks, and the
run on them issues exactly one acknowledgment receive, right after the send of
chunk 0. -/
theorem ack_receive_iff_window_start (self : FuJabraGnpDevice) (match_buf : BytePtr)
    (receive_data : FuJabraGnpReceiveData) (chunk_number : Nat) (chk : FuChunk)
    (firmware : List Nat)
    (hchk : (fu_chunk_get_data chk).length ≤ 52) (hfw : firmware.length = 530) :
    (∃ w b,
      fu_jabra_gnp_device_write_chunk self chunk_number (fu_chunk_get_data chk)
        (fu_chunk_get_data_sz chk) = some w ∧
      fu_jabra_gnp_device_write_chunks_body self 100 match_buf receive_data
        chunk_number chk = some b ∧
      (w.ret = false → b.self = w.self) ∧
      (w.ret = true → ∃ n, n ≤ 3 ∧ (1 ≤ n ↔ chunk_number % 100 = 0) ∧
        b.self.parent_instance.log = w.self.parent_instance.log ++
          List.replicate n
            (UsbEvent.interrupt_transfer 0x81 FU_JABRA_GNP_BUF_SIZE receive_data.timeout))) ∧
    (fu_chunk_array_new_from_bytes firmware 0x00 0x00 52).length = 11 ∧
    (∃ w c,
      fu_jabra_gnp_device_write_chunk self 0 (firmware.take 52) 52 = some w ∧
      fu_jabra_gnp_device_write_chunks self
        (fu_chunk_array_new_from_bytes firmware 0x00 0x00 52) = some c ∧
      (w.ret = false → c.self = w.self) ∧
      (w.ret = true → ∃ n, 1 ≤ n ∧ n ≤ 3 ∧
        c.self.parent_instance.log = w.self.parent_instance.log ++
          List.replicate n (UsbEvent.interrupt_transfer 0x81 FU_JABRA_GNP_BUF_SIZE
            FU_JABRA_GNP_LONG_RECEIVE_TIMEOUT))) := by
  obtain ⟨hlen, rest, hchunks⟩ := chunks_of_530 firmware hfw
  refine ⟨write_chunks_body_receives self 100 match_buf receive_data chunk_number chk hchk,
    hlen, ?_⟩
  have htake : (firmware.take 52).length = 52 := by
    rw [List.length_take, hfw]; rfl
  have h := write_chunks_first_window self ⟨0, firmware.take 52⟩ rest (by
    show (firmware.take 52).length ≤ 52
    rw [htake])
  have hsz : fu_chunk_get_data_sz ⟨0, firmware.take 52⟩ = 52 := by
    show (firmware.take 52).length % 2 ^ 32 = 52
    rw [htake]; rfl
  rw [hsz] at h
  rw [hchunks]
  exact h

theorem ack_receive_iff_window_start_witness :
    (∃ w b,
      fu_jabra_gnp_device_write_chunk dev_chunk_ack 200
        (fu_chunk_get_data ⟨200, [0xAA, 0xBB, 0xCC]⟩)
        (fu_chunk_get_data_sz ⟨200, [0xAA, 0xBB, 0xCC]⟩) = some w ∧
      fu_jabra_gnp_device_write_chunks_body dev_chunk_ack 100
        (array_init ArrayObject.match_buf 63 [0x05, 0x08, 0x00, 0x00, 0x06, 0x0F, 0x1B])
        ⟨array_init ArrayObject.rxbuf 63 [0x00], 30000⟩ 200 ⟨200, [0xAA, 0xBB, 0xCC]⟩ = some b ∧
      (w.ret = false → b.self = w.self) ∧
      (w.ret = true → ∃ n, n ≤ 3 ∧ (1 ≤ n ↔ 200 % 100 = 0) ∧
        b.self.parent_instance.log = w.self.parent_instance.log ++
          List.replicate n (UsbEvent.interrupt_transfer 0x81 FU_JABRA_GNP_BUF_SIZE 30000))) ∧
    (fu_chunk_array_new_from_bytes (List.replicate 530 0x5A) 0x00 0x00 52).length = 11 ∧
    (∃ w c,
      fu_jabra_gnp_device_write_chunk dev_chunk_ack 0 ((List.replicate 530 0x5A).take 52) 52
        = some w ∧
      fu_jabra_gnp_device_write_chunks dev_chunk_ack
        (fu_chunk_array_new_from_bytes (List.replicate 530 0x5A) 0x00 0x00 52) = some c ∧
      (w.ret = false → c.self = w.self) ∧
      (w.ret = true → ∃ n, 1 ≤ n ∧ n ≤ 3 ∧
        c.self.parent_instance.log = w.self.parent_instance.log ++
          List.replicate n (UsbEvent.interrupt_transfer 0x81 FU_JABRA_GNP_BUF_SIZE
            FU_JABRA_GNP_LONG_RECEIVE_TIMEOUT))) :=
  ack_receive_iff_window_start dev_chunk_ack
    (array_init ArrayObject.match_buf 63 [0x05, 0x08, 0x00, 0x00, 0x06, 0x0F, 0x1B])
    ⟨array_init ArrayObject.rxbuf 63 [0x00], 30000⟩ 200 ⟨200, [0xAA, 0xBB, 0xCC]⟩
    (List.replicate 530 0x5A) (by decide) (List.length_replicate 530 0x5A)

/-! ### The sequence tracker -/

theorem receive_sequence_number (self : FuJabraGnpDevice) (user_data : FuJabraGnpReceiveData) :
    (fu_jabra_gnp_device_receive self user_data).self.sequence_number =
      self.sequence_number := by
  simp only [fu_jabra_gnp_device_receive, g_usb_device_interrupt_transfer]
  rcases self.parent_instance.interrupt with _ | ⟨o, rest⟩
  · rfl
  · cases o with
    | failed m => rfl
    | done f => rfl

/-- An accepted response advances the 8-bit sequence number by one. -/
theorem receive_with_sequence_advances (self : FuJabraGnpDevice)
    (user_data : FuJabraGnpReceiveData)
    (h : (fu_jabra_gnp_device_receive_with_sequence self user_data).ret = true) :
    (fu_jabra_gnp_device_receive_with_sequence self user_data).self.sequence_number =
      (self.sequence_number + 1) % 2 ^ 8 := by
  revert h
  unfold fu_jabra_gnp_device_receive_with_sequence
  simp only []
  split_ifs with h1 h2
  · intro h; exact h.elim
  · intro h; exact h.elim
  · intro _
    show ((fu_jabra_gnp_device_receive self user_data).self.sequence_number + 1) % 2 ^ 8 = _
    rw [receive_sequence_number]

/-- C11: the sequence tracker.  For every initial sequence number `v` in
0..255 and every `k`, after `k` accepted responses, each advancing the 8-bit
`sequence_number` by one, the expected sequence number is `(v + k) mod 256`;
so 255 advances to 0. -/
theorem sequence_number_after_accepted (k : Nat) (self : FuJabraGnpDevice)
    (user_data : FuJabraGnpReceiveData) (session : FuJabraGnpDevice)
    (hv : self.sequence_number < 256)
    (h : accepted_responses k self user_data = some session) :
    session.sequence_number = (self.sequence_number + k) % 256 := by
  induction k generalizing self user_data with
  | zero =>
    have hs : self = session := Option.some.inj h
    rw [← hs, Nat.add_zero, Nat.mod_eq_of_lt hv]
  | succ k ih =>
    unfold accepted_responses at h
    by_cases hr : (fu_jabra_gnp_device_receive_with_sequence self user_data).ret = true
    · rw [if_pos hr] at h
      have hadv := receive_with_sequence_advances self user_data hr
      have hlt : (fu_jabra_gnp_device_receive_with_sequence self user_data).self.sequence_number
          < 256 := by
        rw [hadv]; omega
      rw [ih _ _ hlt h, hadv]
      omega
    · rw [if_neg hr] at h
      exact Option.noConfusion h

set_option maxRecDepth 8192 in
theorem sequence_number_after_accepted_witness :
    dev_wrap_around.sequence_number < 256 ∧
    accepted_responses 3 dev_wrap_around
        ⟨array_init ArrayObject.rxbuf 63 [0x00], 1000⟩ =
      some ⟨⟨[], [], List.replicate 3 (UsbEvent.interrupt_transfer 0x81 63 1000)⟩, 3, 1, none⟩ ∧
    (⟨⟨[], [], List.replicate 3 (UsbEvent.interrupt_transfer 0x81 63 1000)⟩, 3, 1, none⟩ :
        FuJabraGnpDevice).sequence_number = (254 + 3) % 256 :=
  ⟨by decide, by decide,
    sequence_number_after_accepted 3 dev_wrap_around
      ⟨array_init ArrayObject.rxbuf 63 [0x00], 1000⟩ _ (by decide) (by decide)⟩

/-! ### The retry policy of the phases -/

theorem after_sends_after_send (self : FuJabraGnpDevice) (c1 ctl : List (Transfer Unit))
    (init : List Nat) (k : Nat) :
    after_sends (after_send self c1 init) ctl init k = after_sends self ctl init (k + 1) := by
  unfold after_sends after_send
  simp only [List.append_assoc, List.replicate_succ, List.singleton_append]

theorem after_reads_after_read (self : FuJabraGnpDevice) (r1 rest : List (Transfer (List Nat)))
    (timeout : Nat) (k : Nat) :
    after_reads (after_read self r1 timeout) rest timeout k =
      after_reads self rest timeout (k + 1) := by
  unfold after_reads after_read
  simp only [List.append_assoc, List.replicate_succ, List.singleton_append]

theorem send_step_done (self : FuJabraGnpDevice) (init : List Nat) (ctl : List (Transfer Unit))
    (hctl : self.parent_instance.control = Transfer.done () :: ctl) :
    fu_jabra_gnp_device_send self
      ⟨array_init ArrayObject.txbuf FU_JABRA_GNP_BUF_SIZE init,
        FU_JABRA_GNP_STANDARD_SEND_TIMEOUT⟩ =
      ⟨after_sends self ctl init 1,
        ⟨array_init ArrayObject.txbuf FU_JABRA_GNP_BUF_SIZE init,
          FU_JABRA_GNP_STANDARD_SEND_TIMEOUT⟩, true, none⟩ := by
  simp only [fu_jabra_gnp_device_send, g_usb_device_control_transfer, hctl]
  rfl

theorem send_step_failed (self : FuJabraGnpDevice) (init : List Nat) (m : String)
    (ctl : List (Transfer Unit))
    (hctl : self.parent_instance.control = Transfer.failed m :: ctl) :
    fu_jabra_gnp_device_send self
      ⟨array_init ArrayObject.txbuf FU_JABRA_GNP_BUF_SIZE init,
        FU_JABRA_GNP_STANDARD_SEND_TIMEOUT⟩ =
      ⟨after_send self ctl init,
        ⟨array_init ArrayObject.txbuf FU_JABRA_GNP_BUF_SIZE init,
          FU_JABRA_GNP_STANDARD_SEND_TIMEOUT⟩, false,
        some ⟨FwupdError.FWUPD_ERROR_WRITE, Message.failed_to_write m⟩⟩ := by
  simp only [fu_jabra_gnp_device_send, g_usb_device_control_transfer, hctl]
  rfl

/-- The retry executor around the send: failures that leave an attempt, then
an accepted transfer. -/
theorem retry_send_after_failures (fails : List String) (n : Nat) (self : FuJabraGnpDevice)
    (init : List Nat) (ctl : List (Transfer Unit)) (delay : Nat) (hn : fails.length < n)
    (hctl : self.parent_instance.control =
      fails.map Transfer.failed ++ Transfer.done () :: ctl) :
    fu_device_retry_full self fu_jabra_gnp_device_send n delay
      ⟨array_init ArrayObject.txbuf FU_JABRA_GNP_BUF_SIZE init,
        FU_JABRA_GNP_STANDARD_SEND_TIMEOUT⟩ =
      ⟨after_sends self ctl init (fails.length + 1),
        ⟨array_init ArrayObject.txbuf FU_JABRA_GNP_BUF_SIZE init,
          FU_JABRA_GNP_STANDARD_SEND_TIMEOUT⟩, true, none⟩ := by
  induction fails generalizing self n with
  | nil =>
    obtain ⟨n, rfl⟩ : ∃ n', n = n' + 1 := ⟨n - 1, by simp at hn; omega⟩
    exact retry_first_ok self _ n delay _ _ (send_step_done self init ctl hctl) rfl
  | cons e fs ih =>
    obtain ⟨n, rfl⟩ : ∃ n', n = n' + 2 := ⟨n - 2, by simp at hn; omega⟩
    rw [retry_first_failed self _ n delay _ _
      (send_step_failed self init e (fs.map Transfer.failed ++ Transfer.done () :: ctl)
        (by rw [hctl]; simp))
      rfl (fun h => Option.noConfusion h)]
    have h2 := ih (n + 1) (after_send self (fs.map Transfer.failed ++ Transfer.done () :: ctl)
      init) (by simp at hn ⊢; omega) rfl
    rw [after_sends_after_send] at h2
    exact h2

theorem receive_with_sequence_failed (self : FuJabraGnpDevice)
    (user_data : FuJabraGnpReceiveData) (m : String) (rest : List (Transfer (List Nat)))
    (hrx : self.parent_instance.interrupt = Transfer.failed m :: rest) :
    fu_jabra_gnp_device_receive_with_sequence self user_data =
      ⟨after_read self rest user_data.timeout, user_data, false,
        some ⟨FwupdError.FWUPD_ERROR_READ, Message.failed_to_read m⟩⟩ := by
  simp only [fu_jabra_gnp_device_receive_with_sequence, fu_jabra_gnp_device_receive,
    g_usb_device_interrupt_transfer, hrx]
  rfl

/-- The retry executor around the sequence-checked receive: failed reads that
leave an attempt, then a read with a frame that is accepted. -/
theorem retry_receive_after_failures (fails : List String) (n : Nat) (self : FuJabraGnpDevice)
    (object : ArrayObject) (bytes : List Nat) (timeout : Nat) (r : List Nat)
    (rest : List (Transfer (List Nat))) (delay : Nat) (hn : fails.length < n)
    (hrx : self.parent_instance.interrupt = fails.map Transfer.failed ++ Transfer.done r :: rest)
    (hr : r.length = FU_JABRA_GNP_BUF_SIZE) (hbuf : bytes.length = FU_JABRA_GNP_BUF_SIZE)
    (hm : self.sequence_number = r.getD 3 0) :
    fu_device_retry_full self fu_jabra_gnp_device_receive_with_sequence n delay
      ⟨⟨object, bytes⟩, timeout⟩ =
      ⟨{ after_reads self rest timeout (fails.length + 1) with
          sequence_number := (self.sequence_number + 1) % 2 ^ 8 },
        ⟨⟨object, r⟩, timeout⟩, true, none⟩ := by
  induction fails generalizing self n with
  | nil =>
    obtain ⟨n, rfl⟩ : ∃ n', n = n' + 1 := ⟨n - 1, by simp at hn; omega⟩
    exact retry_first_ok self _ n delay _ _
      (receive_with_sequence_match self object bytes timeout r rest hrx hr hbuf hm) rfl
  | cons e fs ih =>
    obtain ⟨n, rfl⟩ : ∃ n', n = n' + 2 := ⟨n - 2, by simp at hn; omega⟩
    rw [retry_first_failed self _ n delay _ _
      (receive_with_sequence_failed self _ e (fs.map Transfer.failed ++ Transfer.done r :: rest)
        (by rw [hrx]; simp)) rfl (fun h => Option.noConfusion h)]
    have h2 := ih (n + 1) (after_read self (fs.map Transfer.failed ++ Transfer.done r :: rest)
      timeout) (by simp at hn ⊢; omega) rfl hm
    rw [after_reads_after_read] at h2
    exact h2

theorem receive_step_failed (self : FuJabraGnpDevice) (user_data : FuJabraGnpReceiveData)
    (m : String) (rest : List (Transfer (List Nat)))
    (hrx : self.parent_instance.interrupt = Transfer.failed m :: rest) :
    fu_jabra_gnp_device_receive self user_data =
      ⟨after_read self rest user_data.timeout, user_data, false,
        some ⟨FwupdError.FWUPD_ERROR_READ, Message.failed_to_read m⟩⟩ := by
  simp only [fu_jabra_gnp_device_receive, g_usb_device_interrupt_transfer, hrx]
  rfl

theorem receive_step_done (self : FuJabraGnpDevice) (object : ArrayObject) (bytes : List Nat)
    (timeout : Nat) (r : List Nat) (rest : List (Transfer (List Nat)))
    (hrx : self.parent_instance.interrupt = Transfer.done r :: rest)
    (hr : r.length = FU_JABRA_GNP_BUF_SIZE) (hbuf : bytes.length = FU_JABRA_GNP_BUF_SIZE) :
    fu_jabra_gnp_device_receive self ⟨⟨object, bytes⟩, timeout⟩ =
      ⟨after_reads self rest timeout 1, ⟨⟨object, r⟩, timeout⟩, true, none⟩ := by
  rw [receive_done self _ r rest hrx hr hbuf]
  rfl

/-- The retry executor around the plain receive: failed reads that leave an
attempt, then a read that is carried out. -/
theorem retry_plain_receive_after_failures (fails : List String) (n : Nat)
    (self : FuJabraGnpDevice) (object : ArrayObject) (bytes : List Nat) (timeout : Nat)
    (r : List Nat) (rest : List (Transfer (List Nat))) (delay : Nat) (hn : fails.length < n)
    (hrx : self.parent_instance.interrupt = fails.map Transfer.failed ++ Transfer.done r :: rest)
    (hr : r.length = FU_JABRA_GNP_BUF_SIZE) (hbuf : bytes.length = FU_JABRA_GNP_BUF_SIZE) :
    fu_device_retry_full self fu_jabra_gnp_device_receive n delay ⟨⟨object, bytes⟩, timeout⟩ =
      ⟨after_reads self rest timeout (fails.length + 1), ⟨⟨object, r⟩, timeout⟩, true, none⟩ := by
  induction fails generalizing self n with
  | nil =>
    obtain ⟨n, rfl⟩ : ∃ n', n = n' + 1 := ⟨n - 1, by simp at hn; omega⟩
    exact retry_first_ok self _ n delay _ _
      (receive_step_done self object bytes timeout r rest hrx hr hbuf) rfl
  | cons e fs ih =>
    obtain ⟨n, rfl⟩ : ∃ n', n = n' + 2 := ⟨n - 2, by simp at hn; omega⟩
    rw [retry_first_failed self _ n delay _ _
      (receive_step_failed self _ e (fs.map Transfer.failed ++ Transfer.done r :: rest)
        (by rw [hrx]; simp)) rfl (fun h => Option.noConfusion h)]
    have h2 := ih (n + 1) (after_read self (fs.map Transfer.failed ++ Transfer.done r :: rest)
      timeout) (by simp at hn ⊢; omega) rfl
    rw [after_reads_after_read] at h2
    exact h2

/-- Three failed attempts of an operation that fails by a failed transfer. -/
theorem retry_three_failures {δ : Type} (func : FuJabraGnpDevice → δ → Ret δ)
    (self s1 s2 s3 : FuJabraGnpDevice) (user_data : δ) (delay : Nat) (g1 g2 : GError)
    (g3 : Option GError)
    (h1 : func self user_data = ⟨s1, user_data, false, some g1⟩)
    (h2 : func s1 user_data = ⟨s2, user_data, false, some g2⟩)
    (h3 : func s2 user_data = ⟨s3, user_data, false, g3⟩) :
    fu_device_retry_full self func 3 delay user_data = ⟨s3, user_data, false, g3⟩ :=
  (retry_first_failed self func 1 delay user_data _ h1 rfl (fun h => Option.noConfusion h)).trans
    ((retry_first_failed s1 func 0 delay user_data _ h2 rfl
        (fun h => Option.noConfusion h)).trans
      (retry_last_failed s2 func delay user_data _ h3 rfl))

theorem after_three_sends (self : FuJabraGnpDevice) (c1 c2 ctl : List (Transfer Unit))
    (init : List Nat) :
    after_send (after_send (after_send self c1 init) c2 init) ctl init =
      after_sends self ctl init 3 := by
  unfold after_sends after_send
  simp only [List.append_assoc, List.replicate_succ, List.singleton_append, List.replicate_zero]
  rfl

theorem after_three_reads (self : FuJabraGnpDevice) (c1 c2 rest : List (Transfer (List Nat)))
    (timeout : Nat) :
    after_read (after_read (after_read self c1 timeout) c2 timeout) rest timeout =
      after_reads self rest timeout 3 := by
  unfold after_reads after_read
  simp only [List.append_assoc, List.replicate_succ, List.singleton_append, List.replicate_zero]
  rfl

/-- C12, as amended: the retry policy of the phases of the commands, with the
attempt budget 3.  An attempt of the send phase fails when the control
transfer fails; an attempt of a receive phase fails when the interrupt read
fails, and in a sequence-checked receive also when the frame read is rejected.
When the first `m < 3` attempts fail by a failed transfer and attempt `m + 1`
succeeds (for a sequence-checked receive: the frame read carries the expected
sequence number), the phase succeeds after exactly `m + 1` transfers.  When
the transfer fails on every attempt, exactly 3 transfers are issued and the
phase fails with the error of the last attempt: write-failed for the send,
read-failed for a receive. -/
theorem retry_policy_of_phases (self : FuJabraGnpDevice) (init : List Nat) (timeout : Nat)
    (fails : List String) (e1 e2 e3 : String) (hm : fails.length < 3) :
    (∀ ctl, self.parent_instance.control = fails.map Transfer.failed ++ Transfer.done () :: ctl →
      send_phase self init =
        ⟨after_sends self ctl init (fails.length + 1),
          ⟨array_init ArrayObject.txbuf FU_JABRA_GNP_BUF_SIZE init,
            FU_JABRA_GNP_STANDARD_SEND_TIMEOUT⟩, true, none⟩) ∧
    (∀ ctl, self.parent_instance.control =
        Transfer.failed e1 :: Transfer.failed e2 :: Transfer.failed e3 :: ctl →
      send_phase self init =
        ⟨after_sends self ctl init 3,
          ⟨array_init ArrayObject.txbuf FU_JABRA_GNP_BUF_SIZE init,
            FU_JABRA_GNP_STANDARD_SEND_TIMEOUT⟩, false,
          some ⟨FwupdError.FWUPD_ERROR_WRITE, Message.failed_to_write e3⟩⟩) ∧
    (∀ r rest,
      self.parent_instance.interrupt = fails.map Transfer.failed ++ Transfer.done r :: rest →
      r.length = FU_JABRA_GNP_BUF_SIZE → self.sequence_number = r.getD 3 0 →
      receive_phase self =
        ⟨{ after_reads self rest FU_JABRA_GNP_STANDARD_RECEIVE_TIMEOUT (fails.length + 1) with
            sequence_number := (self.sequence_number + 1) % 2 ^ 8 },
          ⟨⟨ArrayObject.rxbuf, r⟩, FU_JABRA_GNP_STANDARD_RECEIVE_TIMEOUT⟩, true, none⟩) ∧
    (∀ rest, self.parent_instance.interrupt =
        Transfer.failed e1 :: Transfer.failed e2 :: Transfer.failed e3 :: rest →
      receive_phase self =
        ⟨after_reads self rest FU_JABRA_GNP_STANDARD_RECEIVE_TIMEOUT 3,
          ⟨array_init ArrayObject.rxbuf FU_JABRA_GNP_BUF_SIZE [0x00],
            FU_JABRA_GNP_STANDARD_RECEIVE_TIMEOUT⟩, false,
          some ⟨FwupdError.FWUPD_ERROR_READ, Message.failed_to_read e3⟩⟩) ∧
    (∀ r rest,
      self.parent_instance.interrupt = fails.map Transfer.failed ++ Transfer.done r :: rest →
      r.length = FU_JABRA_GNP_BUF_SIZE →
      fu_device_retry_full self fu_jabra_gnp_device_receive FU_JABRA_GNP_MAX_RETRIES
          FU_JABRA_GNP_RETRY_DELAY
          ⟨array_init ArrayObject.rxbuf FU_JABRA_GNP_BUF_SIZE [0x00], timeout⟩ =
        ⟨after_reads self rest timeout (fails.length + 1), ⟨⟨ArrayObject.rxbuf, r⟩, timeout⟩,
          true, none⟩) ∧
    (∀ rest, self.parent_instance.interrupt =
        Transfer.failed e1 :: Transfer.failed e2 :: Transfer.failed e3 :: rest →
      fu_device_retry_full self fu_jabra_gnp_device_receive FU_JABRA_GNP_MAX_RETRIES
          FU_JABRA_GNP_RETRY_DELAY
          ⟨array_init ArrayObject.rxbuf FU_JABRA_GNP_BUF_SIZE [0x00], timeout⟩ =
        ⟨after_reads self rest timeout 3,
          ⟨array_init ArrayObject.rxbuf FU_JABRA_GNP_BUF_SIZE [0x00], timeout⟩, false,
          some ⟨FwupdError.FWUPD_ERROR_READ, Message.failed_to_read e3⟩⟩) := by
  refine ⟨?_, ?_, ?_, ?_, ?_, ?_⟩
  · intro ctl hctl
    exact retry_send_after_failures fails 3 self init ctl _ hm hctl
  · intro ctl hctl
    have h := retry_three_failures fu_jabra_gnp_device_send self _ _ _
      ⟨array_init ArrayObject.txbuf FU_JABRA_GNP_BUF_SIZE init,
        FU_JABRA_GNP_STANDARD_SEND_TIMEOUT⟩ FU_JABRA_GNP_RETRY_DELAY _ _ _
      (send_step_failed self init e1 _ hctl)
      (send_step_failed (after_send self _ init) init e2 _ rfl)
      (send_step_failed (after_send (after_send self _ init) _ init) init e3 ctl rfl)
    rw [after_three_sends] at h
    exact h
  · intro r rest hrx hr hs
    exact retry_receive_after_failures fails 3 self ArrayObject.rxbuf _ _ r rest _ hm hrx hr
      (array_init_length ArrayObject.rxbuf FU_JABRA_GNP_BUF_SIZE [0x00]) hs
  · intro rest hrx
    have h := retry_three_failures fu_jabra_gnp_device_receive_with_sequence self _ _ _
      ⟨array_init ArrayObject.rxbuf FU_JABRA_GNP_BUF_SIZE [0x00],
        FU_JABRA_GNP_STANDARD_RECEIVE_TIMEOUT⟩ FU_JABRA_GNP_RETRY_DELAY _ _ _
      (receive_with_sequence_failed self _ e1 _ hrx)
      (receive_with_sequence_failed (after_read self _ _) _ e2 _ rfl)
      (receive_with_sequence_failed (after_read (after_read self _ _) _ _) _ e3 rest rfl)
    rw [after_three_reads] at h
    exact h
  · intro r rest hrx hr
    exact retry_plain_receive_after_failures fails 3 self ArrayObject.rxbuf _ timeout r rest _
      hm hrx hr (array_init_length ArrayObject.rxbuf FU_JABRA_GNP_BUF_SIZE [0x00])
  · intro rest hrx
    have h := retry_three_failures fu_jabra_gnp_device_receive self _ _ _
      ⟨array_init ArrayObject.rxbuf FU_JABRA_GNP_BUF_SIZE [0x00], timeout⟩
      FU_JABRA_GNP_RETRY_DELAY _ _ _
      (receive_step_failed self _ e1 _ hrx)
      (receive_step_failed (after_read self _ _) _ e2 _ rfl)
      (receive_step_failed (after_read (after_read self _ _) _ _) _ e3 rest rfl)
    rw [after_three_reads] at h
    exact h

theorem retry_policy_of_phases_witness :
    send_phase dev_transient_failures [0x05, 0x08, 0x00, 0x00, 0x86, 0x0F, 0x17] =
      ⟨after_sends dev_transient_failures [] [0x05, 0x08, 0x00, 0x00, 0x86, 0x0F, 0x17] 2,
        ⟨array_init ArrayObject.txbuf FU_JABRA_GNP_BUF_SIZE
          [0x05, 0x08, 0x00, 0x00, 0x86, 0x0F, 0x17], FU_JABRA_GNP_STANDARD_SEND_TIMEOUT⟩,
        true, none⟩ ∧
    send_phase dev_dead [0x05, 0x08, 0x00, 0x00, 0x86, 0x0F, 0x17] =
      ⟨after_sends dev_dead [] [0x05, 0x08, 0x00, 0x00, 0x86, 0x0F, 0x17] 3,
        ⟨array_init ArrayObject.txbuf FU_JABRA_GNP_BUF_SIZE
          [0x05, 0x08, 0x00, 0x00, 0x86, 0x0F, 0x17], FU_JABRA_GNP_STANDARD_SEND_TIMEOUT⟩,
        false, some ⟨FwupdError.FWUPD_ERROR_WRITE, Message.failed_to_write "c"⟩⟩ ∧
    receive_phase dev_transient_failures =
      ⟨{ after_reads dev_transient_failures [] FU_JABRA_GNP_STANDARD_RECEIVE_TIMEOUT 3 with
          sequence_number := 1 },
        ⟨⟨ArrayObject.rxbuf, frame [0x05, 0x08, 0x00, 0x00, 0x00, 0xFF]⟩,
          FU_JABRA_GNP_STANDARD_RECEIVE_TIMEOUT⟩, true, none⟩ ∧
    receive_phase dev_dead =
      ⟨after_reads dev_dead [] FU_JABRA_GNP_STANDARD_RECEIVE_TIMEOUT 3,
        ⟨array_init ArrayObject.rxbuf FU_JABRA_GNP_BUF_SIZE [0x00],
          FU_JABRA_GNP_STANDARD_RECEIVE_TIMEOUT⟩, false,
        some ⟨FwupdError.FWUPD_ERROR_READ, Message.failed_to_read "z"⟩⟩ ∧
    fu_device_retry_full dev_transient_failures fu_jabra_gnp_device_receive
        FU_JABRA_GNP_MAX_RETRIES FU_JABRA_GNP_RETRY_DELAY
        ⟨array_init ArrayObject.rxbuf FU_JABRA_GNP_BUF_SIZE [0x00], 60000⟩ =
      ⟨after_reads dev_transient_failures [] 60000 3,
        ⟨⟨ArrayObject.rxbuf, frame [0x05, 0x08, 0x00, 0x00, 0x00, 0xFF]⟩, 60000⟩,
        true, none⟩ ∧
    fu_device_retry_full dev_dead fu_jabra_gnp_device_receive
        FU_JABRA_GNP_MAX_RETRIES FU_JABRA_GNP_RETRY_DELAY
        ⟨array_init ArrayObject.rxbuf FU_JABRA_GNP_BUF_SIZE [0x00], 60000⟩ =
      ⟨after_reads dev_dead [] 60000 3,
        ⟨array_init ArrayObject.rxbuf FU_JABRA_GNP_BUF_SIZE [0x00], 60000⟩, false,
        some ⟨FwupdError.FWUPD_ERROR_READ, Message.failed_to_read "z"⟩⟩ :=
  ⟨(retry_policy_of_phases dev_transient_failures [0x05, 0x08, 0x00, 0x00, 0x86, 0x0F, 0x17]
      60000 ["stall"] "a" "b" "c" (by decide)).1 [] rfl,
    (retry_policy_of_phases dev_dead [0x05, 0x08, 0x00, 0x00, 0x86, 0x0F, 0x17]
      60000 [] "a" "b" "c" (by decide)).2.1 [] rfl,
    (retry_policy_of_phases dev_transient_failures [0x05, 0x08, 0x00, 0x00, 0x86, 0x0F, 0x17]
      60000 ["timeout", "timeout"] "a" "b" "c" (by decide)).2.2.1 _ [] rfl (by decide)
      (by decide),
    (retry_policy_of_phases dev_dead [0x05, 0x08, 0x00, 0x00, 0x86, 0x0F, 0x17]
      60000 [] "x" "y" "z" (by decide)).2.2.2.1 [] rfl,
    (retry_policy_of_phases dev_transient_failures [0x05, 0x08, 0x00, 0x00, 0x86, 0x0F, 0x17]
      60000 ["timeout", "timeout"] "a" "b" "c" (by decide)).2.2.2.2.1 _ [] rfl (by decide),
    (retry_policy_of_phases dev_dead [0x05, 0x08, 0x00, 0x00, 0x86, 0x0F, 0x17]
      60000 [] "x" "y" "z" (by decide)).2.2.2.2.2 [] rfl⟩

set_option maxRecDepth 8192 in
/-- C12, as stated, fails for a sequence-checked receive phase: the interrupt
read of the first attempt is carried out (`m = 0`), but its frame carries the
sequence byte 7 while 0 is expected, and the phase does not succeed after one
invocation: it issues that one read and fails. -/
theorem transfer_success_not_phase_success :
    (fu_jabra_gnp_device_receive dev_three_mismatches
      ⟨array_init ArrayObject.rxbuf FU_JABRA_GNP_BUF_SIZE [0x00],
        FU_JABRA_GNP_STANDARD_RECEIVE_TIMEOUT⟩).ret = true ∧
    (receive_phase dev_three_mismatches).ret = false ∧
    (receive_phase dev_three_mismatches).self.parent_instance.log =
      List.replicate 1 (UsbEvent.interrupt_transfer 0x81 63 1000) :=
  ⟨by decide, by decide, by decide⟩

/-! ### The frames that are sent -/

theorem send_facts (self : FuJabraGnpDevice) (user_data : FuJabraGnpSendData) :
    (fu_jabra_gnp_device_send self user_data).user_data = user_data ∧
    (fu_jabra_gnp_device_send self user_data).self.iface_hid = self.iface_hid ∧
    (fu_jabra_gnp_device_send self user_data).self.sequence_number = self.sequence_number ∧
    (fu_jabra_gnp_device_send self user_data).self.parent_instance.log =
      self.parent_instance.log ++
        [UsbEvent.control_transfer self.iface_hid
          (user_data.txbuf.bytes.take FU_JABRA_GNP_BUF_SIZE) FU_JABRA_GNP_BUF_SIZE
          user_data.timeout] := by
  simp only [fu_jabra_gnp_device_send, g_usb_device_control_transfer]
  rcases self.parent_instance.control with _ | ⟨o, rest⟩
  · exact ⟨rfl, rfl, rfl, rfl⟩
  · cases o with
    | failed m => exact ⟨rfl, rfl, rfl, rfl⟩
    | done u => exact ⟨rfl, rfl, rfl, rfl⟩

/-- The retry executor around the send issues between one and `count` control
transfers of the same frame, and leaves the sequence number. -/
theorem retry_send_log (n delay : Nat) (self : FuJabraGnpDevice)
    (user_data : FuJabraGnpSendData) :
    (fu_device_retry_full self fu_jabra_gnp_device_send n delay user_data).self.sequence_number
      = self.sequence_number ∧
    ∃ k, k ≤ n ∧ (1 ≤ n → 1 ≤ k) ∧
      (fu_device_retry_full self fu_jabra_gnp_device_send n delay
        user_data).self.parent_instance.log =
      self.parent_instance.log ++ List.replicate k
        (UsbEvent.control_transfer self.iface_hid
          (user_data.txbuf.bytes.take FU_JABRA_GNP_BUF_SIZE) FU_JABRA_GNP_BUF_SIZE
          user_data.timeout) := by
  induction n generalizing self with
  | zero =>
    exact ⟨rfl, 0, le_refl 0, fun h => absurd h (by decide), by simp [fu_device_retry_full]⟩
  | succ n ih =>
    obtain ⟨hud, hif, hseq, hlog⟩ := send_facts self user_data
    rw [retry_succ]
    split_ifs with h1 h2 h3
    · exact ⟨hseq, 1, by omega, fun _ => le_refl 1, by rw [hlog]; rfl⟩
    · exact ⟨hseq, 1, by omega, fun _ => le_refl 1, by rw [hlog]; rfl⟩
    · exact ⟨hseq, 1, by omega, fun _ => le_refl 1, by rw [hlog]; rfl⟩
    · obtain ⟨hs2, k, hk, _, hlog2⟩ := ih (fu_jabra_gnp_device_send self user_data).self
      rw [hud]
      refine ⟨hs2.trans hseq, k + 1, by omega, fun _ => by omega, ?_⟩
      rw [hlog2, hlog, hif, List.append_assoc]
      congr 1

theorem receive_with_sequence_facts (self : FuJabraGnpDevice)
    (user_data : FuJabraGnpReceiveData) :
    (fu_jabra_gnp_device_receive_with_sequence self user_data).user_data.timeout =
      user_data.timeout ∧
    (fu_jabra_gnp_device_receive_with_sequence self user_data).self.parent_instance.log =
      self.parent_instance.log ++
        [UsbEvent.interrupt_transfer 0x81 FU_JABRA_GNP_BUF_SIZE user_data.timeout] := by
  have h1 := (receive_object self user_data).2
  have h2 := receive_log self user_data
  unfold fu_jabra_gnp_device_receive_with_sequence
  simp only []
  split_ifs
  · exact ⟨h1, h2⟩
  · exact ⟨h1, h2⟩
  · exact ⟨h1, h2⟩

/-- The retry executor around the sequence-checked receive issues interrupt
reads only. -/
theorem retry_receive_with_sequence_log (n delay : Nat) (self : FuJabraGnpDevice)
    (user_data : FuJabraGnpReceiveData) :
    ∃ k, (fu_device_retry_full self fu_jabra_gnp_device_receive_with_sequence n delay
        user_data).self.parent_instance.log =
      self.parent_instance.log ++ List.replicate k
        (UsbEvent.interrupt_transfer 0x81 FU_JABRA_GNP_BUF_SIZE user_data.timeout) := by
  induction n generalizing self user_data with
  | zero => exact ⟨0, by simp [fu_device_retry_full]⟩
  | succ n ih =>
    obtain ⟨ht, hlog⟩ := receive_with_sequence_facts self user_data
    rw [retry_succ]
    split_ifs with h1 h2 h3
    · exact ⟨1, by rw [hlog]; rfl⟩
    · exact ⟨1, by rw [hlog]; rfl⟩
    · exact ⟨1, by rw [hlog]; rfl⟩
    · obtain ⟨k, hlog2⟩ := ih (fu_jabra_gnp_device_receive_with_sequence self user_data).self
        (fu_jabra_gnp_device_receive_with_sequence self user_data).user_data
      refine ⟨k + 1, ?_⟩
      rw [hlog2, hlog, ht, List.append_assoc]
      congr 1

theorem read_version_parse_device (self : FuJabraGnpDevice)
    (receive_data : FuJabraGnpReceiveData) (x : Ret Unit)
    (h : fu_jabra_gnp_device_read_version_parse self receive_data = some x) :
    x.self.parent_instance = self.parent_instance ∧
    x.self.sequence_number = self.sequence_number := by
  unfold fu_jabra_gnp_device_read_version_parse at h
  obtain ⟨vl, _, h2⟩ := Option.bind_eq_some.mp h
  obtain ⟨v, _, h3⟩ := Option.bind_eq_some.mp h2
  have h4 := Option.some.inj h3
  rw [← h4]
  exact ⟨rfl, rfl⟩

theorem command_finish_device (c : Command) (self : FuJabraGnpDevice)
    (receive_data : FuJabraGnpReceiveData) (x : Ret Unit)
    (h : c.finish self receive_data = some x) :
    x.self.parent_instance = self.parent_instance := by
  cases c with
  | read_version => exact (read_version_parse_device self receive_data x h).1
  | write_partition part =>
    have h2 : status_check self receive_data = x := Option.some.inj h
    rw [← h2]; unfold status_check; split_ifs <;> rfl
  | start =>
    have h2 : status_check self receive_data = x := Option.some.inj h
    rw [← h2]; unfold status_check; split_ifs <;> rfl
  | write_crc crc total_chunks preload_count =>
    have h2 : status_check self receive_data = x := Option.some.inj h
    rw [← h2]; unfold status_check; split_ifs <;> rfl
  | write_version v1 v2 v3 =>
    have h2 : status_check self receive_data = x := Option.some.inj h
    rw [← h2]; unfold status_check; split_ifs <;> rfl

/-- Every command hands one frame to the control transfers, the array it
declares as `txbuf`, and otherwise only reads. -/
theorem command_sends_only (c : Command) (self : FuJabraGnpDevice) (x : Ret Unit)
    (h : c.run self = some x) :
    SendsOnly self x.self
      ((array_init ArrayObject.txbuf FU_JABRA_GNP_BUF_SIZE
        (c.txbuf self.sequence_number)).bytes.take FU_JABRA_GNP_BUF_SIZE) := by
  obtain ⟨_, k, hk3, hk1, hlog⟩ := retry_send_log FU_JABRA_GNP_MAX_RETRIES
    FU_JABRA_GNP_RETRY_DELAY self
    ⟨array_init ArrayObject.txbuf FU_JABRA_GNP_BUF_SIZE (c.txbuf self.sequence_number),
      FU_JABRA_GNP_STANDARD_SEND_TIMEOUT⟩
  have hlog1 : (send_phase self (c.txbuf self.sequence_number)).self.parent_instance.log =
      self.parent_instance.log ++ List.replicate k
        (UsbEvent.control_transfer self.iface_hid
          ((array_init ArrayObject.txbuf FU_JABRA_GNP_BUF_SIZE
            (c.txbuf self.sequence_number)).bytes.take FU_JABRA_GNP_BUF_SIZE)
          FU_JABRA_GNP_BUF_SIZE FU_JABRA_GNP_STANDARD_SEND_TIMEOUT) := hlog
  obtain ⟨k2, hlog2⟩ := retry_receive_with_sequence_log FU_JABRA_GNP_MAX_RETRIES
    FU_JABRA_GNP_RETRY_DELAY (send_phase self (c.txbuf self.sequence_number)).self
    ⟨array_init ArrayObject.rxbuf FU_JABRA_GNP_BUF_SIZE [0x00],
      FU_JABRA_GNP_STANDARD_RECEIVE_TIMEOUT⟩
  have hlog3 : (receive_phase (send_phase self
      (c.txbuf self.sequence_number)).self).self.parent_instance.log =
      (send_phase self (c.txbuf self.sequence_number)).self.parent_instance.log ++
        List.replicate k2 (UsbEvent.interrupt_transfer 0x81 FU_JABRA_GNP_BUF_SIZE
          FU_JABRA_GNP_STANDARD_RECEIVE_TIMEOUT) := hlog2
  have htail : ∀ e ∈ List.replicate k2 (UsbEvent.interrupt_transfer 0x81 FU_JABRA_GNP_BUF_SIZE
      FU_JABRA_GNP_STANDARD_RECEIVE_TIMEOUT),
      ∃ timeout, e = UsbEvent.interrupt_transfer 0x81 FU_JABRA_GNP_BUF_SIZE timeout :=
    fun e he => ⟨_, List.eq_of_mem_replicate he⟩
  rw [command_run_eq] at h
  split_ifs at h with h1 h2
  · have hx := Option.some.inj h
    refine ⟨k, [], hk1 (by decide), hk3, ?_, fun e he => absurd he (List.not_mem_nil e)⟩
    rw [← hx, List.append_nil]
    exact hlog1
  · have hx := Option.some.inj h
    refine ⟨k, _, hk1 (by decide), hk3, ?_, htail⟩
    rw [← hx]
    show (receive_phase _).self.parent_instance.log = _
    rw [hlog3, hlog1]
  · have hx := command_finish_device c _ _ x h
    refine ⟨k, _, hk1 (by decide), hk3, ?_, htail⟩
    rw [hx, hlog3, hlog1]

theorem getD_replicate_zero (n j : Nat) : (List.replicate n 0).getD j 0 = 0 := by
  rw [List.getD_eq_getElem?_getD, List.getElem?_replicate]
  split_ifs <;> rfl

theorem command_frame_shape (sequence_number opcode group subcode : Nat) (payload : List Nat)
    (h : payload.length ≤ 56) :
    (command_frame sequence_number opcode group subcode payload).length = 63 ∧
    ∀ i, 7 + payload.length ≤ i →
      (command_frame sequence_number opcode group subcode payload).getD i 0 = 0 := by
  unfold command_frame
  constructor
  · simp only [List.length_append, List.length_cons, List.length_nil, List.length_replicate]
    omega
  · intro i hi
    rw [List.getD_append_right _ _ _ _ (by
      simp only [List.length_append, List.length_cons, List.length_nil]; omega)]
    exact getD_replicate_zero _ _

/-- C13: the outbound command frames.  For every session sequence number `s`
and every argument, the frame that `read_version`, `write_partition`, `start`,
`write_crc` and `write_version` hand to the control transfer is the header
05 08 00 `s`, then the opcode, group and sub-code bytes of the command
(46 02 03, 87 0F 2D, 86 0F 17, 8E 0F 19, 89 0F 1E) and its payload, then
zeros; it is 63 bytes long and every byte after the payload is zero. -/
theorem outbound_command_frames (self : FuJabraGnpDevice)
    (part crc total_chunks preload_count v1 v2 v3 : Nat) :
    (∀ x, fu_jabra_gnp_device_read_version self = some x →
      SendsOnly self x.self (command_frame self.sequence_number 0x46 0x02 0x03 [])) ∧
    SendsOnly self (fu_jabra_gnp_device_write_partition self part).self
      (command_frame self.sequence_number 0x87 0x0F 0x2D [part]) ∧
    SendsOnly self (fu_jabra_gnp_device_start self).self
      (command_frame self.sequence_number 0x86 0x0F 0x17 []) ∧
    SendsOnly self (fu_jabra_gnp_device_write_crc self crc total_chunks preload_count).self
      (command_frame self.sequence_number 0x8E 0x0F 0x19
        [(crc &&& 0xff) % 2 ^ 8, ((crc >>> 8) &&& 0xff) % 2 ^ 8,
          ((crc >>> 16) &&& 0xff) % 2 ^ 8, ((crc >>> 24) &&& 0xff) % 2 ^ 8,
          (total_chunks &&& 0xff) % 2 ^ 8, ((total_chunks >>> 8) &&& 0xff) % 2 ^ 8,
          (preload_count &&& 0xff) % 2 ^ 8, ((preload_count >>> 8) &&& 0xff) % 2 ^ 8]) ∧
    SendsOnly self (fu_jabra_gnp_device_write_version self v1 v2 v3).self
      (command_frame self.sequence_number 0x89 0x0F 0x1E [v1, v2, v3]) ∧
    (∀ sequence_number opcode group subcode payload, List.length payload ≤ 56 →
      (command_frame sequence_number opcode group subcode payload).length = 63 ∧
      (command_frame sequence_number opcode group subcode payload).take 7 =
        [0x05, 0x08, 0x00, sequence_number, opcode, group, subcode] ∧
      ((command_frame sequence_number opcode group subcode payload).drop 7).take payload.length
        = payload ∧
      ∀ i, 7 + payload.length ≤ i →
        (command_frame sequence_number opcode group subcode payload).getD i 0 = 0) :=
  ⟨fun x h => command_sends_only Command.read_version self x h,
    command_sends_only (Command.write_partition part) self _ rfl,
    command_sends_only Command.start self _ rfl,
    command_sends_only (Command.write_crc crc total_chunks preload_count) self _ rfl,
    command_sends_only (Command.write_version v1 v2 v3) self _ rfl,
    fun sequence_number opcode group subcode payload h =>
      ⟨(command_frame_shape sequence_number opcode group subcode payload h).1, rfl,
        by
          show (payload ++ List.replicate (56 - payload.length) 0).take payload.length = payload
          rw [List.take_append_of_le_length (le_refl _), List.take_length],
        (command_frame_shape sequence_number opcode group subcode payload h).2⟩⟩

set_option maxRecDepth 8192 in
theorem outbound_command_frames_witness :
    (∃ x, fu_jabra_gnp_device_read_version witness_dev_version = some x ∧
      SendsOnly witness_dev_version x.self (command_frame 0 0x46 0x02 0x03 [])) ∧
    SendsOnly witness_dev_version (fu_jabra_gnp_device_write_partition witness_dev_version 1).self
      (command_frame 0 0x87 0x0F 0x2D [1]) ∧
    ((command_frame 0 0x87 0x0F 0x2D [1]).length = 63 ∧
      (command_frame 0 0x87 0x0F 0x2D [1]).take 7 = [0x05, 0x08, 0x00, 0, 0x87, 0x0F, 0x2D] ∧
      ((command_frame 0 0x87 0x0F 0x2D [1]).drop 7).take 1 = [1] ∧
      ∀ i, 7 + 1 ≤ i → (command_frame 0 0x87 0x0F 0x2D [1]).getD i 0 = 0) :=
  ⟨⟨⟨{ (receive_phase (send_phase witness_dev_version
          [0x05, 0x08, 0x00, 0, 0x46, 0x02, 0x03]).self).self with
        version := some [0x76, 0x31, 0x2E, 0x30] }, (), true, none⟩, by decide,
      (outbound_command_frames witness_dev_version 1 0 11 100 1 2 3).1 _ (by decide)⟩,
    (outbound_command_frames witness_dev_version 1 0 11 100 1 2 3).2.1,
    (outbound_command_frames witness_dev_version 1 0 11 100 1 2 3).2.2.2.2.2 0 0x87 0x0F 0x2D [1]
      (by decide)⟩

/-! ### The bytes of the little-endian fields -/

theorem and_ff (x : Nat) : (x &&& 0xff) % 2 ^ 8 = x % 256 := by
  have h : x &&& 0xff = x % 2 ^ 8 := Nat.and_pow_two_sub_one_eq_mod x 8
  rw [h]
  omega

theorem shift_and_ff (x k : Nat) : ((x >>> k) &&& 0xff) % 2 ^ 8 = x / 2 ^ k % 256 := by
  rw [and_ff, Nat.shiftRight_eq_div_pow]

/-- C14: the round trip of the frame of `fu_jabra_gnp_device_write_crc`.  For
every 32-bit `crc` and every `total_chunks` and `preload_count`, the frame
handed to the control transfer, read as little-endian 32 bits at offsets
7..10 and little-endian 16 bits at offsets 11..12 and 13..14, gives back `crc`
and the two counts mod 65536, so the counts themselves when they are below
65536; offset 3 gives back the sequence number. -/
theorem write_crc_round_trip (self : FuJabraGnpDevice) (crc total_chunks preload_count : Nat)
    (hcrc : crc < 2 ^ 32) :
    ∃ data, SendsOnly self
        (fu_jabra_gnp_device_write_crc self crc total_chunks preload_count).self data ∧
      data.length = 63 ∧
      read_uint32_le data 7 = crc ∧
      read_uint16_le data 11 = total_chunks % 65536 ∧
      read_uint16_le data 13 = preload_count % 65536 ∧
      data.getD 3 0 = self.sequence_number ∧
      (total_chunks < 65536 → read_uint16_le data 11 = total_chunks) ∧
      (preload_count < 65536 → read_uint16_le data 13 = preload_count) := by
  have h32 : read_uint32_le (command_frame self.sequence_number 0x8E 0x0F 0x19
        [(crc &&& 0xff) % 2 ^ 8, ((crc >>> 8) &&& 0xff) % 2 ^ 8,
          ((crc >>> 16) &&& 0xff) % 2 ^ 8, ((crc >>> 24) &&& 0xff) % 2 ^ 8,
          (total_chunks &&& 0xff) % 2 ^ 8, ((total_chunks >>> 8) &&& 0xff) % 2 ^ 8,
          (preload_count &&& 0xff) % 2 ^ 8, ((preload_count >>> 8) &&& 0xff) % 2 ^ 8]) 7
      = crc := by
    show (crc &&& 0xff) % 2 ^ 8 + 2 ^ 8 * (((crc >>> 8) &&& 0xff) % 2 ^ 8) +
      2 ^ 16 * (((crc >>> 16) &&& 0xff) % 2 ^ 8) +
      2 ^ 24 * (((crc >>> 24) &&& 0xff) % 2 ^ 8) = crc
    rw [and_ff, shift_and_ff, shift_and_ff, shift_and_ff]
    omega
  have h16a : read_uint16_le (command_frame self.sequence_number 0x8E 0x0F 0x19
        [(crc &&& 0xff) % 2 ^ 8, ((crc >>> 8) &&& 0xff) % 2 ^ 8,
          ((crc >>> 16) &&& 0xff) % 2 ^ 8, ((crc >>> 24) &&& 0xff) % 2 ^ 8,
          (total_chunks &&& 0xff) % 2 ^ 8, ((total_chunks >>> 8) &&& 0xff) % 2 ^ 8,
          (preload_count &&& 0xff) % 2 ^ 8, ((preload_count >>> 8) &&& 0xff) % 2 ^ 8]) 11
      = total_chunks % 65536 := by
    show (total_chunks &&& 0xff) % 2 ^ 8 + 2 ^ 8 * (((total_chunks >>> 8) &&& 0xff) % 2 ^ 8) = _
    rw [and_ff, shift_and_ff]
    omega
  have h16b : read_uint16_le (command_frame self.sequence_number 0x8E 0x0F 0x19
        [(crc &&& 0xff) % 2 ^ 8, ((crc >>> 8) &&& 0xff) % 2 ^ 8,
          ((crc >>> 16) &&& 0xff) % 2 ^ 8, ((crc >>> 24) &&& 0xff) % 2 ^ 8,
          (total_chunks &&& 0xff) % 2 ^ 8, ((total_chunks >>> 8) &&& 0xff) % 2 ^ 8,
          (preload_count &&& 0xff) % 2 ^ 8, ((preload_count >>> 8) &&& 0xff) % 2 ^ 8]) 13
      = preload_count % 65536 := by
    show (preload_count &&& 0xff) % 2 ^ 8 +
      2 ^ 8 * (((preload_count >>> 8) &&& 0xff) % 2 ^ 8) = _
    rw [and_ff, shift_and_ff]
    omega
  refine ⟨_, command_sends_only (Command.write_crc crc total_chunks preload_count) self _ rfl,
    rfl, h32, h16a, h16b, rfl, fun h => ?_, fun h => ?_⟩
  · exact h16a.trans (Nat.mod_eq_of_lt h)
  · exact h16b.trans (Nat.mod_eq_of_lt h)

theorem write_crc_round_trip_witness :
    ∃ data, SendsOnly witness_dev_status_00
        (fu_jabra_gnp_device_write_crc witness_dev_status_00 0xDEADBEEF 70000 100).self data ∧
      data.length = 63 ∧
      read_uint32_le data 7 = 0xDEADBEEF ∧
      read_uint16_le data 11 = 70000 % 65536 ∧
      read_uint16_le data 13 = 100 % 65536 ∧
      data.getD 3 0 = witness_dev_status_00.sequence_number ∧
      (70000 < 65536 → read_uint16_le data 11 = 70000) ∧
      (100 < 65536 → read_uint16_le data 13 = 100) :=
  write_crc_round_trip witness_dev_status_00 0xDEADBEEF 70000 100 (by decide)

/-! ### The chunk frame -/

theorem memcpy_chunk (init data : List Nat) (hinit : init.length = 11)
    (h : data.length ≤ 52) :
    memcpy (array_init ArrayObject.txbuf FU_JABRA_GNP_BUF_SIZE init) 11 data data.length =
      some ⟨ArrayObject.txbuf, init ++ data ++ List.replicate (52 - data.length) 0⟩ := by
  have hb : (array_init ArrayObject.txbuf FU_JABRA_GNP_BUF_SIZE init).bytes =
      init ++ List.replicate 52 0 := by
    unfold array_init FU_JABRA_GNP_BUF_SIZE
    rw [List.take_of_length_le (by omega), hinit]
  unfold memcpy
  rw [if_pos ⟨by rw [array_init_length]; unfold FU_JABRA_GNP_BUF_SIZE; omega, le_refl _⟩, hb]
  have h1 : (init ++ List.replicate 52 0).take 11 = init := by
    rw [← hinit]
    exact List.take_left _ _
  have h2 : (init ++ List.replicate 52 0).drop (11 + data.length) =
      List.replicate (52 - data.length) 0 := by
    rw [List.drop_append_eq_append_drop, List.drop_of_length_le (by omega), hinit,
      List.drop_replicate, List.nil_append]
    congr 1
    omega
  have h3 : data.take data.length = data := List.take_length data
  simp only [h1, h2, h3]
  rfl

/-- The frame that `fu_jabra_gnp_device_write_chunk` hands to the control
transfer, for a block of at most 52 bytes: the header with the sequence byte
0x00, the byte `write_length`, 0F 19, the index and the size in 16 bits
little-endian, the block, zeros.  The session sequence number is left. -/
theorem write_chunk_sends (self : FuJabraGnpDevice) (chunk_number : Nat) (data : List Nat)
    (h : data.length ≤ 52) :
    ∃ w, fu_jabra_gnp_device_write_chunk self chunk_number data data.length = some w ∧
      w.self.sequence_number = self.sequence_number ∧
      SendsOnly self w.self
        (command_frame 0x00 ((0x00 + data.length) % 2 ^ 8) 0x0F 0x19
          ([(chunk_number &&& 0xff) % 2 ^ 8, ((chunk_number >>> 8) &&& 0xff) % 2 ^ 8,
            (data.length &&& 0xff) % 2 ^ 8, ((data.length >>> 8) &&& 0xff) % 2 ^ 8] ++
            data)) := by
  have hframe : command_frame 0x00 ((0x00 + data.length) % 2 ^ 8) 0x0F 0x19
      ([(chunk_number &&& 0xff) % 2 ^ 8, ((chunk_number >>> 8) &&& 0xff) % 2 ^ 8,
        (data.length &&& 0xff) % 2 ^ 8, ((data.length >>> 8) &&& 0xff) % 2 ^ 8] ++ data) =
      ([0x05, 0x08, 0x00, 0x00, (0x00 + data.length) % 2 ^ 8, 0x0F, 0x19,
        (chunk_number &&& 0xff) % 2 ^ 8, ((chunk_number >>> 8) &&& 0xff) % 2 ^ 8,
        (data.length &&& 0xff) % 2 ^ 8, ((data.length >>> 8) &&& 0xff) % 2 ^ 8] ++ data ++
        List.replicate (52 - data.length) 0).take FU_JABRA_GNP_BUF_SIZE := by
    rw [List.take_of_length_le (by
      simp only [List.length_append, List.length_cons, List.length_nil, List.length_replicate]
      unfold FU_JABRA_GNP_BUF_SIZE
      omega)]
    unfold command_frame
    have hl : 56 - ([(chunk_number &&& 0xff) % 2 ^ 8, ((chunk_number >>> 8) &&& 0xff) % 2 ^ 8,
        (data.length &&& 0xff) % 2 ^ 8, ((data.length >>> 8) &&& 0xff) % 2 ^ 8] ++
        data).length = 52 - data.length := by
      simp only [List.length_append, List.length_cons, List.length_nil]
      omega
    rw [hl]
    simp only [List.cons_append, List.nil_append, List.append_assoc]
  unfold fu_jabra_gnp_device_write_chunk
  simp only []
  rw [memcpy_chunk [0x05, 0x08, 0x00, 0x00, (0x00 + data.length) % 2 ^ 8, 0x0F, 0x19,
      (chunk_number &&& 0xff) % 2 ^ 8, ((chunk_number >>> 8) &&& 0xff) % 2 ^ 8,
      (data.length &&& 0xff) % 2 ^ 8, ((data.length >>> 8) &&& 0xff) % 2 ^ 8] data rfl h,
    Option.some_bind, hframe]
  obtain ⟨hseq, k, hk3, hk1, hlog⟩ := retry_send_log FU_JABRA_GNP_MAX_RETRIES
    FU_JABRA_GNP_RETRY_DELAY self
    ⟨⟨ArrayObject.txbuf, [0x05, 0x08, 0x00, 0x00, (0x00 + data.length) % 2 ^ 8, 0x0F, 0x19,
        (chunk_number &&& 0xff) % 2 ^ 8, ((chunk_number >>> 8) &&& 0xff) % 2 ^ 8,
        (data.length &&& 0xff) % 2 ^ 8, ((data.length >>> 8) &&& 0xff) % 2 ^ 8] ++ data ++
        List.replicate (52 - data.length) 0⟩, FU_JABRA_GNP_STANDARD_SEND_TIMEOUT⟩
  have hso : SendsOnly self (fu_device_retry_full self fu_jabra_gnp_device_send
      FU_JABRA_GNP_MAX_RETRIES FU_JABRA_GNP_RETRY_DELAY
      ⟨⟨ArrayObject.txbuf, [0x05, 0x08, 0x00, 0x00, (0x00 + data.length) % 2 ^ 8, 0x0F, 0x19,
        (chunk_number &&& 0xff) % 2 ^ 8, ((chunk_number >>> 8) &&& 0xff) % 2 ^ 8,
        (data.length &&& 0xff) % 2 ^ 8, ((data.length >>> 8) &&& 0xff) % 2 ^ 8] ++ data ++
        List.replicate (52 - data.length) 0⟩, FU_JABRA_GNP_STANDARD_SEND_TIMEOUT⟩).self
      (([0x05, 0x08, 0x00, 0x00, (0x00 + data.length) % 2 ^ 8, 0x0F, 0x19,
        (chunk_number &&& 0xff) % 2 ^ 8, ((chunk_number >>> 8) &&& 0xff) % 2 ^ 8,
        (data.length &&& 0xff) % 2 ^ 8, ((data.length >>> 8) &&& 0xff) % 2 ^ 8] ++ data ++
        List.replicate (52 - data.length) 0).take FU_JABRA_GNP_BUF_SIZE) :=
    ⟨k, [], hk1 (by decide), hk3, by rw [hlog, List.append_nil], fun e he => by cases he⟩
  split_ifs
  · exact ⟨_, rfl, hseq, hso⟩
  · exact ⟨_, rfl, hseq, hso⟩

theorem write_chunk_too_long (self : FuJabraGnpDevice) (chunk_number : Nat) (data : List Nat)
    (h : 52 < data.length) :
    fu_jabra_gnp_device_write_chunk self chunk_number data data.length = none := by
  unfold fu_jabra_gnp_device_write_chunk memcpy
  simp only []
  rw [if_neg (fun hc => by
    have h1 := hc.1
    rw [array_init_length] at h1
    unfold FU_JABRA_GNP_BUF_SIZE at h1
    omega)]
  rfl

set_option maxRecDepth 8192 in
/-- C15: the length byte of the chunk frame of
`fu_jabra_gnp_device_write_chunk`.  For every device, index and block of
`n ≤ 52` bytes, the byte at offset 4 of the frame handed to the control
transfer is `n` itself: the code adds 0x00 to the data length, no header size.
For the block AA BB CC with index 0 the frame sent is
05 08 00 00 03 0F 19 00 00 03 00 AA BB CC and zeros: offset 4 holds 0x03. -/
theorem write_chunk_length_byte_is_data_length :
    (∀ (self : FuJabraGnpDevice) (chunk_number : Nat) (data : List Nat), data.length ≤ 52 →
      ∃ w data_sent,
        fu_jabra_gnp_device_write_chunk self chunk_number data data.length = some w ∧
        SendsOnly self w.self data_sent ∧ data_sent.getD 4 0 = data.length) ∧
    (fu_jabra_gnp_device_write_chunk dev_chunk_ack 0 [0xAA, 0xBB, 0xCC] 3).map
        (fun w => (w.ret, w.self.parent_instance.log)) =
      some (true, [UsbEvent.control_transfer 3
        (frame [0x05, 0x08, 0x00, 0x00, 0x03, 0x0F, 0x19, 0x00, 0x00, 0x03, 0x00,
          0xAA, 0xBB, 0xCC]) 63 3000]) := by
  refine ⟨fun self chunk_number data h => ?_, by decide⟩
  obtain ⟨w, hw, _, hso⟩ := write_chunk_sends self chunk_number data h
  refine ⟨w, _, hw, hso, ?_⟩
  show (0x00 + data.length) % 2 ^ 8 = data.length
  omega

/-- C16: the layout of the chunk frame.  For every index `i < 65536` and every
block of `n ≤ 52` bytes, `fu_jabra_gnp_device_write_chunk` copies the block
inside the array (the call is defined), and the frame handed to the control
transfer is 63 bytes long, has 0x00 at offset 3 whatever the session sequence
number is, `i` in 16 bits little-endian at offsets 7..8, `n` in 16 bits
little-endian at offsets 9..10, the block unchanged from offset 11 on, and
zero in every later byte; the session sequence number is as before.  For a
block of more than 52 bytes the copy leaves the array. -/
theorem chunk_frame_layout (self : FuJabraGnpDevice) (chunk_number : Nat) (data : List Nat)
    (hi : chunk_number < 65536) (hn : data.length ≤ 52) :
    ∃ w data_sent,
      fu_jabra_gnp_device_write_chunk self chunk_number data data.length = some w ∧
      SendsOnly self w.self data_sent ∧
      w.self.sequence_number = self.sequence_number ∧
      data_sent.length = 63 ∧
      data_sent.getD 3 0 = 0x00 ∧
      read_uint16_le data_sent 7 = chunk_number ∧
      read_uint16_le data_sent 9 = data.length ∧
      (data_sent.drop 11).take data.length = data ∧
      (∀ k, 11 + data.length ≤ k → data_sent.getD k 0 = 0) ∧
      (∀ longer : List Nat, 52 < longer.length →
        fu_jabra_gnp_device_write_chunk self chunk_number longer longer.length = none) := by
  obtain ⟨w, hw, hseq, hso⟩ := write_chunk_sends self chunk_number data hn
  have hshape := command_frame_shape 0x00 ((0x00 + data.length) % 2 ^ 8) 0x0F 0x19
    ([(chunk_number &&& 0xff) % 2 ^ 8, ((chunk_number >>> 8) &&& 0xff) % 2 ^ 8,
      (data.length &&& 0xff) % 2 ^ 8, ((data.length >>> 8) &&& 0xff) % 2 ^ 8] ++ data)
    (by simp only [List.length_append, List.length_cons, List.length_nil]; omega)
  refine ⟨w, _, hw, hso, hseq, hshape.1, rfl, ?_, ?_, ?_, fun k hk => hshape.2 k (by
    simp only [List.length_append, List.length_cons, List.length_nil]; omega),
    fun longer hl => write_chunk_too_long self chunk_number longer hl⟩
  · show (chunk_number &&& 0xff) % 2 ^ 8 + 2 ^ 8 * (((chunk_number >>> 8) &&& 0xff) % 2 ^ 8) =
      chunk_number
    rw [and_ff, shift_and_ff]
    omega
  · show (data.length &&& 0xff) % 2 ^ 8 + 2 ^ 8 * (((data.length >>> 8) &&& 0xff) % 2 ^ 8) =
      data.length
    rw [and_ff, shift_and_ff]
    omega
  · show (data ++ List.replicate _ 0).take data.length = data
    exact List.take_left _ _

set_option maxRecDepth 8192 in
theorem chunk_frame_layout_witness :
    ∃ w data_sent,
      fu_jabra_gnp_device_write_chunk dev_chunk_ack 0x0102 [0xAA, 0xBB, 0xCC]
        [0xAA, 0xBB, 0xCC].length = some w ∧
      SendsOnly dev_chunk_ack w.self data_sent ∧
      w.self.sequence_number = dev_chunk_ack.sequence_number ∧
      data_sent.length = 63 ∧
      data_sent.getD 3 0 = 0x00 ∧
      read_uint16_le data_sent 7 = 0x0102 ∧
      read_uint16_le data_sent 9 = [0xAA, 0xBB, 0xCC].length ∧
      (data_sent.drop 11).take [0xAA, 0xBB, 0xCC].length = [0xAA, 0xBB, 0xCC] ∧
      (∀ k, 11 + [0xAA, 0xBB, 0xCC].length ≤ k → data_sent.getD k 0 = 0) ∧
      (∀ longer : List Nat, 52 < longer.length →
        fu_jabra_gnp_device_write_chunk dev_chunk_ack 0x0102 longer longer.length = none) :=
  chunk_frame_layout dev_chunk_ack 0x0102 [0xAA, 0xBB, 0xCC] (by decide) (by decide)

/-! ### A version that is not terminated inside the frame -/

theorem printf_s_none (l : List Nat) (h : 0 ∉ l) : printf_s l = none := by
  induction l with
  | nil => rfl
  | cons b rest ih =>
    have hb : b ≠ 0 := fun hb => h (by rw [hb]; exact List.mem_cons_self _ _)
    have hr : 0 ∉ rest := fun hr => h (List.mem_cons_of_mem _ hr)
    unfold printf_s
    rw [if_neg hb, ih hr]
    rfl

theorem version_length_loop_some (l : List Nat) (v vl : Nat)
    (h : version_length_loop l v = some vl) : v ≤ vl ∧ l[vl - v]? = some 0 := by
  induction l generalizing v with
  | nil => exact Option.noConfusion h
  | cons b rest ih =>
    unfold version_length_loop at h
    by_cases hb : b ≠ 0x00
    · rw [if_pos hb] at h
      obtain ⟨h1, h2⟩ := ih (v + 1) h
      refine ⟨by omega, ?_⟩
      have e : vl - v = (vl - (v + 1)) + 1 := by omega
      rw [e, List.getElem?_cons_succ]
      exact h2
    · rw [if_neg hb] at h
      have e : v = vl := Option.some.inj h
      subst e
      have hb0 : b = 0 := not_not.mp hb
      rw [Nat.sub_self, hb0]
      exact ⟨le_refl _, List.getElem?_cons_zero⟩

theorem receive_length (self : FuJabraGnpDevice) (user_data : FuJabraGnpReceiveData) :
    (fu_jabra_gnp_device_receive self user_data).user_data.rxbuf.bytes.length =
      user_data.rxbuf.bytes.length := by
  simp only [fu_jabra_gnp_device_receive, g_usb_device_interrupt_transfer]
  rcases self.parent_instance.interrupt with _ | ⟨o, rest⟩
  · rfl
  · cases o with
    | failed m => rfl
    | done f => exact transfer_into_length _ _

theorem receive_with_sequence_length (self : FuJabraGnpDevice)
    (user_data : FuJabraGnpReceiveData) :
    (fu_jabra_gnp_device_receive_with_sequence self user_data).user_data.rxbuf.bytes.length =
      user_data.rxbuf.bytes.length := by
  have h := receive_length self user_data
  unfold fu_jabra_gnp_device_receive_with_sequence
  simp only []
  split_ifs
  · exact h
  · exact h
  · exact h

theorem retry_receive_with_sequence_length (n delay : Nat) (self : FuJabraGnpDevice)
    (user_data : FuJabraGnpReceiveData) :
    (fu_device_retry_full self fu_jabra_gnp_device_receive_with_sequence n delay
      user_data).user_data.rxbuf.bytes.length = user_data.rxbuf.bytes.length := by
  induction n generalizing self user_data with
  | zero => rfl
  | succ n ih =>
    have h := receive_with_sequence_length self user_data
    rw [retry_succ]
    split_ifs
    · exact h
    · exact h
    · exact h
    · exact (ih _ _).trans h

/-- The statements after the two phases, on an array of 63 bytes with no zero
byte at the offsets 8..62: the do-while loop leaves the array, or it stops
before offset 8 and the copy of the string leaves the array. -/
theorem read_version_parse_unterminated (self : FuJabraGnpDevice)
    (receive_data : FuJabraGnpReceiveData)
    (hlen : receive_data.rxbuf.bytes.length = 63)
    (hnz : ∀ k, 8 ≤ k → k ≤ 62 → receive_data.rxbuf.bytes.getD k 0 ≠ 0) :
    fu_jabra_gnp_device_read_version_parse self receive_data = none := by
  have hnz2 : ∀ k, 8 ≤ k → receive_data.rxbuf.bytes[k]? ≠ some 0 := by
    intro k hk hz
    have hlt : k < receive_data.rxbuf.bytes.length := (List.getElem?_eq_some_iff.mp hz).1
    apply hnz k hk (by omega)
    rw [List.getD_eq_getElem?_getD, hz]
    rfl
  unfold fu_jabra_gnp_device_read_version_parse
  cases hv : version_length_loop (receive_data.rxbuf.bytes.drop 1) 1 with
  | none => rfl
  | some vl =>
    obtain ⟨h1, h2⟩ := version_length_loop_some _ _ _ hv
    rw [List.getElem?_drop] at h2
    have e : 1 + (vl - 1) = vl := by omega
    rw [e] at h2
    have hvl : vl < 8 := by
      by_contra hc
      exact hnz2 vl (by omega) h2
    have hmem : 0 ∉ receive_data.rxbuf.bytes.drop 8 := by
      intro hm
      obtain ⟨j, hj⟩ := List.getElem?_of_mem hm
      rw [List.getElem?_drop] at hj
      exact hnz2 (8 + j) (by omega) hj
    rw [Option.some_bind]
    unfold g_strdup_printf_precision_s
    rw [if_pos (guint_sub_small vl hvl), printf_s_none _ hmem]
    rfl

theorem retry_error {δ : Type} (P : GError → Prop)
    (func : FuJabraGnpDevice → δ → Ret δ)
    (hf : ∀ self user_data e, (func self user_data).error = some e → P e)
    (n delay : Nat) (self : FuJabraGnpDevice) (user_data : δ) (e : GError)
    (h : (fu_device_retry_full self func n delay user_data).error = some e) : P e := by
  induction n generalizing self user_data with
  | zero => exact Option.noConfusion h
  | succ n ih =>
    rw [retry_succ] at h
    split_ifs at h
    · exact hf _ _ _ h
    · exact hf _ _ _ h
    · exact hf _ _ _ h
    · exact ih _ _ h

theorem send_error (self : FuJabraGnpDevice) (user_data : FuJabraGnpSendData) (e : GError)
    (h : (fu_jabra_gnp_device_send self user_data).error = some e) :
    e.code = FwupdError.FWUPD_ERROR_WRITE := by
  revert h
  simp only [fu_jabra_gnp_device_send, g_usb_device_control_transfer]
  rcases self.parent_instance.control with _ | ⟨o, rest⟩
  · intro h
    rw [← Option.some.inj h]
  · cases o with
    | failed m =>
      intro h
      rw [← Option.some.inj h]
    | done u => exact fun h => Option.noConfusion h

theorem receive_error (self : FuJabraGnpDevice) (user_data : FuJabraGnpReceiveData)
    (e : GError) (h : (fu_jabra_gnp_device_receive self user_data).error = some e) :
    e.code = FwupdError.FWUPD_ERROR_READ := by
  revert h
  simp only [fu_jabra_gnp_device_receive, g_usb_device_interrupt_transfer]
  rcases self.parent_instance.interrupt with _ | ⟨o, rest⟩
  · intro h
    rw [← Option.some.inj h]
  · cases o with
    | failed m =>
      intro h
      rw [← Option.some.inj h]
    | done f => exact fun h => Option.noConfusion h

theorem receive_with_sequence_error (self : FuJabraGnpDevice)
    (user_data : FuJabraGnpReceiveData) (e : GError)
    (h : (fu_jabra_gnp_device_receive_with_sequence self user_data).error = some e) :
    e.code = FwupdError.FWUPD_ERROR_READ := by
  unfold fu_jabra_gnp_device_receive_with_sequence at h
  simp only [] at h
  split_ifs at h
  exact receive_error self user_data e h

/-- Whatever `fu_jabra_gnp_device_read_version` returns, the error it leaves
is one of a failed write or of a failed read. -/
theorem read_version_error (self : FuJabraGnpDevice) (x : Ret Unit) (e : GError)
    (h : fu_jabra_gnp_device_read_version self = some x) (he : x.error = some e) :
    e.code = FwupdError.FWUPD_ERROR_WRITE ∨ e.code = FwupdError.FWUPD_ERROR_READ := by
  unfold fu_jabra_gnp_device_read_version at h
  simp only [] at h
  split_ifs at h
  · rw [← Option.some.inj h] at he
    exact Or.inl (retry_error (fun e => e.code = FwupdError.FWUPD_ERROR_WRITE) _ send_error
      _ _ _ _ e he)
  · rw [← Option.some.inj h] at he
    exact Or.inr (retry_error (fun e => e.code = FwupdError.FWUPD_ERROR_READ) _
      receive_with_sequence_error _ _ _ _ e he)
  · unfold fu_jabra_gnp_device_read_version_parse at h
    obtain ⟨vl, _, h2⟩ := Option.bind_eq_some.mp h
    obtain ⟨v, _, h3⟩ := Option.bind_eq_some.mp h2
    rw [← Option.some.inj h3] at he
    exact Option.noConfusion he

set_option maxRecDepth 8192 in
/-- C19: evaluation of `fu_jabra_gnp_device_read_version` on a version that is
not terminated inside the frame.  For every accepted response with no zero
byte at the offsets 8..62 the call has no defined result: the do-while loop or
the copy of the string reads on behind offset 62.  No check of the length
stands in the code, and no return of the function carries an internal error:
an error it leaves is that of a failed write or of a failed read.  On a device
that answers 05 08 00 00 46 02 03 00 and 55 times 'v' the response is accepted
and the call has no defined result. -/
theorem read_version_unterminated_leaves_frame :
    (∀ (self session : FuJabraGnpDevice) (rxbuf : BytePtr),
      Answered self [0x05, 0x08, 0x00, self.sequence_number, 0x46, 0x02, 0x03] session rxbuf →
      (∀ k, 8 ≤ k → k ≤ 62 → rxbuf.bytes.getD k 0 ≠ 0) →
      fu_jabra_gnp_device_read_version self = none) ∧
    (∀ (self : FuJabraGnpDevice) (x : Ret Unit) (e : GError),
      fu_jabra_gnp_device_read_version self = some x → x.error = some e →
      e.code = FwupdError.FWUPD_ERROR_WRITE ∨ e.code = FwupdError.FWUPD_ERROR_READ) ∧
    (receive_phase (send_phase dev_unterminated_version
      [0x05, 0x08, 0x00, 0x00, 0x46, 0x02, 0x03]).self).ret = true ∧
    (receive_phase (send_phase dev_unterminated_version
      [0x05, 0x08, 0x00, 0x00, 0x46, 0x02, 0x03]).self).user_data.rxbuf.bytes =
      [0x05, 0x08, 0x00, 0x00, 0x46, 0x02, 0x03, 0x00] ++ List.replicate 55 0x76 ∧
    fu_jabra_gnp_device_read_version dev_unterminated_version = none := by
  refine ⟨fun self session rxbuf h hnz => ?_, read_version_error, by decide, by decide,
    by decide⟩
  obtain ⟨h1, h2, h3, h4⟩ := h
  subst h3 h4
  have e : fu_jabra_gnp_device_read_version self =
      if (send_phase self [0x05, 0x08, 0x00, self.sequence_number, 0x46, 0x02, 0x03]).ret
          = false then
        some ⟨(send_phase self
          [0x05, 0x08, 0x00, self.sequence_number, 0x46, 0x02, 0x03]).self, (), false,
          (send_phase self [0x05, 0x08, 0x00, self.sequence_number, 0x46, 0x02, 0x03]).error⟩
      else if (receive_phase (send_phase self
          [0x05, 0x08, 0x00, self.sequence_number, 0x46, 0x02, 0x03]).self).ret = false then
        some ⟨(receive_phase (send_phase self
          [0x05, 0x08, 0x00, self.sequence_number, 0x46, 0x02, 0x03]).self).self, (), false,
          (receive_phase (send_phase self
            [0x05, 0x08, 0x00, self.sequence_number, 0x46, 0x02, 0x03]).self).error⟩
      else
        fu_jabra_gnp_device_read_version_parse
          (receive_phase (send_phase self
            [0x05, 0x08, 0x00, self.sequence_number, 0x46, 0x02, 0x03]).self).self
          (receive_phase (send_phase self
            [0x05, 0x08, 0x00, self.sequence_number, 0x46, 0x02, 0x03]).self).user_data := rfl
  rw [e, if_neg (by rw [h1]; decide), if_neg (by rw [h2]; decide)]
  refine read_version_parse_unterminated _ _ ?_ hnz
  exact (retry_receive_with_sequence_length _ _ _ _).trans
    (array_init_length ArrayObject.rxbuf FU_JABRA_GNP_BUF_SIZE [0x00])

/-! ### Probe -/

theorem get_interface_for_class_loop_none (intf_class : Nat) (intfs : List GUsbInterface)
    (h : ∀ intf ∈ intfs, g_usb_interface_get_class intf ≠ intf_class) :
    get_interface_for_class_loop intf_class intfs = 0xff := by
  induction intfs with
  | nil => rfl
  | cons intf rest ih =>
    unfold get_interface_for_class_loop
    rw [if_neg (h intf (List.mem_cons_self _ _))]
    exact ih fun i hi => h i (List.mem_cons_of_mem _ hi)

theorem get_interface_for_class_loop_first (intf_class : Nat) (intfs : List GUsbInterface)
    (intf : GUsbInterface)
    (h : intfs.find? (fun i => decide (g_usb_interface_get_class i = intf_class)) = some intf) :
    get_interface_for_class_loop intf_class intfs = g_usb_interface_get_number intf := by
  induction intfs with
  | nil => exact Option.noConfusion h
  | cons i rest ih =>
    unfold get_interface_for_class_loop
    by_cases hc : g_usb_interface_get_class i = intf_class
    · rw [if_pos hc]
      rw [List.find?_cons_of_pos _ (by simpa using hc)] at h
      rw [Option.some.inj h]
    · rw [if_neg hc]
      rw [List.find?_cons_of_neg _ (by simpa using hc)] at h
      exact ih h

/-- C20: evaluation of `fu_jabra_gnp_device_probe`.  When the list of
interfaces is obtained and holds no interface of the HID class, the helper
returns 0xff and leaves `error_local` at `NULL`, and probe reads
`error_local->message`: the call has no defined result, for every device and
every such list, e.g. for two audio interfaces.  When obtaining the list
fails, probe fails with the not-supported error that carries the message of
the lower error.  When the list holds an interface of the HID class and the
first such has a number other than 0xff, probe succeeds and stores that
number. -/
theorem probe_without_hid_reads_absent_error :
    (∀ (self : FuJabraGnpDevice) (intfs : List GUsbInterface),
      (∀ intf ∈ intfs, g_usb_interface_get_class intf ≠ G_USB_DEVICE_CLASS_HID) →
      fu_jabra_gnp_device_probe self (Transfer.done intfs) = none) ∧
    (∀ (self : FuJabraGnpDevice) (message : String),
      fu_jabra_gnp_device_probe self (Transfer.failed message) =
        some ⟨{ self with iface_hid := 0xff }, (), false,
          some ⟨FwupdError.FWUPD_ERROR_NOT_SUPPORTED,
            Message.cannot_find_HID_interface message⟩⟩) ∧
    (∀ (self : FuJabraGnpDevice) (intfs : List GUsbInterface) (intf : GUsbInterface),
      intfs.find? (fun i => decide (g_usb_interface_get_class i = G_USB_DEVICE_CLASS_HID)) =
        some intf →
      g_usb_interface_get_number intf < 0xff →
      fu_jabra_gnp_device_probe self (Transfer.done intfs) =
        some ⟨{ self with iface_hid := g_usb_interface_get_number intf }, (), true, none⟩) ∧
    fu_jabra_gnp_device_probe dev_unprobed (Transfer.done [⟨0x01, 0⟩, ⟨0x01, 1⟩]) = none ∧
    fu_jabra_gnp_device_probe dev_unprobed
        (Transfer.done [⟨0x01, 0⟩, ⟨0x03, 3⟩, ⟨0x03, 4⟩]) =
      some ⟨{ dev_unprobed with iface_hid := 3 }, (), true, none⟩ := by
  refine ⟨fun self intfs h => ?_, fun self message => rfl, fun self intfs intf h hn => ?_,
    by decide, by decide⟩
  · unfold fu_jabra_gnp_device_probe _g_usb_device_get_interface_for_class
    simp only []
    rw [get_interface_for_class_loop_none _ _ h]
    rfl
  · unfold fu_jabra_gnp_device_probe _g_usb_device_get_interface_for_class
    simp only []
    rw [get_interface_for_class_loop_first _ _ _ h]
    have hm : g_usb_interface_get_number intf % 2 ^ 8 = g_usb_interface_get_number intf :=
      Nat.mod_eq_of_lt (by omega)
    rw [hm, if_neg (by omega)]

/-! ### A frame that the sequence check rejects -/

/-- The retry executor around the sequence-checked receive: failed reads that
leave an attempt, then a read with a frame that is rejected.  The rejection
carries no error and ends the executor: the reads are those that failed and
the one of the rejected frame, and the rest of the script is not read. -/
theorem retry_receive_mismatch_after_failures (fails : List String) (n : Nat)
    (self : FuJabraGnpDevice) (object : ArrayObject) (bytes : List Nat) (timeout : Nat)
    (r : List Nat) (rest : List (Transfer (List Nat))) (delay : Nat) (hn : fails.length < n)
    (hrx : self.parent_instance.interrupt = fails.map Transfer.failed ++ Transfer.done r :: rest)
    (hr : r.length = FU_JABRA_GNP_BUF_SIZE) (hbuf : bytes.length = FU_JABRA_GNP_BUF_SIZE)
    (hm : self.sequence_number ≠ r.getD 3 0) :
    fu_device_retry_full self fu_jabra_gnp_device_receive_with_sequence n delay
      ⟨⟨object, bytes⟩, timeout⟩ =
      ⟨after_reads self rest timeout (fails.length + 1), ⟨⟨object, r⟩, timeout⟩, false, none⟩ := by
  induction fails generalizing self n with
  | nil =>
    obtain ⟨n, rfl⟩ : ∃ n', n = n' + 1 := ⟨n - 1, by simp at hn; omega⟩
    exact retry_no_error self _ n delay _ _
      (receive_with_sequence_mismatch self object bytes timeout r rest hrx hr hbuf hm) rfl rfl
  | cons e fs ih =>
    obtain ⟨n, rfl⟩ : ∃ n', n = n' + 2 := ⟨n - 2, by simp at hn; omega⟩
    rw [retry_first_failed self _ n delay _ _
      (receive_with_sequence_failed self _ e (fs.map Transfer.failed ++ Transfer.done r :: rest)
        (by rw [hrx]; simp)) rfl (fun h => Option.noConfusion h)]
    have h2 := ih (n + 1) (after_read self (fs.map Transfer.failed ++ Transfer.done r :: rest)
      timeout) (by simp at hn ⊢; omega) rfl hm
    rw [after_reads_after_read] at h2
    exact h2

/-- C9: in every sequence-checked command (read_version, write_partition,
start, write_crc, write_version), after a send phase that succeeded, a frame
of 63 bytes that is read (on the first attempt, or after reads that failed)
and whose sequence byte differs from the expected sequence number ends the
command: it returns failure, the reads issued are those that failed and the
one of the rejected frame, no further read is made (the frames that follow
stay with the device), and the sequence number is as before.  The failure
carries no error. -/
theorem sequence_mismatch_ends_command (c : Command) (self : FuJabraGnpDevice)
    (fails : List String) (r : List Nat) (rest : List (Transfer (List Nat)))
    (hs : (send_phase self (c.txbuf self.sequence_number)).ret = true)
    (hrx : (send_phase self (c.txbuf self.sequence_number)).self.parent_instance.interrupt =
      fails.map Transfer.failed ++ Transfer.done r :: rest)
    (hf : fails.length < 3)
    (hr : r.length = FU_JABRA_GNP_BUF_SIZE)
    (hm : self.sequence_number ≠ r.getD 3 0) :
    c.run self = some
      ⟨after_reads (send_phase self (c.txbuf self.sequence_number)).self rest
        FU_JABRA_GNP_STANDARD_RECEIVE_TIMEOUT (fails.length + 1), (), false, none⟩ ∧
    (after_reads (send_phase self (c.txbuf self.sequence_number)).self rest
      FU_JABRA_GNP_STANDARD_RECEIVE_TIMEOUT (fails.length + 1)).parent_instance.interrupt =
      rest ∧
    (after_reads (send_phase self (c.txbuf self.sequence_number)).self rest
      FU_JABRA_GNP_STANDARD_RECEIVE_TIMEOUT (fails.length + 1)).parent_instance.log =
      (send_phase self (c.txbuf self.sequence_number)).self.parent_instance.log ++
        List.replicate (fails.length + 1) (UsbEvent.interrupt_transfer 0x81 63 1000) ∧
    (after_reads (send_phase self (c.txbuf self.sequence_number)).self rest
      FU_JABRA_GNP_STANDARD_RECEIVE_TIMEOUT (fails.length + 1)).sequence_number =
      self.sequence_number := by
  have hseq : (send_phase self (c.txbuf self.sequence_number)).self.sequence_number =
      self.sequence_number :=
    (retry_send_log FU_JABRA_GNP_MAX_RETRIES FU_JABRA_GNP_RETRY_DELAY self
      ⟨array_init ArrayObject.txbuf FU_JABRA_GNP_BUF_SIZE (c.txbuf self.sequence_number),
        FU_JABRA_GNP_STANDARD_SEND_TIMEOUT⟩).1
  have hrecv : receive_phase (send_phase self (c.txbuf self.sequence_number)).self =
      ⟨after_reads (send_phase self (c.txbuf self.sequence_number)).self rest
        FU_JABRA_GNP_STANDARD_RECEIVE_TIMEOUT (fails.length + 1),
        ⟨⟨ArrayObject.rxbuf, r⟩, FU_JABRA_GNP_STANDARD_RECEIVE_TIMEOUT⟩, false, none⟩ :=
    retry_receive_mismatch_after_failures fails FU_JABRA_GNP_MAX_RETRIES
      (send_phase self (c.txbuf self.sequence_number)).self ArrayObject.rxbuf _
      FU_JABRA_GNP_STANDARD_RECEIVE_TIMEOUT r rest FU_JABRA_GNP_RETRY_DELAY hf hrx hr
      (array_init_length ArrayObject.rxbuf FU_JABRA_GNP_BUF_SIZE [0x00])
      (by rw [hseq]; exact hm)
  refine ⟨?_, rfl, rfl, hseq⟩
  exact (command_run_of_phases c self _ _ rfl hs hrecv).trans (if_pos rfl)

set_option maxRecDepth 8192 in
theorem sequence_mismatch_ends_command_witness :
    ((Command.write_partition 1).run dev_mismatch_then_match = some
      ⟨after_reads (send_phase dev_mismatch_then_match
          ((Command.write_partition 1).txbuf dev_mismatch_then_match.sequence_number)).self
        [Transfer.done (frame [0x05, 0x08, 0x00, 0x00, 0x00, 0xFF])]
        FU_JABRA_GNP_STANDARD_RECEIVE_TIMEOUT (([] : List String).length + 1), (), false,
        none⟩) ∧
    ((Command.read_version).run dev_failure_then_mismatch = some
      ⟨after_reads (send_phase dev_failure_then_mismatch
          ((Command.read_version).txbuf dev_failure_then_mismatch.sequence_number)).self
        [Transfer.done (frame [0x05, 0x08, 0x00, 0x00, 0x00, 0xFF])]
        FU_JABRA_GNP_STANDARD_RECEIVE_TIMEOUT (["timeout"].length + 1), (), false, none⟩) :=
  ⟨(sequence_mismatch_ends_command (Command.write_partition 1) dev_mismatch_then_match []
      (frame [0x05, 0x08, 0x00, 0x07, 0x00, 0xFF])
      [Transfer.done (frame [0x05, 0x08, 0x00, 0x00, 0x00, 0xFF])]
      (by decide) (by decide) (by decide) (by decide) (by decide)).1,
    (sequence_mismatch_ends_command Command.read_version dev_failure_then_mismatch ["timeout"]
      (frame [0x05, 0x08, 0x00, 0x07, 0x00, 0xFF])
      [Transfer.done (frame [0x05, 0x08, 0x00, 0x00, 0x00, 0xFF])]
      (by decide) (by decide) (by decide) (by decide) (by decide)).1⟩

end FuJabraGnp

namespace FuLogitechScribe

open FuJabraGnp (Transfer transfer_into FuChunk fu_chunk_get_data fu_chunk_get_data_sz
  fu_chunk_array_new_from_bytes)

/-! ## Lemmas on the UPD commands -/

theorem upd_send_facts (self : FuLogitechScribeDevice) (buf : List Nat) :
    (fu_logitech_scribe_device_send self buf BULK_INTERFACE_UPD).self.update_ep =
      self.update_ep ∧
    (fu_logitech_scribe_device_send self buf BULK_INTERFACE_UPD).self.parent_instance.log =
      self.parent_instance.log ++
        [UsbEvent.bulk_transfer (self.update_ep.getD EP_OUT 0) (buf.take buf.length)
          buf.length BULK_TRANSFER_TIMEOUT] := by
  unfold fu_logitech_scribe_device_send g_usb_device_bulk_transfer
  rw [if_pos rfl]
  simp only []
  rcases self.parent_instance.bulk with _ | ⟨o, rest⟩
  · exact ⟨rfl, rfl⟩
  · cases o with
    | failed m => exact ⟨rfl, rfl⟩
    | done value => exact ⟨rfl, rfl⟩

theorem upd_recv_facts (self : FuLogitechScribeDevice) (buf : List Nat) (timeout : Nat) :
    (fu_logitech_scribe_device_recv self buf BULK_INTERFACE_UPD timeout).self.update_ep =
      self.update_ep ∧
    (fu_logitech_scribe_device_recv self buf BULK_INTERFACE_UPD
        timeout).self.parent_instance.log =
      self.parent_instance.log ++
        [UsbEvent.bulk_transfer (self.update_ep.getD EP_IN 0) (buf.take buf.length)
          buf.length timeout] := by
  unfold fu_logitech_scribe_device_recv g_usb_device_bulk_transfer
  rw [if_pos rfl]
  simp only []
  rcases self.parent_instance.bulk with _ | ⟨o, rest⟩
  · exact ⟨rfl, rfl⟩
  · cases o with
    | failed m => exact ⟨rfl, rfl⟩
    | done value => exact ⟨rfl, rfl⟩

/-- The byte array `buf_pkt` that `fu_logitech_scribe_device_send_upd_cmd`
builds is the packet of the wire format. -/
theorem upd_buf_pkt (cmd : Nat) (buf : Option (List Nat)) :
    (match buf with
      | some b =>
        g_byte_array_append
          (fu_byte_array_append_uint32
            (fu_byte_array_append_uint32 [] cmd FuEndianType.G_LITTLE_ENDIAN)
            (match buf with
              | some buf => buf.length
              | none => 0) FuEndianType.G_LITTLE_ENDIAN) b b.length
      | none =>
        fu_byte_array_append_uint32
          (fu_byte_array_append_uint32 [] cmd FuEndianType.G_LITTLE_ENDIAN)
          (match buf with
            | some buf => buf.length
            | none => 0) FuEndianType.G_LITTLE_ENDIAN) =
      upd_packet cmd (payload_of buf) := by
  cases buf with
  | none => rfl
  | some b =>
    show ([] ++ _ ++ _) ++ b.take b.length = _
    rw [List.take_length]
    rfl

theorem send_upd_cmd_check_self (self : FuLogitechScribeDevice) (cmd : Nat)
    (buf_ack : List Nat) :
    (fu_logitech_scribe_device_send_upd_cmd_check self cmd buf_ack).self = self := by
  unfold fu_logitech_scribe_device_send_upd_cmd_check
  split
  · rfl
  · split_ifs
    · rfl
    · split
      · rfl
      · split_ifs
        · rfl
        · rfl

/-- The function `fu_logitech_scribe_device_send_upd_cmd` in terms of the
packet, the send, the receive and the checks of the answer. -/
theorem send_upd_cmd_eq (self : FuLogitechScribeDevice) (cmd : Nat)
    (buf : Option (List Nat)) :
    fu_logitech_scribe_device_send_upd_cmd self cmd buf =
      if (fu_logitech_scribe_device_send self (upd_packet cmd (payload_of buf))
          BULK_INTERFACE_UPD).ret = false then
        ⟨(fu_logitech_scribe_device_send self (upd_packet cmd (payload_of buf))
            BULK_INTERFACE_UPD).self, (), false,
          (fu_logitech_scribe_device_send self (upd_packet cmd (payload_of buf))
            BULK_INTERFACE_UPD).error⟩
      else if (fu_logitech_scribe_device_recv
          (fu_logitech_scribe_device_send self (upd_packet cmd (payload_of buf))
            BULK_INTERFACE_UPD).self
          (fu_byte_array_set_size [] MAX_DATA_SIZE 0x00) BULK_INTERFACE_UPD
          (if CMD_END_TRANSFER = cmd then HASH_TIMEOUT else BULK_TRANSFER_TIMEOUT)).ret =
            false then
        ⟨(fu_logitech_scribe_device_recv
            (fu_logitech_scribe_device_send self (upd_packet cmd (payload_of buf))
              BULK_INTERFACE_UPD).self
            (fu_byte_array_set_size [] MAX_DATA_SIZE 0x00) BULK_INTERFACE_UPD
            (if CMD_END_TRANSFER = cmd then HASH_TIMEOUT else BULK_TRANSFER_TIMEOUT)).self,
          (), false,
          (fu_logitech_scribe_device_recv
            (fu_logitech_scribe_device_send self (upd_packet cmd (payload_of buf))
              BULK_INTERFACE_UPD).self
            (fu_byte_array_set_size [] MAX_DATA_SIZE 0x00) BULK_INTERFACE_UPD
            (if CMD_END_TRANSFER = cmd then HASH_TIMEOUT else BULK_TRANSFER_TIMEOUT)).error⟩
      else
        fu_logitech_scribe_device_send_upd_cmd_check
          (fu_logitech_scribe_device_recv
            (fu_logitech_scribe_device_send self (upd_packet cmd (payload_of buf))
              BULK_INTERFACE_UPD).self
            (fu_byte_array_set_size [] MAX_DATA_SIZE 0x00) BULK_INTERFACE_UPD
            (if CMD_END_TRANSFER = cmd then HASH_TIMEOUT else BULK_TRANSFER_TIMEOUT)).self
          cmd
          (fu_logitech_scribe_device_recv
            (fu_logitech_scribe_device_send self (upd_packet cmd (payload_of buf))
              BULK_INTERFACE_UPD).self
            (fu_byte_array_set_size [] MAX_DATA_SIZE 0x00) BULK_INTERFACE_UPD
            (if CMD_END_TRANSFER = cmd then HASH_TIMEOUT else BULK_TRANSFER_TIMEOUT)).buf := by
  unfold fu_logitech_scribe_device_send_upd_cmd
  simp only []
  rw [upd_buf_pkt]

/-- The device that `fu_logitech_scribe_device_send_upd_cmd` leaves is the one
after the send when the send fails, and the one after the receive otherwise. -/
theorem send_upd_cmd_self (self : FuLogitechScribeDevice) (cmd : Nat)
    (buf : Option (List Nat)) :
    (fu_logitech_scribe_device_send_upd_cmd self cmd buf).self =
      if (fu_logitech_scribe_device_send self (upd_packet cmd (payload_of buf))
          BULK_INTERFACE_UPD).ret = false then
        (fu_logitech_scribe_device_send self (upd_packet cmd (payload_of buf))
          BULK_INTERFACE_UPD).self
      else
        (fu_logitech_scribe_device_recv
          (fu_logitech_scribe_device_send self (upd_packet cmd (payload_of buf))
            BULK_INTERFACE_UPD).self
          (fu_byte_array_set_size [] MAX_DATA_SIZE 0x00) BULK_INTERFACE_UPD
          (if CMD_END_TRANSFER = cmd then HASH_TIMEOUT else BULK_TRANSFER_TIMEOUT)).self := by
  unfold fu_logitech_scribe_device_send_upd_cmd
  simp only []
  rw [upd_buf_pkt]
  split_ifs <;> first
    | rfl
    | exact send_upd_cmd_check_self _ _ _

theorem set_size_length (n data : Nat) : (fu_byte_array_set_size [] n data).length = n := by
  unfold fu_byte_array_set_size
  simp

theorem uint32_le_getD (v i : Nat) (rest : List Nat) (hi : i < 4) :
    (uint32_le v ++ rest).getD i 0 = v / 2 ^ (8 * i) % 256 := by
  interval_cases i
  · show v % 256 = _
    norm_num
  · show v / 256 % 256 = _
    norm_num
  · show v / 65536 % 256 = _
    norm_num
  · show v / 16777216 % 256 = _
    norm_num

theorem uint32_le_value (v : Nat) (hv : v < 2 ^ 32) :
    v % 256 + 2 ^ 8 * (v / 256 % 256) + 2 ^ 16 * (v / 65536 % 256) +
      2 ^ 24 * (v / 16777216 % 256) = v := by
  omega

theorem upd_packet_length (cmd : Nat) (payload : List Nat) :
    (upd_packet cmd payload).length = 8 + payload.length := by
  unfold upd_packet uint32_le
  simp only [List.length_append, List.length_cons, List.length_nil]

/-- The transfers of one command: the packet goes to the first endpoint, and
at most one read of `MAX_DATA_SIZE` bytes from the second follows; a command
that returns success was followed by that read. -/
theorem send_upd_cmd_log (self : FuLogitechScribeDevice) (cmd : Nat)
    (buf : Option (List Nat)) :
    (fu_logitech_scribe_device_send_upd_cmd self cmd buf).self.update_ep = self.update_ep ∧
    ∃ tail,
      (fu_logitech_scribe_device_send_upd_cmd self cmd buf).self.parent_instance.log =
        self.parent_instance.log ++
          UsbEvent.bulk_transfer (self.update_ep.getD EP_OUT 0)
            (upd_packet cmd (payload_of buf)) (upd_packet cmd (payload_of buf)).length
            BULK_TRANSFER_TIMEOUT :: tail ∧
      (tail = [] ∨
        tail = [UsbEvent.bulk_transfer (self.update_ep.getD EP_IN 0)
          (List.replicate MAX_DATA_SIZE 0) MAX_DATA_SIZE
          (if CMD_END_TRANSFER = cmd then HASH_TIMEOUT else BULK_TRANSFER_TIMEOUT)]) := by
  obtain ⟨hep, hlog⟩ := upd_send_facts self (upd_packet cmd (payload_of buf))
  obtain ⟨hep2, hlog2⟩ := upd_recv_facts
    (fu_logitech_scribe_device_send self (upd_packet cmd (payload_of buf))
      BULK_INTERFACE_UPD).self
    (fu_byte_array_set_size [] MAX_DATA_SIZE 0x00)
    (if CMD_END_TRANSFER = cmd then HASH_TIMEOUT else BULK_TRANSFER_TIMEOUT)
  rw [List.take_length] at hlog hlog2
  rw [set_size_length, hep, hlog] at hlog2
  have hz : fu_byte_array_set_size [] MAX_DATA_SIZE 0x00 = List.replicate MAX_DATA_SIZE 0 := by
    unfold fu_byte_array_set_size
    simp
  rw [hz] at hlog2
  rw [send_upd_cmd_self]
  by_cases h : (fu_logitech_scribe_device_send self (upd_packet cmd (payload_of buf))
      BULK_INTERFACE_UPD).ret = false
  · rw [if_pos h]
    exact ⟨hep, [], hlog, Or.inl rfl⟩
  · rw [if_neg h]
    refine ⟨hep2.trans hep, _, ?_, Or.inr rfl⟩
    rw [hz, hlog2, List.append_assoc]
    rfl

/-- C17: the framing of the packet of
`fu_logitech_scribe_device_send_upd_cmd`.  For every 32-bit command code `cmd`
and every payload (`NULL` counts as the empty payload) of fewer than `2^32`
bytes, the packet handed to the bulk transfer has length 8 + |payload|, its
bytes 0..3 are `cmd` least significant byte first, its bytes 4..7 are
|payload| least significant byte first, and the payload follows unchanged from
byte 8 on; reading the two header fields as 32-bit little-endian values gives
back `cmd` and |payload|.  No other packet is sent: at most one read
follows. -/
theorem upd_packet_framing (self : FuLogitechScribeDevice) (cmd : Nat)
    (buf : Option (List Nat)) (hc : cmd < 2 ^ 32) (hp : (payload_of buf).length < 2 ^ 32) :
    ∃ packet tail,
      (fu_logitech_scribe_device_send_upd_cmd self cmd buf).self.parent_instance.log =
        self.parent_instance.log ++
          UsbEvent.bulk_transfer (self.update_ep.getD EP_OUT 0) packet packet.length
            BULK_TRANSFER_TIMEOUT :: tail ∧
      tail.length ≤ 1 ∧
      (∀ e ∈ tail, ∃ data timeout,
        e = UsbEvent.bulk_transfer (self.update_ep.getD EP_IN 0) data MAX_DATA_SIZE timeout) ∧
      packet.length = 8 + (payload_of buf).length ∧
      (∀ i, i < 4 → packet.getD i 0 = cmd / 2 ^ (8 * i) % 256) ∧
      (∀ i, i < 4 → packet.getD (4 + i) 0 = (payload_of buf).length / 2 ^ (8 * i) % 256) ∧
      packet.drop 8 = payload_of buf ∧
      fu_memread_uint32_safe packet packet.length COMMAND_OFFSET
        FuEndianType.G_LITTLE_ENDIAN = some cmd ∧
      fu_memread_uint32_safe packet packet.length LENGTH_OFFSET
        FuEndianType.G_LITTLE_ENDIAN = some (payload_of buf).length := by
  obtain ⟨_, tail, hlog, htail⟩ := send_upd_cmd_log self cmd buf
  have hlen := upd_packet_length cmd (payload_of buf)
  have h4 : ∀ i, i < 4 → (upd_packet cmd (payload_of buf)).getD (4 + i) 0 =
      (payload_of buf).length / 2 ^ (8 * i) % 256 := by
    intro i hi
    interval_cases i
    · show (payload_of buf).length % 256 = _
      norm_num
    · show (payload_of buf).length / 256 % 256 = _
      norm_num
    · show (payload_of buf).length / 65536 % 256 = _
      norm_num
    · show (payload_of buf).length / 16777216 % 256 = _
      norm_num
  refine ⟨upd_packet cmd (payload_of buf), tail, hlog, ?_, ?_, hlen, ?_, h4, rfl, ?_, ?_⟩
  · rcases htail with h | h
    · rw [h]
      exact Nat.zero_le 1
    · rw [h]
      exact le_refl 1
  · intro e he
    rcases htail with h | h
    · rw [h] at he
      cases he
    · rw [h] at he
      exact ⟨_, _, List.mem_singleton.mp he⟩
  · intro i hi
    unfold upd_packet
    rw [List.append_assoc]
    exact uint32_le_getD cmd i _ hi
  · unfold fu_memread_uint32_safe COMMAND_OFFSET
    rw [if_pos ⟨by omega, le_refl _⟩]
    show some (cmd % 256 + 2 ^ 8 * (cmd / 256 % 256) + 2 ^ 16 * (cmd / 65536 % 256) +
      2 ^ 24 * (cmd / 16777216 % 256)) = some cmd
    rw [uint32_le_value cmd hc]
  · unfold fu_memread_uint32_safe LENGTH_OFFSET
    rw [if_pos ⟨by omega, le_refl _⟩]
    show some ((payload_of buf).length % 256 + 2 ^ 8 * ((payload_of buf).length / 256 % 256) +
      2 ^ 16 * ((payload_of buf).length / 65536 % 256) +
      2 ^ 24 * ((payload_of buf).length / 16777216 % 256)) = some (payload_of buf).length
    rw [uint32_le_value _ hp]

theorem upd_packet_framing_witness :
    ∃ packet tail,
      (fu_logitech_scribe_device_send_upd_cmd dev_ack_start CMD_START_TRANSFER
          (some [3, 0, 0, 0, 0, 0, 0, 0])).self.parent_instance.log =
        dev_ack_start.parent_instance.log ++
          UsbEvent.bulk_transfer (dev_ack_start.update_ep.getD EP_OUT 0) packet packet.length
            BULK_TRANSFER_TIMEOUT :: tail ∧
      tail.length ≤ 1 ∧
      (∀ e ∈ tail, ∃ data timeout,
        e = UsbEvent.bulk_transfer (dev_ack_start.update_ep.getD EP_IN 0) data MAX_DATA_SIZE
          timeout) ∧
      packet.length = 8 + (payload_of (some [3, 0, 0, 0, 0, 0, 0, 0])).length ∧
      (∀ i, i < 4 → packet.getD i 0 = CMD_START_TRANSFER / 2 ^ (8 * i) % 256) ∧
      (∀ i, i < 4 → packet.getD (4 + i) 0 =
        (payload_of (some [3, 0, 0, 0, 0, 0, 0, 0])).length / 2 ^ (8 * i) % 256) ∧
      packet.drop 8 = payload_of (some [3, 0, 0, 0, 0, 0, 0, 0]) ∧
      fu_memread_uint32_safe packet packet.length COMMAND_OFFSET
        FuEndianType.G_LITTLE_ENDIAN = some CMD_START_TRANSFER ∧
      fu_memread_uint32_safe packet packet.length LENGTH_OFFSET
        FuEndianType.G_LITTLE_ENDIAN = some (payload_of (some [3, 0, 0, 0, 0, 0, 0, 0])).length :=
  upd_packet_framing dev_ack_start CMD_START_TRANSFER (some [3, 0, 0, 0, 0, 0, 0, 0])
    (by decide) (by decide)

/-! ### A command that is acknowledged -/

theorem upd_send_done (self : FuLogitechScribeDevice) (buf value : List Nat)
    (rest : List (Transfer (List Nat)))
    (h : self.parent_instance.bulk = Transfer.done value :: rest) :
    fu_logitech_scribe_device_send self buf BULK_INTERFACE_UPD =
      ⟨{ self with parent_instance :=
          ⟨rest, self.parent_instance.log ++
            [UsbEvent.bulk_transfer (self.update_ep.getD EP_OUT 0) (buf.take buf.length)
              buf.length BULK_TRANSFER_TIMEOUT]⟩ },
        transfer_into (value.take buf.length) buf, true, none⟩ := by
  unfold fu_logitech_scribe_device_send g_usb_device_bulk_transfer
  rw [if_pos rfl]
  simp only []
  rw [h]

theorem upd_recv_done (self : FuLogitechScribeDevice) (buf value : List Nat) (timeout : Nat)
    (rest : List (Transfer (List Nat)))
    (h : self.parent_instance.bulk = Transfer.done value :: rest) :
    fu_logitech_scribe_device_recv self buf BULK_INTERFACE_UPD timeout =
      ⟨{ self with parent_instance :=
          ⟨rest, self.parent_instance.log ++
            [UsbEvent.bulk_transfer (self.update_ep.getD EP_IN 0) (buf.take buf.length)
              buf.length timeout]⟩ },
        transfer_into (value.take buf.length) buf, true, none⟩ := by
  unfold fu_logitech_scribe_device_recv g_usb_device_bulk_transfer
  rw [if_pos rfl]
  simp only []
  rw [h]

/-- The first bytes of a buffer after a transfer are those the device handed
over. -/
theorem transfer_into_getD (value buf : List Nat) (i : Nat) (hv : i < value.length)
    (hb : i < buf.length) :
    (transfer_into (value.take buf.length) buf).getD i 0 = value.getD i 0 := by
  unfold transfer_into
  have h1 : i < ((value.take buf.length).take buf.length).length := by
    simp only [List.length_take]
    omega
  rw [List.getD_eq_getElem?_getD, List.getD_eq_getElem?_getD,
    List.getElem?_append_left h1, List.getElem?_take_of_lt hb, List.getElem?_take_of_lt hb]

/-- Reading a 32-bit value inside the bytes the device handed over. -/
theorem memread_received (value buf : List Nat) (offset : Nat)
    (hv : offset + 4 ≤ value.length) (hb : offset + 4 ≤ buf.length) :
    fu_memread_uint32_safe (transfer_into (value.take buf.length) buf)
        (transfer_into (value.take buf.length) buf).length offset
        FuEndianType.G_LITTLE_ENDIAN =
      some (value.getD offset 0 + 2 ^ 8 * value.getD (offset + 1) 0 +
        2 ^ 16 * value.getD (offset + 2) 0 + 2 ^ 24 * value.getD (offset + 3) 0) := by
  unfold fu_memread_uint32_safe
  rw [if_pos ⟨by rw [FuJabraGnp.transfer_into_length]; exact hb, le_refl _⟩]
  simp only []
  rw [transfer_into_getD _ _ offset (by omega) (by omega),
    transfer_into_getD _ _ (offset + 1) (by omega) (by omega),
    transfer_into_getD _ _ (offset + 2) (by omega) (by omega),
    transfer_into_getD _ _ (offset + 3) (by omega) (by omega)]

theorem memread_received_some (value buf : List Nat) (offset v : Nat)
    (h : fu_memread_uint32_safe value value.length offset FuEndianType.G_LITTLE_ENDIAN =
      some v)
    (hb : offset + 4 ≤ buf.length) :
    fu_memread_uint32_safe (transfer_into (value.take buf.length) buf)
        (transfer_into (value.take buf.length) buf).length offset
        FuEndianType.G_LITTLE_ENDIAN = some v := by
  unfold fu_memread_uint32_safe at h
  by_cases hv : offset + 4 ≤ value.length ∧ value.length ≤ value.length
  · rw [if_pos hv] at h
    rw [memread_received value buf offset hv.1 hb]
    exact h
  · rw [if_neg hv] at h
    exact Option.noConfusion h

theorem set_size_zero (n : Nat) : fu_byte_array_set_size [] n 0x00 = List.replicate n 0 := by
  unfold fu_byte_array_set_size
  simp

/-- A command whose packet is accepted and whose answer holds the code of
`CMD_ACK` at offset 0 and the code of the command at offset 8 returns success;
the two transfers are the packet and one read. -/
theorem send_upd_cmd_acked (self : FuLogitechScribeDevice) (cmd : Nat)
    (buf : Option (List Nat)) (a ack : List Nat) (rest : List (Transfer (List Nat)))
    (hb : self.parent_instance.bulk = Transfer.done a :: Transfer.done ack :: rest)
    (h0 : fu_memread_uint32_safe ack ack.length COMMAND_OFFSET FuEndianType.G_LITTLE_ENDIAN =
      some CMD_ACK)
    (h8 : fu_memread_uint32_safe ack ack.length UPD_PACKET_HEADER_SIZE
      FuEndianType.G_LITTLE_ENDIAN = some cmd) :
    fu_logitech_scribe_device_send_upd_cmd self cmd buf =
      ⟨{ self with parent_instance :=
          ⟨rest, self.parent_instance.log ++ exchange self.update_ep cmd (payload_of buf)⟩ },
        (), true, none⟩ := by
  have hl0 : COMMAND_OFFSET + 4 ≤ (List.replicate MAX_DATA_SIZE 0).length := by
    rw [List.length_replicate]
    decide
  have hl8 : UPD_PACKET_HEADER_SIZE + 4 ≤ (List.replicate MAX_DATA_SIZE 0).length := by
    rw [List.length_replicate]
    decide
  have r0 := memread_received_some ack (List.replicate MAX_DATA_SIZE 0) _ _ h0 hl0
  have r8 := memread_received_some ack (List.replicate MAX_DATA_SIZE 0) _ _ h8 hl8
  have hcheck : ∀ (dev : FuLogitechScribeDevice),
      fu_logitech_scribe_device_send_upd_cmd_check dev cmd
        (transfer_into (ack.take (List.replicate MAX_DATA_SIZE 0).length)
          (List.replicate MAX_DATA_SIZE 0)) = ⟨dev, (), true, none⟩ := by
    intro dev
    unfold fu_logitech_scribe_device_send_upd_cmd_check
    rw [r0]
    simp only []
    rw [if_neg (fun h => h rfl), r8]
    simp only []
    rw [if_neg (fun h => h rfl)]
  rw [send_upd_cmd_eq, set_size_zero, upd_send_done self _ a (Transfer.done ack :: rest) hb]
  simp only []
  rw [if_neg (fun h => Bool.noConfusion h),
    upd_recv_done _ (List.replicate MAX_DATA_SIZE 0) ack _ rest rfl]
  simp only []
  rw [if_neg (fun h => Bool.noConfusion h), hcheck, List.take_length, List.take_length,
    List.length_replicate, upd_packet_length, List.append_assoc]
  unfold exchange
  by_cases hc : CMD_END_TRANSFER = cmd
  · rw [if_pos hc, if_pos hc.symm]
    rfl
  · rw [if_neg hc, if_neg (fun h => hc h.symm)]
    rfl

/-! ### The transfers of a firmware write -/

/-- The transfers of one command, whatever its outcome: the packet, and after
a packet that was accepted the read of the answer; both when the command
returns success. -/
theorem send_upd_cmd_exchange (self : FuLogitechScribeDevice) (cmd : Nat)
    (buf : Option (List Nat)) :
    (fu_logitech_scribe_device_send_upd_cmd self cmd buf).self.update_ep = self.update_ep ∧
    ∃ k, 1 ≤ k ∧ k ≤ 2 ∧
      (fu_logitech_scribe_device_send_upd_cmd self cmd buf).self.parent_instance.log =
        self.parent_instance.log ++ (exchange self.update_ep cmd (payload_of buf)).take k ∧
      ((fu_logitech_scribe_device_send_upd_cmd self cmd buf).ret = true → k = 2) := by
  obtain ⟨hep, hlog⟩ := upd_send_facts self (upd_packet cmd (payload_of buf))
  obtain ⟨hep2, hlog2⟩ := upd_recv_facts
    (fu_logitech_scribe_device_send self (upd_packet cmd (payload_of buf))
      BULK_INTERFACE_UPD).self
    (fu_byte_array_set_size [] MAX_DATA_SIZE 0x00)
    (if CMD_END_TRANSFER = cmd then HASH_TIMEOUT else BULK_TRANSFER_TIMEOUT)
  rw [List.take_length, upd_packet_length] at hlog
  rw [List.take_length, set_size_length, hep, hlog, set_size_zero] at hlog2
  have hex : exchange self.update_ep cmd (payload_of buf) =
      [UsbEvent.bulk_transfer (self.update_ep.getD EP_OUT 0) (upd_packet cmd (payload_of buf))
          (8 + (payload_of buf).length) BULK_TRANSFER_TIMEOUT,
        UsbEvent.bulk_transfer (self.update_ep.getD EP_IN 0) (List.replicate MAX_DATA_SIZE 0)
          MAX_DATA_SIZE
          (if CMD_END_TRANSFER = cmd then HASH_TIMEOUT else BULK_TRANSFER_TIMEOUT)] := by
    unfold exchange
    by_cases hc : CMD_END_TRANSFER = cmd
    · rw [if_pos hc, if_pos hc.symm]
    · rw [if_neg hc, if_neg (fun h => hc h.symm)]
  rw [send_upd_cmd_eq, hex]
  by_cases h : (fu_logitech_scribe_device_send self (upd_packet cmd (payload_of buf))
      BULK_INTERFACE_UPD).ret = false
  · rw [if_pos h]
    exact ⟨hep, 1, le_refl 1, by decide, hlog, fun hr => Bool.noConfusion hr⟩
  · rw [if_neg h]
    have hl2 : self.parent_instance.log ++
        [UsbEvent.bulk_transfer (self.update_ep.getD EP_OUT 0)
          (upd_packet cmd (payload_of buf)) (8 + (payload_of buf).length)
          BULK_TRANSFER_TIMEOUT] ++
        [UsbEvent.bulk_transfer (self.update_ep.getD EP_IN 0) (List.replicate MAX_DATA_SIZE 0)
          MAX_DATA_SIZE
          (if CMD_END_TRANSFER = cmd then HASH_TIMEOUT else BULK_TRANSFER_TIMEOUT)] =
        self.parent_instance.log ++ List.take 2
          [UsbEvent.bulk_transfer (self.update_ep.getD EP_OUT 0)
            (upd_packet cmd (payload_of buf)) (8 + (payload_of buf).length)
            BULK_TRANSFER_TIMEOUT,
          UsbEvent.bulk_transfer (self.update_ep.getD EP_IN 0)
            (List.replicate MAX_DATA_SIZE 0) MAX_DATA_SIZE
            (if CMD_END_TRANSFER = cmd then HASH_TIMEOUT else BULK_TRANSFER_TIMEOUT)] := by
      rw [List.append_assoc]
      rfl
    by_cases h2 : (fu_logitech_scribe_device_recv
        (fu_logitech_scribe_device_send self (upd_packet cmd (payload_of buf))
          BULK_INTERFACE_UPD).self
        (fu_byte_array_set_size [] MAX_DATA_SIZE 0x00) BULK_INTERFACE_UPD
        (if CMD_END_TRANSFER = cmd then HASH_TIMEOUT else BULK_TRANSFER_TIMEOUT)).ret = false
    · rw [if_pos h2]
      exact ⟨hep2.trans hep, 2, by decide, le_refl 2, hlog2.trans hl2, fun _ => rfl⟩
    · rw [if_neg h2, send_upd_cmd_check_self]
      exact ⟨hep2.trans hep, 2, by decide, le_refl 2, hlog2.trans hl2, fun _ => rfl⟩

/-- The transfers of a command that returns success. -/
theorem send_upd_cmd_ok_log (self : FuLogitechScribeDevice) (cmd : Nat)
    (buf : Option (List Nat))
    (h : (fu_logitech_scribe_device_send_upd_cmd self cmd buf).ret = true) :
    (fu_logitech_scribe_device_send_upd_cmd self cmd buf).self.update_ep = self.update_ep ∧
    (fu_logitech_scribe_device_send_upd_cmd self cmd buf).self.parent_instance.log =
      self.parent_instance.log ++ exchange self.update_ep cmd (payload_of buf) := by
  obtain ⟨hep, k, _, _, hlog, hk⟩ := send_upd_cmd_exchange self cmd buf
  rw [hk h] at hlog
  exact ⟨hep, hlog⟩

theorem upd_retry_succ (self : FuLogitechScribeDevice)
    (func : FuLogitechScribeDevice → Ret Unit) (n : Nat) :
    fu_device_retry self func (n + 1) =
      if (func self).ret = true then func self
      else if (func self).error = none then func self
      else if n = 0 then func self
      else fu_device_retry (func self).self func n := rfl

/-- The transfers of the retried `CMD_INIT`: packets of `CMD_INIT` and reads
of the answer, nothing else. -/
theorem retry_init_log (n : Nat) (self : FuLogitechScribeDevice) :
    (fu_device_retry self fu_logitech_scribe_device_send_upd_init_cmd_cb n).self.update_ep =
      self.update_ep ∧
    ∃ init_part,
      (fu_device_retry self fu_logitech_scribe_device_send_upd_init_cmd_cb
        n).self.parent_instance.log = self.parent_instance.log ++ init_part ∧
      ∀ e ∈ init_part, e ∈ exchange self.update_ep CMD_INIT [] := by
  induction n generalizing self with
  | zero => exact ⟨rfl, [], (List.append_nil _).symm, fun e he => by cases he⟩
  | succ n ih =>
    obtain ⟨hep, k, _, _, hlog, _⟩ := send_upd_cmd_exchange self CMD_INIT none
    have hone : (fu_logitech_scribe_device_send_upd_init_cmd_cb self).self.update_ep =
        self.update_ep ∧
      ∃ init_part,
        (fu_logitech_scribe_device_send_upd_init_cmd_cb self).self.parent_instance.log =
          self.parent_instance.log ++ init_part ∧
        ∀ e ∈ init_part, e ∈ exchange self.update_ep CMD_INIT [] :=
      ⟨hep, _, hlog, fun e he => List.mem_of_mem_take he⟩
    rw [upd_retry_succ]
    split_ifs
    · exact hone
    · exact hone
    · exact hone
    · obtain ⟨hep2, part2, hlog2, hmem2⟩ :=
        ih (fu_logitech_scribe_device_send_upd_init_cmd_cb self).self
      obtain ⟨hep1, part1, hlog1, hmem1⟩ := hone
      refine ⟨hep2.trans hep1, part1 ++ part2, ?_, ?_⟩
      · rw [hlog2, hlog1, List.append_assoc]
      · intro e he
        rcases List.mem_append.mp he with h | h
        · exact hmem1 e h
        · rw [hep1] at hmem2
          exact hmem2 e h

/-- The transfers of the loop of `fu_logitech_scribe_device_write_fw` when it
returns success: every chunk is sent as a data packet and answered, in
order. -/
theorem write_fw_loop_log (chunks : List FuChunk) (i : Nat) (self : FuLogitechScribeDevice)
    (hsz : ∀ chk ∈ chunks, (fu_chunk_get_data chk).length < 2 ^ 32)
    (h : (fu_logitech_scribe_device_write_fw_loop chunks i self).ret = true) :
    (fu_logitech_scribe_device_write_fw_loop chunks i self).self.update_ep = self.update_ep ∧
    (fu_logitech_scribe_device_write_fw_loop chunks i self).self.parent_instance.log =
      self.parent_instance.log ++ data_exchanges self.update_ep chunks := by
  induction chunks generalizing i self with
  | nil => exact ⟨rfl, (List.append_nil _).symm⟩
  | cons chk rest ih =>
    have hdata : g_byte_array_append [] (fu_chunk_get_data chk) (fu_chunk_get_data_sz chk) =
        fu_chunk_get_data chk := by
      have hlt : chk.data.length % 2 ^ 32 = chk.data.length :=
        Nat.mod_eq_of_lt (hsz chk (List.mem_cons_self _ _))
      unfold g_byte_array_append FuJabraGnp.fu_chunk_get_data_sz
      rw [hlt]
      exact List.take_length _
    unfold fu_logitech_scribe_device_write_fw_loop at h ⊢
    simp only [] at h ⊢
    rw [hdata] at h ⊢
    by_cases hr : (fu_logitech_scribe_device_send_upd_cmd self CMD_DATA_TRANSFER
        (some (fu_chunk_get_data chk))).ret = false
    · rw [if_pos hr] at h
      exact Bool.noConfusion h
    · rw [if_neg hr] at h ⊢
      obtain ⟨hep, hlog⟩ := send_upd_cmd_ok_log self CMD_DATA_TRANSFER
        (some (fu_chunk_get_data chk)) (Bool.eq_true_of_not_eq_false hr)
      obtain ⟨hep2, hlog2⟩ := ih (i + 1) _
        (fun c hc => hsz c (List.mem_cons_of_mem _ hc)) h
      refine ⟨hep2.trans hep, ?_⟩
      rw [hlog2, hlog, hep, List.append_assoc]
      rfl

theorem chunk_slices_data_le (packet_sz fuel idx : Nat) (bytes : List Nat) :
    ∀ chk ∈ FuJabraGnp.chunk_slices packet_sz fuel idx bytes,
      (fu_chunk_get_data chk).length ≤ packet_sz := by
  induction fuel generalizing idx bytes with
  | zero =>
    intro chk hc
    cases hc
  | succ fuel ih =>
    intro chk hc
    unfold FuJabraGnp.chunk_slices at hc
    by_cases hb : bytes = []
    · rw [if_pos hb] at hc
      cases hc
    · rw [if_neg hb] at hc
      rcases List.mem_cons.mp hc with h | h
      · rw [h]
        exact List.length_take_le _ _
      · exact ih _ _ chk h

theorem start_pkt_eq (n : Nat) (h : n < 2 ^ 64) :
    fu_byte_array_append_uint64 [] (n % 2 ^ 64) FuEndianType.G_LITTLE_ENDIAN = uint64_le n := by
  have hr : List.range 8 = [0, 1, 2, 3, 4, 5, 6, 7] := by decide
  unfold fu_byte_array_append_uint64 uint64_le
  simp only []
  rw [Nat.mod_eq_of_lt h, hr]
  simp only [List.map, List.nil_append]
  norm_num

theorem compute_hash_eq (md5 : List Nat → List Nat) (fw : List Nat)
    (h : (md5 fw).length = HASH_VALUE_SIZE) :
    fu_logitech_scribe_device_compute_hash md5 fw = g_base64_encode (md5 fw) := by
  unfold fu_logitech_scribe_device_compute_hash
  simp only []
  rw [List.length_replicate, List.take_of_length_le (le_of_eq h),
    FuJabraGnp.transfer_into_full _ _ (by rw [h, List.length_replicate]), List.take_length]

theorem end_pkt_eq (base64hash : List Nat) :
    g_byte_array_append
        (fu_byte_array_append_uint32
          (fu_byte_array_append_uint32
            (fu_byte_array_append_uint32 [] 1 FuEndianType.G_LITTLE_ENDIAN) 0
            FuEndianType.G_LITTLE_ENDIAN) MD5 FuEndianType.G_LITTLE_ENDIAN)
        base64hash (strlen base64hash) =
      [1, 0, 0, 0, 0, 0, 0, 0, 2, 0, 0, 0] ++ base64hash := by
  have h : fu_byte_array_append_uint32
      (fu_byte_array_append_uint32
        (fu_byte_array_append_uint32 [] 1 FuEndianType.G_LITTLE_ENDIAN) 0
        FuEndianType.G_LITTLE_ENDIAN) MD5 FuEndianType.G_LITTLE_ENDIAN =
      [1, 0, 0, 0, 0, 0, 0, 0, 2, 0, 0, 0] := by decide
  unfold g_byte_array_append strlen
  rw [h, List.take_length]

/-- The transfers of a firmware write that returns success, for an image of
fewer than `2^64` bytes and a digest of 16 bytes: packets of `CMD_INIT` and
reads of their answers; then, each sent once and answered, the packet of
`CMD_START_TRANSFER` with the size of the image in 64 bits little-endian, the
data packets of the chunks, the packet of `CMD_END_TRANSFER` with the 32-bit
little-endian values 1, 0 and 2 followed by the Base64 text of the digest, and
the packet of `CMD_UNINIT` without payload. -/
theorem write_firmware_log (device : FuLogitechScribeDevice) (fw : List Nat)
    (md5 : List Nat → List Nat) (hsize : fw.length < 2 ^ 64)
    (hmd5 : (md5 fw).length = HASH_VALUE_SIZE)
    (hok : (fu_logitech_scribe_device_write_firmware device ⟨some fw⟩ md5).ret = true) :
    ∃ init_part,
      (∀ e ∈ init_part, e ∈ exchange device.update_ep CMD_INIT []) ∧
      (fu_logitech_scribe_device_write_firmware device ⟨some fw⟩ md5).self.parent_instance.log =
        device.parent_instance.log ++ init_part ++
          exchange device.update_ep CMD_START_TRANSFER (uint64_le fw.length) ++
          data_exchanges device.update_ep (fu_chunk_array_new_from_bytes fw 0x0 0x0 PAYLOAD_SIZE) ++
          exchange device.update_ep CMD_END_TRANSFER
            ([1, 0, 0, 0, 0, 0, 0, 0, 2, 0, 0, 0] ++ g_base64_encode (md5 fw)) ++
          exchange device.update_ep CMD_UNINIT [] := by
  have hchunks : ∀ chk ∈ fu_chunk_array_new_from_bytes fw 0x0 0x0 PAYLOAD_SIZE,
      (fu_chunk_get_data chk).length < 2 ^ 32 := by
    intro chk hc
    have hle := chunk_slices_data_le PAYLOAD_SIZE fw.length 0 fw chk hc
    have hp : PAYLOAD_SIZE < 2 ^ 32 := by decide
    omega
  unfold fu_logitech_scribe_device_write_firmware fu_firmware_get_bytes at hok ⊢
  simp only [] at hok ⊢
  rw [start_pkt_eq _ hsize, compute_hash_eq _ _ hmd5, end_pkt_eq] at hok ⊢
  split_ifs at hok ⊢ with h1 h2 h3 h4 h5
  obtain ⟨hepI, init_part, hlogI, hmem⟩ := retry_init_log MAX_RETRIES device
  obtain ⟨hepS, hlogS⟩ := send_upd_cmd_ok_log _ _ _ (Bool.eq_true_of_not_eq_false h2)
  unfold fu_logitech_scribe_device_write_fw at h3 h4 h5 ⊢
  simp only [] at h3 h4 h5 ⊢
  obtain ⟨hepW, hlogW⟩ := write_fw_loop_log _ 0 _ hchunks (Bool.eq_true_of_not_eq_false h3)
  obtain ⟨hepE, hlogE⟩ := send_upd_cmd_ok_log _ _ _ (Bool.eq_true_of_not_eq_false h4)
  obtain ⟨hepU, hlogU⟩ := send_upd_cmd_ok_log _ _ _ (Bool.eq_true_of_not_eq_false h5)
  refine ⟨init_part, hmem, ?_⟩
  rw [hlogU, hepE, hlogE, hepW, hlogW, hepS, hlogS, hepI, hlogI]
  rfl

/-! ### A firmware write in which every command is acknowledged -/

theorem send_upd_cmd_acked_ret (self : FuLogitechScribeDevice) (cmd : Nat)
    (buf : Option (List Nat)) (a ack : List Nat) (rest : List (Transfer (List Nat)))
    (hb : self.parent_instance.bulk = Transfer.done a :: Transfer.done ack :: rest)
    (h0 : fu_memread_uint32_safe ack ack.length COMMAND_OFFSET FuEndianType.G_LITTLE_ENDIAN =
      some CMD_ACK)
    (h8 : fu_memread_uint32_safe ack ack.length UPD_PACKET_HEADER_SIZE
      FuEndianType.G_LITTLE_ENDIAN = some cmd) :
    (fu_logitech_scribe_device_send_upd_cmd self cmd buf).ret = true ∧
    (fu_logitech_scribe_device_send_upd_cmd self cmd buf).self.parent_instance.bulk = rest := by
  rw [send_upd_cmd_acked self cmd buf a ack rest hb h0 h8]
  exact ⟨rfl, rfl⟩

theorem retry_init_acked (self : FuLogitechScribeDevice) (a ack : List Nat)
    (rest : List (Transfer (List Nat)))
    (hb : self.parent_instance.bulk = Transfer.done a :: Transfer.done ack :: rest)
    (h0 : fu_memread_uint32_safe ack ack.length COMMAND_OFFSET FuEndianType.G_LITTLE_ENDIAN =
      some CMD_ACK)
    (h8 : fu_memread_uint32_safe ack ack.length UPD_PACKET_HEADER_SIZE
      FuEndianType.G_LITTLE_ENDIAN = some CMD_INIT) :
    (fu_device_retry self fu_logitech_scribe_device_send_upd_init_cmd_cb MAX_RETRIES).ret =
      true ∧
    (fu_device_retry self fu_logitech_scribe_device_send_upd_init_cmd_cb
      MAX_RETRIES).self.parent_instance.bulk = rest := by
  have h := send_upd_cmd_acked_ret self CMD_INIT none a ack rest hb h0 h8
  have e : fu_device_retry self fu_logitech_scribe_device_send_upd_init_cmd_cb MAX_RETRIES =
      fu_logitech_scribe_device_send_upd_cmd self CMD_INIT none := by
    show fu_device_retry self fu_logitech_scribe_device_send_upd_init_cmd_cb (4 + 1) = _
    rw [upd_retry_succ]
    exact if_pos h.1
  rw [e]
  exact h

theorem write_fw_single_acked (self : FuLogitechScribeDevice) (fw a ack : List Nat)
    (rest : List (Transfer (List Nat)))
    (hchunks : fu_chunk_array_new_from_bytes fw 0x0 0x0 PAYLOAD_SIZE = [⟨0, fw⟩])
    (hb : self.parent_instance.bulk = Transfer.done a :: Transfer.done ack :: rest)
    (h0 : fu_memread_uint32_safe ack ack.length COMMAND_OFFSET FuEndianType.G_LITTLE_ENDIAN =
      some CMD_ACK)
    (h8 : fu_memread_uint32_safe ack ack.length UPD_PACKET_HEADER_SIZE
      FuEndianType.G_LITTLE_ENDIAN = some CMD_DATA_TRANSFER) :
    (fu_logitech_scribe_device_write_fw self fw).ret = true ∧
    (fu_logitech_scribe_device_write_fw self fw).self.parent_instance.bulk = rest := by
  have h := send_upd_cmd_acked_ret self CMD_DATA_TRANSFER
    (some (g_byte_array_append [] (fu_chunk_get_data ⟨0, fw⟩) (fu_chunk_get_data_sz ⟨0, fw⟩)))
    a ack rest hb h0 h8
  have e : fu_logitech_scribe_device_write_fw self fw =
      ⟨(fu_logitech_scribe_device_send_upd_cmd self CMD_DATA_TRANSFER
        (some (g_byte_array_append [] (fu_chunk_get_data ⟨0, fw⟩)
          (fu_chunk_get_data_sz ⟨0, fw⟩)))).self, (), true, none⟩ := by
    unfold fu_logitech_scribe_device_write_fw
    simp only []
    rw [hchunks]
    unfold fu_logitech_scribe_device_write_fw_loop
    simp only []
    rw [if_neg (by rw [h.1]; exact fun hc => Bool.noConfusion hc)]
    rfl
  rw [e]
  exact ⟨rfl, h.2⟩

/-- A firmware write of an image of one chunk on a device that accepts every
packet and acknowledges every command returns success. -/
theorem write_firmware_acked (device : FuLogitechScribeDevice) (fw : List Nat)
    (md5 : List Nat → List Nat) (rest : List (Transfer (List Nat)))
    (hchunks : fu_chunk_array_new_from_bytes fw 0x0 0x0 PAYLOAD_SIZE = [⟨0, fw⟩])
    (hb : device.parent_instance.bulk =
      Transfer.done [] :: Transfer.done (ack_of CMD_INIT) ::
      Transfer.done [] :: Transfer.done (ack_of CMD_START_TRANSFER) ::
      Transfer.done [] :: Transfer.done (ack_of CMD_DATA_TRANSFER) ::
      Transfer.done [] :: Transfer.done (ack_of CMD_END_TRANSFER) ::
      Transfer.done [] :: Transfer.done (ack_of CMD_UNINIT) :: rest) :
    (fu_logitech_scribe_device_write_firmware device ⟨some fw⟩ md5).ret = true := by
  have hI := retry_init_acked device _ _ _ hb (by decide) (by decide)
  have hS := send_upd_cmd_acked_ret _ CMD_START_TRANSFER
    (some (fu_byte_array_append_uint64 [] (fw.length % 2 ^ 64) FuEndianType.G_LITTLE_ENDIAN))
    _ _ _ hI.2 (by decide) (by decide)
  have hW := write_fw_single_acked _ fw _ _ _ hchunks hS.2 (by decide) (by decide)
  have hE := send_upd_cmd_acked_ret _ CMD_END_TRANSFER
    (some (g_byte_array_append
      (fu_byte_array_append_uint32
        (fu_byte_array_append_uint32
          (fu_byte_array_append_uint32 [] 1 FuEndianType.G_LITTLE_ENDIAN) 0
          FuEndianType.G_LITTLE_ENDIAN) MD5 FuEndianType.G_LITTLE_ENDIAN)
      (fu_logitech_scribe_device_compute_hash md5 fw)
      (strlen (fu_logitech_scribe_device_compute_hash md5 fw))))
    _ _ _ hW.2 (by decide) (by decide)
  have hU := send_upd_cmd_acked_ret _ CMD_UNINIT none _ _ _ hE.2 (by decide) (by decide)
  unfold fu_logitech_scribe_device_write_firmware fu_firmware_get_bytes
  simp only []
  split_ifs with h1 h2 h3 h4 h5
  · exact Bool.noConfusion (hI.1.symm.trans h1)
  · exact Bool.noConfusion (hS.1.symm.trans h2)
  · exact Bool.noConfusion (hW.1.symm.trans h3)
  · exact Bool.noConfusion (hE.1.symm.trans h4)
  · exact Bool.noConfusion (hU.1.symm.trans h5)
  · rfl

/-- C18: the payloads built by `fu_logitech_scribe_device_write_firmware`.
For every device, every image of fewer than `2^64` bytes and a digest of 16
bytes, a firmware write that returns success has sent, after the packets of
`CMD_INIT`: the packet of `CMD_START_TRANSFER`, whose payload is the size of
the image as an 8-byte little-endian value; the data packets of the chunks;
the packet of `CMD_END_TRANSFER`, whose payload is the update flag 1, the
force flag 0 and the checksum-type tag 2 (MD5), each a 32-bit little-endian
value, followed by the Base64 text of the MD5 digest of the full image, and
nothing else (no size); and the packet of `CMD_UNINIT` without payload. -/
theorem write_firmware_payloads (device : FuLogitechScribeDevice) (fw : List Nat)
    (md5 : List Nat → List Nat) (hsize : fw.length < 2 ^ 64)
    (hmd5 : (md5 fw).length = HASH_VALUE_SIZE)
    (hok : (fu_logitech_scribe_device_write_firmware device ⟨some fw⟩ md5).ret = true) :
    ∃ init_part,
      (∀ e ∈ init_part, e ∈ exchange device.update_ep CMD_INIT []) ∧
      (fu_logitech_scribe_device_write_firmware device ⟨some fw⟩ md5).self.parent_instance.log =
        device.parent_instance.log ++ init_part ++
          exchange device.update_ep CMD_START_TRANSFER (uint64_le fw.length) ++
          data_exchanges device.update_ep (fu_chunk_array_new_from_bytes fw 0x0 0x0 PAYLOAD_SIZE) ++
          exchange device.update_ep CMD_END_TRANSFER
            ([1, 0, 0, 0, 0, 0, 0, 0, 2, 0, 0, 0] ++ g_base64_encode (md5 fw)) ++
          exchange device.update_ep CMD_UNINIT [] :=
  write_firmware_log device fw md5 hsize hmd5 hok

theorem write_firmware_payloads_witness :
    ∃ init_part,
      (∀ e ∈ init_part, e ∈ exchange dev_full_update.update_ep CMD_INIT []) ∧
      (fu_logitech_scribe_device_write_firmware dev_full_update ⟨some [0x61, 0x62, 0x63]⟩
          md5_of_abc).self.parent_instance.log =
        dev_full_update.parent_instance.log ++ init_part ++
          exchange dev_full_update.update_ep CMD_START_TRANSFER
            (uint64_le [0x61, 0x62, 0x63].length) ++
          data_exchanges dev_full_update.update_ep
            (fu_chunk_array_new_from_bytes [0x61, 0x62, 0x63] 0x0 0x0 PAYLOAD_SIZE) ++
          exchange dev_full_update.update_ep CMD_END_TRANSFER
            ([1, 0, 0, 0, 0, 0, 0, 0, 2, 0, 0, 0] ++
              g_base64_encode (md5_of_abc [0x61, 0x62, 0x63])) ++
          exchange dev_full_update.update_ep CMD_UNINIT [] :=
  write_firmware_payloads dev_full_update [0x61, 0x62, 0x63] md5_of_abc (by decide) (by decide)
    (write_firmware_acked dev_full_update [0x61, 0x62, 0x63] md5_of_abc [] (by decide) rfl)

/-- C18, as stated, fails: for the image 61 62 63 of 3 bytes on a device that
acknowledges every command, the firmware write returns success and the payload
of the packet of `CMD_END_TRANSFER` is 01 00 00 00, 00 00 00 00, 02 00 00 00
and the 24 characters "kAFQmDzST7DWlj99KOF/cg==": the 8-byte little-endian
value of the size, 03 00 00 00 00 00 00 00, is nowhere in it. -/
theorem end_transfer_payload_has_no_size :
    (fu_logitech_scribe_device_write_firmware dev_full_update ⟨some [0x61, 0x62, 0x63]⟩
      md5_of_abc).ret = true ∧
    (∃ earlier,
      (fu_logitech_scribe_device_write_firmware dev_full_update ⟨some [0x61, 0x62, 0x63]⟩
          md5_of_abc).self.parent_instance.log =
        earlier ++
          exchange [0x02, 0x83] CMD_END_TRANSFER
            ([1, 0, 0, 0, 0, 0, 0, 0, 2, 0, 0, 0] ++
              [107, 65, 70, 81, 109, 68, 122, 83, 84, 55, 68, 87, 108, 106, 57, 57, 75, 79, 70,
                47, 99, 103, 61, 61]) ++
          exchange [0x02, 0x83] CMD_UNINIT []) ∧
    uint64_le [0x61, 0x62, 0x63].length = [3, 0, 0, 0, 0, 0, 0, 0] ∧
    ¬ ([3, 0, 0, 0, 0, 0, 0, 0] <:+:
      [1, 0, 0, 0, 0, 0, 0, 0, 2, 0, 0, 0] ++
        [107, 65, 70, 81, 109, 68, 122, 83, 84, 55, 68, 87, 108, 106, 57, 57, 75, 79, 70,
          47, 99, 103, 61, 61]) := by
  have hok := write_firmware_acked dev_full_update [0x61, 0x62, 0x63] md5_of_abc []
    (by decide) rfl
  obtain ⟨init_part, _, hlog⟩ := write_firmware_log dev_full_update [0x61, 0x62, 0x63]
    md5_of_abc (by decide) (by decide) hok
  have hb64 : g_base64_encode (md5_of_abc [0x61, 0x62, 0x63]) =
      [107, 65, 70, 81, 109, 68, 122, 83, 84, 55, 68, 87, 108, 106, 57, 57, 75, 79, 70, 47,
        99, 103, 61, 61] := by decide
  refine ⟨hok,
    ⟨dev_full_update.parent_instance.log ++ init_part ++
      exchange dev_full_update.update_ep CMD_START_TRANSFER
        (uint64_le [0x61, 0x62, 0x63].length) ++
      data_exchanges dev_full_update.update_ep
        (fu_chunk_array_new_from_bytes [0x61, 0x62, 0x63] 0x0 0x0 PAYLOAD_SIZE), ?_⟩,
    by decide, by decide⟩
  rw [hlog, hb64]
  rfl

/-! ### The timeout of the read and the checks of the answer -/

theorem upd_recv_length (self : FuLogitechScribeDevice) (buf : List Nat) (timeout : Nat) :
    (fu_logitech_scribe_device_recv self buf BULK_INTERFACE_UPD timeout).buf.length =
      buf.length := by
  unfold fu_logitech_scribe_device_recv g_usb_device_bulk_transfer
  rw [if_pos rfl]
  simp only []
  rcases self.parent_instance.bulk with _ | ⟨o, rest⟩
  · rfl
  · cases o with
    | failed m => rfl
    | done value => exact FuJabraGnp.transfer_into_length _ _

theorem upd_response_length (self : FuLogitechScribeDevice) (cmd : Nat)
    (buf : Option (List Nat)) : (upd_response self cmd buf).buf.length = MAX_DATA_SIZE := by
  unfold upd_response
  rw [upd_recv_length, set_size_length]

theorem memread_eq (buf : List Nat) (offset : Nat) (h : offset + 4 ≤ buf.length) :
    fu_memread_uint32_safe buf buf.length offset FuEndianType.G_LITTLE_ENDIAN =
      some (FuJabraGnp.read_uint32_le buf offset) := by
  unfold fu_memread_uint32_safe
  rw [if_pos ⟨h, le_refl _⟩]
  rfl

/-- The checks of the answer, for an answer of at least 12 bytes. -/
theorem send_upd_cmd_check_eq (self : FuLogitechScribeDevice) (cmd : Nat)
    (buf_ack : List Nat) (h : 12 ≤ buf_ack.length) :
    fu_logitech_scribe_device_send_upd_cmd_check self cmd buf_ack =
      if FuJabraGnp.read_uint32_le buf_ack 0 ≠ CMD_ACK then
        ⟨self, (), false, some ⟨GErrorDomain.G_IO_ERROR, Message.not_CMD_ACK cmd⟩⟩
      else if FuJabraGnp.read_uint32_le buf_ack 8 ≠ cmd then
        ⟨self, (), false,
          some ⟨GErrorDomain.G_IO_ERROR,
            Message.invalid_upd_message_received cmd (FuJabraGnp.read_uint32_le buf_ack 8)⟩⟩
      else ⟨self, (), true, none⟩ := by
  have h0 : fu_memread_uint32_safe buf_ack buf_ack.length COMMAND_OFFSET
      FuEndianType.G_LITTLE_ENDIAN = some (FuJabraGnp.read_uint32_le buf_ack 0) :=
    memread_eq buf_ack 0 (by omega)
  have h8 : fu_memread_uint32_safe buf_ack buf_ack.length UPD_PACKET_HEADER_SIZE
      FuEndianType.G_LITTLE_ENDIAN = some (FuJabraGnp.read_uint32_le buf_ack 8) :=
    memread_eq buf_ack 8 (by omega)
  unfold fu_logitech_scribe_device_send_upd_cmd_check
  rw [h0]
  simp only []
  rw [h8]

/-- The command after a send and a receive that both succeed is the checks of
the response. -/
theorem send_upd_cmd_of_response (self : FuLogitechScribeDevice) (cmd : Nat)
    (buf : Option (List Nat)) (hs : (upd_sent self cmd buf).ret = true)
    (hr : (upd_response self cmd buf).ret = true) :
    fu_logitech_scribe_device_send_upd_cmd self cmd buf =
      fu_logitech_scribe_device_send_upd_cmd_check (upd_response self cmd buf).self cmd
        (upd_response self cmd buf).buf := by
  have hs2 : ¬ (fu_logitech_scribe_device_send self (upd_packet cmd (payload_of buf))
      BULK_INTERFACE_UPD).ret = false := fun h => Bool.noConfusion (hs.symm.trans h)
  have hr2 : ¬ (fu_logitech_scribe_device_recv
      (fu_logitech_scribe_device_send self (upd_packet cmd (payload_of buf))
        BULK_INTERFACE_UPD).self
      (fu_byte_array_set_size [] MAX_DATA_SIZE 0x00) BULK_INTERFACE_UPD
      (if CMD_END_TRANSFER = cmd then HASH_TIMEOUT else BULK_TRANSFER_TIMEOUT)).ret = false :=
    fun h => Bool.noConfusion (hr.symm.trans h)
  rw [send_upd_cmd_eq, if_neg hs2, if_neg hr2]
  rfl

/-- C22: the validation of the acknowledgment in
`fu_logitech_scribe_device_send_upd_cmd`.  For every command code `cmd`, when
the send and the receive both succeed, the response has `MAX_DATA_SIZE` = 8192
bytes, and the call returns success iff the 32-bit little-endian value at
offset 0 of the response is 0xFF01 (`CMD_ACK`) and the one at offset 8 is
`cmd`; then no error is set.  In every other case the call fails with an
error set: "not CMD_ACK" when the value at offset 0 is not 0xFF01, "invalid upd
message received" when it is and the value at offset 8 is not `cmd`. -/
theorem ack_validation (self : FuLogitechScribeDevice) (cmd : Nat) (buf : Option (List Nat))
    (hs : (upd_sent self cmd buf).ret = true)
    (hr : (upd_response self cmd buf).ret = true) :
    (upd_response self cmd buf).buf.length = 8192 ∧
    ((fu_logitech_scribe_device_send_upd_cmd self cmd buf).ret = true ↔
      FuJabraGnp.read_uint32_le (upd_response self cmd buf).buf 0 = 0xFF01 ∧
      FuJabraGnp.read_uint32_le (upd_response self cmd buf).buf 8 = cmd) ∧
    ((fu_logitech_scribe_device_send_upd_cmd self cmd buf).ret = true →
      (fu_logitech_scribe_device_send_upd_cmd self cmd buf).error = none) ∧
    ((fu_logitech_scribe_device_send_upd_cmd self cmd buf).ret = false →
      (fu_logitech_scribe_device_send_upd_cmd self cmd buf).error ≠ none) ∧
    (FuJabraGnp.read_uint32_le (upd_response self cmd buf).buf 0 ≠ 0xFF01 →
      (fu_logitech_scribe_device_send_upd_cmd self cmd buf).ret = false ∧
      (fu_logitech_scribe_device_send_upd_cmd self cmd buf).error =
        some ⟨GErrorDomain.G_IO_ERROR, Message.not_CMD_ACK cmd⟩) ∧
    (FuJabraGnp.read_uint32_le (upd_response self cmd buf).buf 0 = 0xFF01 →
      FuJabraGnp.read_uint32_le (upd_response self cmd buf).buf 8 ≠ cmd →
      (fu_logitech_scribe_device_send_upd_cmd self cmd buf).ret = false ∧
      (fu_logitech_scribe_device_send_upd_cmd self cmd buf).error =
        some ⟨GErrorDomain.G_IO_ERROR,
          Message.invalid_upd_message_received cmd
            (FuJabraGnp.read_uint32_le (upd_response self cmd buf).buf 8)⟩) := by
  have hlen := upd_response_length self cmd buf
  have h12 : 12 ≤ (upd_response self cmd buf).buf.length := by
    rw [hlen]
    decide
  have hack : CMD_ACK = 0xFF01 := rfl
  rw [send_upd_cmd_of_response self cmd buf hs hr, send_upd_cmd_check_eq _ _ _ h12, hack]
  refine ⟨hlen, ?_⟩
  by_cases h0 : FuJabraGnp.read_uint32_le (upd_response self cmd buf).buf 0 = 0xFF01
  · by_cases h8 : FuJabraGnp.read_uint32_le (upd_response self cmd buf).buf 8 = cmd
    · rw [if_neg (fun h => h h0), if_neg (fun h => h h8)]
      exact ⟨⟨fun _ => ⟨h0, h8⟩, fun _ => rfl⟩, fun _ => rfl, fun h => Bool.noConfusion h,
        fun h => absurd h0 h, fun _ h => absurd h8 h⟩
    · rw [if_neg (fun h => h h0), if_pos h8]
      exact ⟨⟨fun h => Bool.noConfusion h, fun h => absurd h.2 h8⟩,
        fun h => Bool.noConfusion h, fun _ h => Option.noConfusion h,
        fun h => absurd h0 h, fun _ _ => ⟨rfl, rfl⟩⟩
  · rw [if_pos h0]
    exact ⟨⟨fun h => Bool.noConfusion h, fun h => absurd h.1 h0⟩,
      fun h => Bool.noConfusion h, fun _ h => Option.noConfusion h,
      fun _ => ⟨rfl, rfl⟩, fun h => absurd h h0⟩

/-- The header fields of the response are those of the answer of the
device. -/
theorem upd_response_read (self : FuLogitechScribeDevice) (cmd : Nat)
    (buf : Option (List Nat)) (a value : List Nat) (rest : List (Transfer (List Nat)))
    (offset : Nat)
    (hb : self.parent_instance.bulk = Transfer.done a :: Transfer.done value :: rest)
    (hv : offset + 4 ≤ value.length) (ho : offset + 4 ≤ MAX_DATA_SIZE) :
    FuJabraGnp.read_uint32_le (upd_response self cmd buf).buf offset =
      FuJabraGnp.read_uint32_le value offset := by
  have hz : (List.replicate MAX_DATA_SIZE 0).length = MAX_DATA_SIZE := List.length_replicate _ _
  unfold upd_response upd_sent
  rw [upd_send_done self _ a (Transfer.done value :: rest) hb, set_size_zero]
  simp only []
  rw [upd_recv_done _ (List.replicate MAX_DATA_SIZE 0) value _ rest rfl]
  simp only []
  unfold FuJabraGnp.read_uint32_le
  rw [transfer_into_getD _ _ offset (by omega) (by omega),
    transfer_into_getD _ _ (offset + 1) (by omega) (by omega),
    transfer_into_getD _ _ (offset + 2) (by omega) (by omega),
    transfer_into_getD _ _ (offset + 3) (by omega) (by omega)]

theorem ack_validation_witness :
    (fu_logitech_scribe_device_send_upd_cmd dev_ack_start CMD_START_TRANSFER
      (some [3, 0, 0, 0, 0, 0, 0, 0])).ret = true ∧
    (fu_logitech_scribe_device_send_upd_cmd dev_nack_start CMD_START_TRANSFER
      (some [3, 0, 0, 0, 0, 0, 0, 0])).ret = false ∧
    (fu_logitech_scribe_device_send_upd_cmd dev_nack_start CMD_START_TRANSFER
      (some [3, 0, 0, 0, 0, 0, 0, 0])).error =
        some ⟨GErrorDomain.G_IO_ERROR, Message.not_CMD_ACK CMD_START_TRANSFER⟩ :=
  ⟨(ack_validation dev_ack_start CMD_START_TRANSFER (some [3, 0, 0, 0, 0, 0, 0, 0])
      rfl rfl).2.1.mpr
      ⟨(upd_response_read dev_ack_start _ _ [] _ [] 0 rfl (by decide) (by decide)).trans
          (by decide),
        (upd_response_read dev_ack_start _ _ [] _ [] 8 rfl (by decide) (by decide)).trans
          (by decide)⟩,
    (ack_validation dev_nack_start CMD_START_TRANSFER (some [3, 0, 0, 0, 0, 0, 0, 0])
      rfl rfl).2.2.2.2.1
      (fun h => absurd
        ((upd_response_read dev_nack_start CMD_START_TRANSFER (some [3, 0, 0, 0, 0, 0, 0, 0])
          [] _ [] 0 rfl (by decide) (by decide)).symm.trans h) (by decide))⟩

/-- C21: the timeout of the read of the acknowledgment in
`fu_logitech_scribe_device_send_upd_cmd`.  `HASH_TIMEOUT` is 300 and
`BULK_TRANSFER_TIMEOUT` is 1000: for every device, command and payload the
packet is sent with the timeout 1000, and the read that follows is issued with
the timeout 300 when the command is `CMD_END_TRANSFER` and with 1000 for every
other command.  The read after `CMD_END_TRANSFER` has the shorter timeout, not
an extended one; on a device that acknowledges, the two transfers of
`CMD_END_TRANSFER` carry 1000 and 300, those of `CMD_START_TRANSFER` 1000 and
1000. -/
theorem end_transfer_timeout_is_shorter :
    HASH_TIMEOUT = 300 ∧ BULK_TRANSFER_TIMEOUT = 1000 ∧ HASH_TIMEOUT < BULK_TRANSFER_TIMEOUT ∧
    (∀ (self : FuLogitechScribeDevice) (cmd : Nat) (buf : Option (List Nat)),
      ∃ k, 1 ≤ k ∧ k ≤ 2 ∧
        (fu_logitech_scribe_device_send_upd_cmd self cmd buf).self.parent_instance.log =
          self.parent_instance.log ++
            List.take k
              [UsbEvent.bulk_transfer (self.update_ep.getD EP_OUT 0)
                  (upd_packet cmd (payload_of buf)) (8 + (payload_of buf).length) 1000,
                UsbEvent.bulk_transfer (self.update_ep.getD EP_IN 0)
                  (List.replicate MAX_DATA_SIZE 0) MAX_DATA_SIZE
                  (if cmd = CMD_END_TRANSFER then 300 else 1000)] ∧
        ((fu_logitech_scribe_device_send_upd_cmd self cmd buf).ret = true → k = 2)) ∧
    (fu_logitech_scribe_device_send_upd_cmd dev_ack_end CMD_END_TRANSFER
      (some [1, 0, 0, 0, 0, 0, 0, 0, 2, 0, 0, 0])).ret = true ∧
    (fu_logitech_scribe_device_send_upd_cmd dev_ack_end CMD_END_TRANSFER
      (some [1, 0, 0, 0, 0, 0, 0, 0, 2, 0, 0, 0])).self.parent_instance.log =
      [UsbEvent.bulk_transfer 0x02
          [0x04, 0xCC, 0, 0, 12, 0, 0, 0, 1, 0, 0, 0, 0, 0, 0, 0, 2, 0, 0, 0] 20 1000,
        UsbEvent.bulk_transfer 0x83 (List.replicate MAX_DATA_SIZE 0) MAX_DATA_SIZE 300] ∧
    (fu_logitech_scribe_device_send_upd_cmd dev_ack_start CMD_START_TRANSFER
      (some [3, 0, 0, 0, 0, 0, 0, 0])).self.parent_instance.log =
      [UsbEvent.bulk_transfer 0x02
          [0x02, 0xCC, 0, 0, 8, 0, 0, 0, 3, 0, 0, 0, 0, 0, 0, 0] 16 1000,
        UsbEvent.bulk_transfer 0x83 (List.replicate MAX_DATA_SIZE 0) MAX_DATA_SIZE 1000] := by
  have e1 := send_upd_cmd_acked dev_ack_end CMD_END_TRANSFER
    (some [1, 0, 0, 0, 0, 0, 0, 0, 2, 0, 0, 0]) [] (ack_of CMD_END_TRANSFER) [] rfl
    (by decide) (by decide)
  have e2 := send_upd_cmd_acked dev_ack_start CMD_START_TRANSFER
    (some [3, 0, 0, 0, 0, 0, 0, 0]) [] [0x01, 0xFF, 0, 0, 4, 0, 0, 0, 0x02, 0xCC, 0, 0] [] rfl
    (by decide) (by decide)
  refine ⟨rfl, rfl, by decide, fun self cmd buf => ?_, ?_, ?_, ?_⟩
  · exact (send_upd_cmd_exchange self cmd buf).2
  · rw [e1]
  · rw [e1]
    rfl
  · rw [e2]
    rfl

end FuLogitechScribe
